import Mathlib

/-! # multi_role_lp.c : connection table and discovery state machine

Shallow embedding of `src/examples/multi_role/cc26xx/app/multi_role_lp.c`.

* The file-scope variables of the C file are the fields of `State`.
* The arrays `connHandleMap`, `io_data_hdl`, `io_conf_hdl`, `keys_data_hdl`
  (all of size `MAX_NUM_BLE_CONNS`) are maps `Nat → Nat`; only indices below
  `MAX_NUM_BLE_CONNS` are ever read or written.
* Calls into the BLE stack are recorded as `Action`s, in program order.
* What the BLE stack answers during one handler (`linkDB_NumActive`,
  `linkDB_GetInfo`, `GATT_bm_alloc`, `GATT_WriteCharValue`, ...) is an `Env`.
* `gapRole_abort` is fatal: a handler that reaches it returns `none`.
-/

namespace MultiRole

/-! ## Constants of the build and of the stack headers -/

/-- Compile-time constants that the C file uses but does not define. -/
structure Config where
  /-- Size of the connection table. -/
  MAX_NUM_BLE_CONNS : Nat
  /-- Sentinel stored in a free slot of `connHandleMap`. -/
  INVALID_CONNHANDLE : Nat
  /-- Value `connHandle` is reset to when a link fails to establish. -/
  GAP_CONNHANDLE_INIT : Nat
  /-- Status code (a `uint8_t`) returned by `multi_role_addMappingEntry` on a
  full table. -/
  bleNoResources : Nat
  /-- Header size subtracted from `maxPduSize` for the MTU request. -/
  L2CAP_HDR_SIZE : Nat

/-- `IO_SERV_UUID` of the C file. -/
def IO_SERV_UUID : Nat := 0xAA64
/-- `MOVEMENT_SERV_UUID` of the C file. -/
def MOVEMENT_SERV_UUID : Nat := 0xAA80
/-- `SK_SERV_UUID` of the C file. -/
def SK_SERV_UUID : Nat := 0xFFE0
/-- `ST_LED_OFF` of the C file. -/
def ST_LED_OFF : Nat := 0x00
/-- `ST_LED_GREEN` of the C file. -/
def ST_LED_GREEN : Nat := 0x01
/-- `ST_LED_RED` of the C file. -/
def ST_LED_RED : Nat := 0x02
/-- `ST_BUTTON_RIGHT` of the C file. -/
def ST_BUTTON_RIGHT : Nat := 0x01
/-- `ST_BUTTON_LEFT` of the C file. -/
def ST_BUTTON_LEFT : Nat := 0x02

/-- `LO_UINT16(a)` : low byte of a 16-bit value. -/
def LO_UINT16 (a : Nat) : Nat := a % 256
/-- `HI_UINT16(a)` : high byte of a 16-bit value. -/
def HI_UINT16 (a : Nat) : Nat := (a / 256) % 256
/-- `GAP_ADTYPE_16BIT_MORE` : advertisement field type, some 16-bit UUIDs. -/
def GAP_ADTYPE_16BIT_MORE : Nat := 0x02
/-- `GAP_ADTYPE_16BIT_COMPLETE` : advertisement field type, all 16-bit UUIDs. -/
def GAP_ADTYPE_16BIT_COMPLETE : Nat := 0x03
/-- `ATT_UUID_SIZE` : byte length of a 128-bit UUID. -/
def ATT_UUID_SIZE : Nat := 16
/-- `ATT_BT_UUID_SIZE` : byte length of a 16-bit UUID. -/
def ATT_BT_UUID_SIZE : Nat := 2

/-- `BUILD_UINT16(lo, hi)` : the 16-bit value with the given low and high bytes. -/
def BUILD_UINT16 (loByte hiByte : Nat) : Nat := loByte % 256 + (hiByte % 256) * 256

/-- Discovery states (first anonymous enum of the C file). -/
inductive DiscState where
  | BLE_DISC_STATE_IDLE
  | BLE_DISC_STATE_MTU
  | BLE_DISC_STATE_SVC
  | BLE_DISC_STATE_CHAR
  | BLE_DISC_STATE_INIT_IO
  | BLE_DISC_STATE_INIT_KEYS
  | BLE_DISC_STATE_DONE
  deriving DecidableEq, Repr

/-- Characteristic discovery sub-states (second anonymous enum of the C file). -/
inductive CharDiscState where
  | CHAR_DISC_STATE_IO_DATA
  | CHAR_DISC_STATE_IO_CONF
  | CHAR_DISC_STATE_KEYS_DATA
  | CHAR_DISC_STATE_DONE
  deriving DecidableEq, Repr

/-- ATT method / opcode of a GATT message. The C code only compares the
opcode against these named constants. -/
inductive AttMethod where
  | ATT_ERROR_RSP
  | ATT_EXCHANGE_MTU_RSP
  | ATT_FIND_BY_TYPE_VALUE_RSP
  | ATT_READ_BY_TYPE_RSP
  | ATT_READ_REQ
  | ATT_READ_RSP
  | ATT_WRITE_REQ
  | ATT_WRITE_RSP
  | ATT_HANDLE_VALUE_NOTI
  | ATT_FLOW_CTRL_VIOLATED_EVENT
  | ATT_MTU_UPDATED_EVENT
  | otherMethod (code : Nat)
  deriving DecidableEq, Repr

/-- Status codes (`bStatus_t`). The C code only compares a status against
these named constants. -/
inductive Status where
  | SUCCESS
  | FAILURE
  | blePending
  | bleProcedureComplete
  | MSG_BUFFER_NOT_AVAIL
  | otherStatus (code : Nat)
  deriving DecidableEq, Repr

/-- Role of this device on a link (`connRole`); the C code only tests
equality with `GAP_PROFILE_CENTRAL`. -/
inductive ConnRole where
  | GAP_PROFILE_CENTRAL
  | GAP_PROFILE_PERIPHERAL
  deriving DecidableEq, Repr

/-- The fields of `gattMsgEvent_t` that the C file reads. -/
structure gattMsgEvent_t where
  /-- The field `hdr.status`. -/
  status : Status
  /-- The field `connHandle`. -/
  connHandle : Nat
  /-- The field `method`. -/
  method : AttMethod
  /-- The field `msg.findByTypeValueRsp.numInfo`. -/
  numInfo : Nat
  /-- Value of `ATT_ATTR_HANDLE(msg.findByTypeValueRsp.pHandlesInfo, 0)`. -/
  attrHandle0 : Nat
  /-- Value of `ATT_GRP_END_HANDLE(msg.findByTypeValueRsp.pHandlesInfo, 0)`. -/
  grpEndHandle0 : Nat
  /-- The field `msg.readByTypeRsp.numPairs`. -/
  numPairs : Nat
  /-- The bytes `msg.readByTypeRsp.pDataList`. -/
  pDataList : List Nat
  /-- The field `msg.errorRsp.reqOpcode`. -/
  reqOpcode : AttMethod
  /-- The byte `msg.handleValueNoti.pValue[0]`. -/
  notiValue0 : Nat
  deriving DecidableEq, Repr

/-- Parameter identifiers of the simple GATT profile (`paramID`). -/
inductive SimpleProfileParam where
  | SIMPLEPROFILE_CHAR1
  | SIMPLEPROFILE_CHAR2
  | SIMPLEPROFILE_CHAR3
  | SIMPLEPROFILE_CHAR4
  | SIMPLEPROFILE_CHAR5
  deriving DecidableEq, Repr

/-- Role events (`gapMultiRoleEvent_t`), by `gap.opcode`, with the fields the
C file reads. -/
inductive gapMultiRoleEvent_t where
  | GAP_DEVICE_INIT_DONE_EVENT (dataPktLen : Nat)
  | GAP_MAKE_DISCOVERABLE_DONE_EVENT
  | GAP_END_DISCOVERABLE_DONE_EVENT
  | GAP_DEVICE_INFO_EVENT (addrType : Nat) (addr : List Nat) (pEvtData : List Nat)
      (dataLen : Nat)
  | GAP_DEVICE_DISCOVERY_EVENT
  | GAP_LINK_ESTABLISHED_EVENT (status : Status) (connectionHandle : Nat)
      (connRole : ConnRole)
  | GAP_LINK_TERMINATED_EVENT (connectionHandle : Nat) (reason : Nat)
  | GAP_LINK_PARAM_UPDATE_EVENT (status : Status)
  | otherOpcode (code : Nat)
  deriving DecidableEq, Repr

/-- The UUID argument of `GATT_DiscPrimaryServiceByUUID`. -/
inductive UuidArg where
  /-- The 16 bytes `TI_BASE_UUID_128(uuid16)`. -/
  | TI_BASE_UUID_128 (uuid16 : Nat)
  /-- An explicit byte array. -/
  | bytes (b : List Nat)
  deriving DecidableEq, Repr

/-- Calls into the BLE stack and the profiles, as issued by the handlers. -/
inductive Action where
  | GATT_ExchangeMTU (connHandle clientRxMTU : Nat)
  | GATT_DiscPrimaryServiceByUUID (connHandle : Nat) (uuid : UuidArg) (len : Nat)
  | GATT_DiscAllChars (connHandle startHandle endHandle : Nat)
  | GATT_WriteCharValue (connHandle handle : Nat) (value : List Nat)
  | GATT_bm_free_req
  | GAPRole_SetParameter_ADVERT_ENABLED (enabled : Bool)
  | Util_startClock
  | HCI_EXT_ConnEventNoticeCmd (connHandle : Nat) (enable : Bool)
  | GATT_SendRsp (connHandle : Nat) (method : AttMethod)
  | GATT_bm_free_rsp
  | ICall_freeMsg_rsp
  | Display_RspSent (retry : Nat)
  | Display_RspRetryFailed (retry : Nat)
  | Display_RspSendRetry (retry : Nat)
  | GAPRole_CancelDiscovery
  | GAPRole_EstablishLink (addrType : Nat) (addr : List Nat)
  | GAPRole_StartDiscovery
  | SimpleProfile_SetParameter (param : SimpleProfileParam) (value : Nat)
  | GATT_bm_free_msg
  deriving DecidableEq, Repr

/-- Answers of the BLE stack and the profiles during one handler run. -/
structure Env where
  /-- Result of `linkDB_NumActive()`. -/
  linkDB_NumActive : Nat
  /-- Role written to `pInfo.connRole` by `linkDB_GetInfo(h, &pInfo)`;
  `none` when the stack does not know `h` and leaves `pInfo` untouched. -/
  linkDB_GetInfo : Nat → Option ConnRole
  /-- Content of an uninitialised local `pInfo.connRole`. -/
  pInfoUninit : ConnRole
  /-- Whether `GATT_bm_alloc(h, ATT_WRITE_REQ, ..)` returns a buffer. -/
  GATT_bm_alloc : Nat → Bool
  /-- Status of `GATT_WriteCharValue(h, ..)`. -/
  GATT_WriteCharValue : Nat → Status
  /-- Content of the uninitialised local `status` of
  `multiRole_WriteCharValuesToAllSlaves`. -/
  statusUninit : Status
  /-- Status of `HCI_EXT_ConnEventNoticeCmd(h, ..)`. -/
  HCI_EXT_ConnEventNoticeCmd : Nat → Status
  /-- Status of `GATT_SendRsp(h, ..)`. -/
  GATT_SendRsp : Nat → Status
  /-- Value read by `SimpleProfile_GetParameter(SIMPLEPROFILE_CHAR2, ..)`. -/
  simpleProfileChar2 : Nat
  /-- Value read by `SimpleProfile_GetParameter(SIMPLEPROFILE_CHAR3, ..)`. -/
  simpleProfileChar3 : Nat

/-- The file-scope variables of `multi_role_lp.c`. -/
structure State where
  pAttRsp : Option gattMsgEvent_t
  rspTxRetry : Nat
  connHandle : Nat
  discState : DiscState
  svcStartHdl : Nat
  svcEndHdl : Nat
  io_data_hdl : Nat → Nat
  io_conf_hdl : Nat → Nat
  keys_data_hdl : Nat → Nat
  char_disc_state : CharDiscState
  maxPduSize : Nat
  connect_address_type : Nat
  connect_address : List Nat
  device_found : Bool
  connHandleMap : Nat → Nat
  st_leds_value : Nat

/-- Array store `a[i] = v`. -/
def setAt (a : Nat → Nat) (i v : Nat) : Nat → Nat :=
  fun j => if j = i then v else a j

/-! ## Connection table -/

/-- The loop of `multi_role_init` that fills `connHandleMap` with
`INVALID_CONNHANDLE`, from index `i`, with `fuel` iterations left. -/
def initMapLoop (cfg : Config) (m : Nat → Nat) : Nat → Nat → Nat → Nat
  | _, 0 => m
  | i, fuel + 1 => initMapLoop cfg (setAt m i cfg.INVALID_CONNHANDLE) (i + 1) fuel

/-- State after `multi_role_init`: the static initialisers of the C file,
then the table-initialisation loop. -/
def multi_role_init (cfg : Config) : State :=
  { pAttRsp := none
    rspTxRetry := 0
    connHandle := cfg.GAP_CONNHANDLE_INIT
    discState := DiscState.BLE_DISC_STATE_IDLE
    svcStartHdl := 0
    svcEndHdl := 0
    io_data_hdl := fun _ => 0
    io_conf_hdl := fun _ => 0
    keys_data_hdl := fun _ => 0
    char_disc_state := CharDiscState.CHAR_DISC_STATE_IO_DATA
    maxPduSize := 0
    connect_address_type := 0
    connect_address := []
    device_found := false
    connHandleMap := initMapLoop cfg (fun _ => 0) 0 cfg.MAX_NUM_BLE_CONNS
    st_leds_value := ST_LED_OFF }

/-- The `for` loop of `multi_role_mapConnHandleToIndex`, from `index`, with
`fuel` iterations left; `none` when the loop ends without a match. The
`uint16_t` counter stays below `MAX_NUM_BLE_CONNS`; callers that keep the
result in a `uint8_t` reduce it modulo 256. -/
def mapLoop (connHandleMap : Nat → Nat) (connHandle : Nat) : Nat → Nat → Option Nat
  | _, 0 => none
  | index, fuel + 1 =>
    if connHandleMap index = connHandle then some index
    else mapLoop connHandleMap connHandle (index + 1) fuel

/-- `multi_role_mapConnHandleToIndex`: `some index` is the returned index,
`none` means the loop fell through to `gapRole_abort()`. -/
def multi_role_mapConnHandleToIndex (cfg : Config) (s : State) (connHandle : Nat) :
    Option Nat :=
  mapLoop s.connHandleMap connHandle 0 cfg.MAX_NUM_BLE_CONNS

/-- The `for` loop of `multi_role_addMappingEntry`, from `index`, with `fuel`
iterations left: the first free index, `none` when the loop ends. -/
def addLoop (cfg : Config) (connHandleMap : Nat → Nat) : Nat → Nat → Option Nat
  | _, 0 => none
  | index, fuel + 1 =>
    if connHandleMap index = cfg.INVALID_CONNHANDLE then some index
    else addLoop cfg connHandleMap (index + 1) fuel

/-- `multi_role_addMappingEntry`: the new state and the returned `uint8_t`
(the claimed index, or `bleNoResources`). -/
def multi_role_addMappingEntry (cfg : Config) (s : State) (connHandle : Nat) :
    State × Nat :=
  match addLoop cfg s.connHandleMap 0 cfg.MAX_NUM_BLE_CONNS with
  | some index =>
    ({ s with connHandleMap := setAt s.connHandleMap index connHandle }, index % 256)
  | none => (s, cfg.bleNoResources)

/-! ## Advertisement filter -/

/-- The inner `while (adLen >= 2 && pData < pEnd)` loop of
`multi_role_findSvcUuid`, at offset `p` with `fuel` iterations left.
Result: `(true, _, _)` when a match returned `TRUE`, else the offset and
`adLen` on loop exit. -/
def findUuidInList (uuid : Nat) (pData : List Nat) (dataLen : Nat) :
    Nat → Nat → Nat → Bool × Nat × Nat
  | p, adLen, 0 => (false, p, adLen)
  | p, adLen, fuel + 1 =>
    if 2 ≤ adLen ∧ p + 1 < dataLen then
      if pData.getD p 0 = LO_UINT16 uuid ∧ pData.getD (p + 1) 0 = HI_UINT16 uuid then
        (true, p, adLen)
      else findUuidInList uuid pData dataLen (p + 2) (adLen - 2) fuel
    else (false, p, adLen)

/-- The outer `while (pData < pEnd)` loop of `multi_role_findSvcUuid`, at
offset `p` with `fuel` iterations left (`pEnd` is offset `dataLen - 1`, so
`pData < pEnd` reads `p + 1 < dataLen`); `none` when the fuel runs out. -/
def findSvcUuidLoop (uuid : Nat) (pData : List Nat) (dataLen : Nat) :
    Nat → Nat → Option Bool
  | p, 0 => if p + 1 < dataLen then none else some false
  | p, fuel + 1 =>
    if p + 1 < dataLen then
      let adLen := pData.getD p 0
      let p1 := p + 1
      if 0 < adLen then
        let adType := pData.getD p1 0
        if adType = GAP_ADTYPE_16BIT_MORE ∨ adType = GAP_ADTYPE_16BIT_COMPLETE then
          match findUuidInList uuid pData dataLen (p1 + 1) (adLen - 1) (adLen - 1) with
          | (true, _, _) => some true
          | (false, p2, adLen2) =>
            findSvcUuidLoop uuid pData dataLen (if adLen2 = 1 then p2 + 1 else p2) fuel
        else findSvcUuidLoop uuid pData dataLen (p1 + adLen) fuel
      else findSvcUuidLoop uuid pData dataLen p1 fuel
    else some false

/-- `multi_role_findSvcUuid(uuid, pData, dataLen)`; the outer loop gets
`dataLen` iterations of fuel. -/
def multi_role_findSvcUuid (uuid : Nat) (pData : List Nat) (dataLen : Nat) : Option Bool :=
  findSvcUuidLoop uuid pData dataLen 0 dataLen

/-! ## ATT response retry guard -/

/-- `multi_role_freeAttRsp(status)`. -/
def multi_role_freeAttRsp (s : State) (status : Status) : State × List Action :=
  match s.pAttRsp with
  | some _ =>
    ({ s with pAttRsp := none, rspTxRetry := 0 },
      (if status = Status.SUCCESS then [Action.Display_RspSent s.rspTxRetry]
       else [Action.GATT_bm_free_rsp, Action.Display_RspRetryFailed s.rspTxRetry])
      ++ [Action.ICall_freeMsg_rsp])
  | none => (s, [])

/-- `multi_role_sendAttRsp()`; `rspTxRetry` is a `uint8_t`. -/
def multi_role_sendAttRsp (env : Env) (s : State) : State × List Action :=
  match s.pAttRsp with
  | some rsp =>
    let s1 := { s with rspTxRetry := (s.rspTxRetry + 1) % 256 }
    let status := env.GATT_SendRsp rsp.connHandle
    if status ≠ Status.blePending ∧ status ≠ Status.MSG_BUFFER_NOT_AVAIL then
      let r := multi_role_freeAttRsp s1 status
      (r.1, [Action.GATT_SendRsp rsp.connHandle rsp.method,
             Action.HCI_EXT_ConnEventNoticeCmd rsp.connHandle false] ++ r.2)
    else
      (s1, [Action.GATT_SendRsp rsp.connHandle rsp.method,
            Action.Display_RspSendRetry s1.rspTxRetry])
  | none => (s, [])

/-! ## Role events -/

/-- `multi_role_processRoleEvent(pEvent)`; `none` when `gapRole_abort` is
reached. Display output is not modelled. -/
def multi_role_processRoleEvent (cfg : Config) (env : Env) (pEvent : gapMultiRoleEvent_t)
    (s : State) : Option (State × List Action) :=
  match pEvent with
  | gapMultiRoleEvent_t.GAP_DEVICE_INIT_DONE_EVENT dataPktLen =>
    some ({ s with maxPduSize := dataPktLen }, [])
  | gapMultiRoleEvent_t.GAP_MAKE_DISCOVERABLE_DONE_EVENT => some (s, [])
  | gapMultiRoleEvent_t.GAP_END_DISCOVERABLE_DONE_EVENT => some (s, [])
  | gapMultiRoleEvent_t.GAP_DEVICE_INFO_EVENT addrType addr pEvtData dataLen =>
    if multi_role_findSvcUuid MOVEMENT_SERV_UUID pEvtData dataLen = some true then
      some ({ s with connect_address_type := addrType, connect_address := addr,
                     device_found := true }, [Action.GAPRole_CancelDiscovery])
    else some (s, [])
  | gapMultiRoleEvent_t.GAP_DEVICE_DISCOVERY_EVENT =>
    if s.device_found then
      some (s, [Action.GAPRole_EstablishLink s.connect_address_type s.connect_address])
    else some (s, [])
  | gapMultiRoleEvent_t.GAP_LINK_ESTABLISHED_EVENT status connectionHandle connRole =>
    if status = Status.SUCCESS then
      let s1 := { s with connHandle := connectionHandle }
      let s2 := (multi_role_addMappingEntry cfg s1 s1.connHandle).1
      some (s2,
        (if cfg.MAX_NUM_BLE_CONNS ≤ env.linkDB_NumActive
            ∨ connRole = ConnRole.GAP_PROFILE_CENTRAL
         then [Action.GAPRole_SetParameter_ADVERT_ENABLED false] else [])
        ++ [Action.Util_startClock])
    else
      some ({ s with connHandle := cfg.GAP_CONNHANDLE_INIT,
                     discState := DiscState.BLE_DISC_STATE_MTU }, [])
  | gapMultiRoleEvent_t.GAP_LINK_TERMINATED_EVENT connectionHandle _ =>
    match multi_role_mapConnHandleToIndex cfg s connectionHandle with
    | none => none
    | some idx =>
      let index := idx % 256
      some ({ s with connHandleMap := setAt s.connHandleMap index cfg.INVALID_CONNHANDLE,
                     io_data_hdl := setAt s.io_data_hdl index 0,
                     io_conf_hdl := setAt s.io_conf_hdl index 0,
                     keys_data_hdl := setAt s.keys_data_hdl index 0 }, [])
  | gapMultiRoleEvent_t.GAP_LINK_PARAM_UPDATE_EVENT _ => some (s, [])
  | gapMultiRoleEvent_t.otherOpcode _ => some (s, [])

/-! ## Multicast write helper -/

/-- Content of the local `pInfo.connRole` after `linkDB_GetInfo(h, &pInfo)`,
given its content `before` the call. -/
def pInfoConnRole (env : Env) (h : Nat) (before : ConnRole) : ConnRole :=
  match env.linkDB_GetInfo h with
  | some r => r
  | none => before

/-- The bytes `value[0] .. value[size-1]` copied into the write request. -/
def copyValue (size : Nat) (value : List Nat) : List Nat :=
  (List.range size).map (fun j => value.getD j 0)

/-- The `for` loop of `multiRole_WriteCharValuesToAllSlaves`, from slot `i`
with `fuel` iterations left. `pInfo` and `status` are the locals of the C
function (kept across iterations); the result is the state, the returned
status and the actions issued so far. -/
def writeAllLoop (env : Env) (size : Nat) (value : List Nat) (handles : Nat → Nat) :
    Nat → Nat → State → ConnRole → Status → List Action → State × Status × List Action
  | _, 0, s, _, status, acts => (s, status, acts)
  | i, fuel + 1, s, pInfo, status, acts =>
    let s1 := { s with connHandle := s.connHandleMap i }
    let pInfo1 := pInfoConnRole env s1.connHandle pInfo
    if pInfo1 = ConnRole.GAP_PROFILE_CENTRAL then
      if env.GATT_bm_alloc s1.connHandle then
        let status1 := env.GATT_WriteCharValue s1.connHandle
        let acts1 := acts ++
          [Action.GATT_WriteCharValue s1.connHandle (handles i) (copyValue size value)]
        if status1 ≠ Status.SUCCESS then (s1, status1, acts1 ++ [Action.GATT_bm_free_req])
        else writeAllLoop env size value handles (i + 1) fuel s1 pInfo1 status1 acts1
      else writeAllLoop env size value handles (i + 1) fuel s1 pInfo1 status acts
    else writeAllLoop env size value handles (i + 1) fuel s1 pInfo1 status acts

/-- `multiRole_WriteCharValuesToAllSlaves(size, value, handles)`. -/
def multiRole_WriteCharValuesToAllSlaves (cfg : Config) (env : Env) (size : Nat)
    (value : List Nat) (handles : Nat → Nat) (s : State) : State × Status × List Action :=
  writeAllLoop env size value handles 0 cfg.MAX_NUM_BLE_CONNS s env.pInfoUninit
    env.statusUninit []

/-- `multi_role_processCharValueChangeEvt(paramID)`. -/
def multi_role_processCharValueChangeEvt (cfg : Config) (env : Env)
    (paramID : SimpleProfileParam) (s : State) : State × List Action :=
  match paramID with
  | SimpleProfileParam.SIMPLEPROFILE_CHAR3 =>
    let newValue := env.simpleProfileChar3
    if newValue = 0 ∧ s.st_leds_value ≠ ST_LED_OFF then
      let s1 := { s with st_leds_value := ST_LED_OFF }
      let r := multiRole_WriteCharValuesToAllSlaves cfg env 1 [s1.st_leds_value]
        s1.io_data_hdl s1
      (r.1, r.2.2)
    else if newValue = 1 ∧ s.st_leds_value = ST_LED_OFF then
      let s1 := { s with st_leds_value := ST_LED_GREEN ||| ST_LED_RED }
      let r := multiRole_WriteCharValuesToAllSlaves cfg env 1 [s1.st_leds_value]
        s1.io_data_hdl s1
      (r.1, r.2.2)
    else (s, [])
  | _ => (s, [])

/-! ## Discovery state machine -/

/-- `multi_role_startDiscovery()`; `req.clientRxMTU` is a `uint16_t`. -/
def multi_role_startDiscovery (cfg : Config) (s : State) : State × List Action :=
  let s1 := { s with svcStartHdl := 0, svcEndHdl := 0,
                     discState := DiscState.BLE_DISC_STATE_MTU }
  (s1, [Action.GATT_ExchangeMTU s1.connHandle
          ((s1.maxPduSize + 65536 - cfg.L2CAP_HDR_SIZE % 65536) % 65536)])

/-- First statement of the `BLE_DISC_STATE_SVC` branch of
`multi_role_processGATTDiscEvent`: a service was found, store its handles. -/
def discSvcStore (pMsg : gattMsgEvent_t) (s : State) : State :=
  if pMsg.method = AttMethod.ATT_FIND_BY_TYPE_VALUE_RSP ∧ 0 < pMsg.numInfo then
    { s with svcStartHdl := pMsg.attrHandle0, svcEndHdl := pMsg.grpEndHandle0 }
  else s

/-- Second statement of the `BLE_DISC_STATE_SVC` branch of
`multi_role_processGATTDiscEvent`: on procedure complete, discover the
characteristics of the service found. -/
def discSvcComplete (pMsg : gattMsgEvent_t) (s : State) : State × List Action :=
  if (pMsg.method = AttMethod.ATT_FIND_BY_TYPE_VALUE_RSP
        ∧ pMsg.status = Status.bleProcedureComplete)
      ∨ pMsg.method = AttMethod.ATT_ERROR_RSP then
    if s.svcStartHdl ≠ 0 then
      ({ s with discState := DiscState.BLE_DISC_STATE_CHAR },
        [Action.GATT_DiscAllChars s.connHandle s.svcStartHdl s.svcEndHdl])
    else (s, [])
  else (s, [])

/-- The `BLE_DISC_STATE_SVC` branch of `multi_role_processGATTDiscEvent`. -/
def discEventSvc (pMsg : gattMsgEvent_t) (s : State) : State × List Action :=
  discSvcComplete pMsg (discSvcStore pMsg s)

/-- First statement of the `BLE_DISC_STATE_CHAR` branch of
`multi_role_processGATTDiscEvent`: a characteristic was found, store its
handle and advance `char_disc_state`. -/
def discCharStore (pMsg : gattMsgEvent_t) (connIndex : Nat) (s : State) : State :=
  let hdl := BUILD_UINT16 (pMsg.pDataList.getD 3 0) (pMsg.pDataList.getD 4 0)
  if pMsg.method = AttMethod.ATT_READ_BY_TYPE_RSP ∧ 0 < pMsg.numPairs then
    match s.char_disc_state with
    | CharDiscState.CHAR_DISC_STATE_IO_DATA =>
      { s with io_data_hdl := setAt s.io_data_hdl connIndex hdl,
               char_disc_state := CharDiscState.CHAR_DISC_STATE_IO_CONF }
    | CharDiscState.CHAR_DISC_STATE_IO_CONF =>
      { s with io_conf_hdl := setAt s.io_conf_hdl connIndex hdl,
               char_disc_state := CharDiscState.CHAR_DISC_STATE_KEYS_DATA }
    | CharDiscState.CHAR_DISC_STATE_KEYS_DATA =>
      { s with keys_data_hdl := setAt s.keys_data_hdl connIndex hdl,
               char_disc_state := CharDiscState.CHAR_DISC_STATE_DONE }
    | CharDiscState.CHAR_DISC_STATE_DONE => s
  else s

/-- Second statement of the `BLE_DISC_STATE_CHAR` branch of
`multi_role_processGATTDiscEvent`: on procedure complete, search the next
service or start the configuration writes. -/
def discCharComplete (env : Env) (pMsg : gattMsgEvent_t) (connIndex : Nat) (s : State) :
    State × List Action :=
  if (pMsg.method = AttMethod.ATT_READ_BY_TYPE_RSP
        ∧ pMsg.status = Status.bleProcedureComplete)
      ∨ pMsg.method = AttMethod.ATT_ERROR_RSP then
    match s.char_disc_state with
    | CharDiscState.CHAR_DISC_STATE_KEYS_DATA =>
      ({ s with discState := DiscState.BLE_DISC_STATE_SVC },
        [Action.GATT_DiscPrimaryServiceByUUID s.connHandle
          (UuidArg.bytes [LO_UINT16 SK_SERV_UUID, HI_UINT16 SK_SERV_UUID]) ATT_BT_UUID_SIZE])
    | CharDiscState.CHAR_DISC_STATE_DONE =>
      if env.GATT_bm_alloc s.connHandle then
        ({ s with discState := DiscState.BLE_DISC_STATE_INIT_IO },
          [Action.GATT_WriteCharValue s.connHandle (s.io_data_hdl connIndex)
            [s.st_leds_value]]
          ++ (if env.GATT_WriteCharValue s.connHandle ≠ Status.SUCCESS
              then [Action.GATT_bm_free_req] else []))
      else (s, [])
    | _ => (s, [])
  else (s, [])

/-- The `BLE_DISC_STATE_CHAR` branch of `multi_role_processGATTDiscEvent`. -/
def discEventChar (env : Env) (pMsg : gattMsgEvent_t) (connIndex : Nat) (s : State) :
    State × List Action :=
  discCharComplete env pMsg connIndex (discCharStore pMsg connIndex s)

/-- A configuration write of `multi_role_processGATTDiscEvent`: allocate,
fill and send a write request, then move to `next`; nothing happens when the
buffer cannot be allocated. -/
def discEventWrite (env : Env) (handle : Nat) (value : List Nat) (next : DiscState)
    (s : State) : State × List Action :=
  if env.GATT_bm_alloc s.connHandle then
    ({ s with discState := next },
      [Action.GATT_WriteCharValue s.connHandle handle value]
      ++ (if env.GATT_WriteCharValue s.connHandle ≠ Status.SUCCESS
          then [Action.GATT_bm_free_req] else []))
  else (s, [])

/-- The `if` / `else if` chain of `multi_role_processGATTDiscEvent`, after
`connIndex` has been looked up. -/
def discEventBody (cfg : Config) (env : Env) (pMsg : gattMsgEvent_t) (connIndex : Nat)
    (s : State) : State × List Action :=
  if pMsg.method = AttMethod.ATT_MTU_UPDATED_EVENT then (s, [])
  else
    match s.discState with
    | DiscState.BLE_DISC_STATE_MTU =>
      if pMsg.method = AttMethod.ATT_EXCHANGE_MTU_RSP then
        if pInfoConnRole env s.connHandle env.pInfoUninit = ConnRole.GAP_PROFILE_CENTRAL then
          ({ s with discState := DiscState.BLE_DISC_STATE_SVC },
            [Action.GATT_DiscPrimaryServiceByUUID s.connHandle
              (UuidArg.TI_BASE_UUID_128 IO_SERV_UUID) ATT_UUID_SIZE])
        else ({ s with discState := DiscState.BLE_DISC_STATE_IDLE }, [])
      else (s, [])
    | DiscState.BLE_DISC_STATE_SVC => discEventSvc pMsg s
    | DiscState.BLE_DISC_STATE_CHAR => discEventChar env pMsg connIndex s
    | DiscState.BLE_DISC_STATE_INIT_IO =>
      if pMsg.method = AttMethod.ATT_WRITE_RSP then
        discEventWrite env (s.io_conf_hdl connIndex) [1]
          DiscState.BLE_DISC_STATE_INIT_KEYS s
      else (s, [])
    | DiscState.BLE_DISC_STATE_INIT_KEYS =>
      if pMsg.method = AttMethod.ATT_WRITE_RSP then
        discEventWrite env ((s.keys_data_hdl connIndex + 1) % 65536) [0x01, 0x00]
          DiscState.BLE_DISC_STATE_DONE s
      else (s, [])
    | DiscState.BLE_DISC_STATE_DONE =>
      if pMsg.method = AttMethod.ATT_WRITE_RSP then
        ({ s with discState := DiscState.BLE_DISC_STATE_IDLE,
                  char_disc_state := CharDiscState.CHAR_DISC_STATE_IO_DATA },
          if env.linkDB_NumActive < cfg.MAX_NUM_BLE_CONNS
          then [Action.GAPRole_SetParameter_ADVERT_ENABLED true] else [])
      else (s, [])
    | DiscState.BLE_DISC_STATE_IDLE => (s, [])

/-- `multi_role_processGATTDiscEvent(pMsg)`; `none` when the lookup of
`connHandle` reaches `gapRole_abort`. `connIndex` is a `uint8_t`. -/
def multi_role_processGATTDiscEvent (cfg : Config) (env : Env) (pMsg : gattMsgEvent_t)
    (s : State) : Option (State × List Action) :=
  match multi_role_mapConnHandleToIndex cfg s s.connHandle with
  | none => none
  | some idx => some (discEventBody cfg env pMsg (idx % 256) s)

/-! ## GATT message dispatch and the event loop -/

/-- The part of `multi_role_processGATTMsg` guarded by
`linkDB_NumActive() > 0` and `discState == BLE_DISC_STATE_IDLE`: read and
write responses are only displayed, a notification drives the LEDs. -/
def gattMsgIdle (cfg : Config) (env : Env) (pMsg : gattMsgEvent_t) (s : State) :
    State × List Action :=
  if pMsg.method = AttMethod.ATT_READ_RSP
      ∨ (pMsg.method = AttMethod.ATT_ERROR_RSP ∧ pMsg.reqOpcode = AttMethod.ATT_READ_REQ) then
    (s, [])
  else if pMsg.method = AttMethod.ATT_WRITE_RSP
      ∨ (pMsg.method = AttMethod.ATT_ERROR_RSP ∧ pMsg.reqOpcode = AttMethod.ATT_WRITE_REQ) then
    (s, [])
  else if pMsg.method = AttMethod.ATT_HANDLE_VALUE_NOTI then
    if pMsg.notiValue0 = ST_BUTTON_LEFT then
      (s, [Action.SimpleProfile_SetParameter SimpleProfileParam.SIMPLEPROFILE_CHAR2
            ((env.simpleProfileChar2 + 1) % 256)])
    else if pMsg.notiValue0 = ST_BUTTON_RIGHT then
      let s1 := { s with st_leds_value := (s.st_leds_value ^^^ (ST_LED_RED ||| ST_LED_GREEN)) % 256 }
      let r := multiRole_WriteCharValuesToAllSlaves cfg env 1 [s1.st_leds_value]
        s1.io_data_hdl s1
      (r.1, r.2.2 ++ [Action.SimpleProfile_SetParameter
        SimpleProfileParam.SIMPLEPROFILE_CHAR4 r.1.st_leds_value])
    else (s, [])
  else (s, [])

/-- `multi_role_processGATTMsg(pMsg)`: new state, actions, and the returned
flag (`TRUE` when the caller may free the message); `none` when
`gapRole_abort` is reached. -/
def multi_role_processGATTMsg (cfg : Config) (env : Env) (pMsg : gattMsgEvent_t)
    (s : State) : Option (State × List Action × Bool) :=
  if pMsg.status = Status.blePending
      ∧ env.HCI_EXT_ConnEventNoticeCmd pMsg.connHandle = Status.SUCCESS then
    let r := multi_role_freeAttRsp s Status.FAILURE
    some ({ r.1 with pAttRsp := some pMsg },
      [Action.HCI_EXT_ConnEventNoticeCmd pMsg.connHandle true] ++ r.2, false)
  else
    let pre := if pMsg.status = Status.blePending
      then [Action.HCI_EXT_ConnEventNoticeCmd pMsg.connHandle true] else []
    if 0 < env.linkDB_NumActive then
      if s.discState ≠ DiscState.BLE_DISC_STATE_IDLE then
        match multi_role_processGATTDiscEvent cfg env pMsg s with
        | none => none
        | some r => some (r.1, pre ++ r.2 ++ [Action.GATT_bm_free_msg], true)
      else
        let r := gattMsgIdle cfg env pMsg s
        some (r.1, pre ++ r.2 ++ [Action.GATT_bm_free_msg], true)
    else some (s, pre ++ [Action.GATT_bm_free_msg], true)

/-- Events handled by one pass of the loop of `multi_role_taskFxn`. -/
inductive Event where
  /-- A `GAP_MSG_EVENT` stack message, or a queued `MR_STATE_CHANGE_EVT`. -/
  | roleEvent (pEvent : gapMultiRoleEvent_t)
  /-- A `GATT_MSG_EVENT` stack message. -/
  | gattMsg (pMsg : gattMsgEvent_t)
  /-- A stack event with the `MR_CONN_EVT_END_EVT` flag. -/
  | connEvtEnd
  /-- A queued `MR_CHAR_CHANGE_EVT`. -/
  | charChange (paramID : SimpleProfileParam)
  /-- The `MR_START_DISCOVERY_EVT` flag set by the discovery clock. -/
  | startDiscovery
  deriving DecidableEq, Repr

/-- One event processed by `multi_role_taskFxn`; `none` when `gapRole_abort`
is reached. -/
def taskStep (cfg : Config) (env : Env) (ev : Event) (s : State) :
    Option (State × List Action) :=
  match ev with
  | Event.roleEvent pEvent => multi_role_processRoleEvent cfg env pEvent s
  | Event.gattMsg pMsg =>
    match multi_role_processGATTMsg cfg env pMsg s with
    | none => none
    | some r => some (r.1, r.2.1)
  | Event.connEvtEnd => some (multi_role_sendAttRsp env s)
  | Event.charChange paramID => some (multi_role_processCharValueChangeEvt cfg env paramID s)
  | Event.startDiscovery => some (multi_role_startDiscovery cfg s)

/-- Run of the event loop over a list of events, each with the answers of
the stack during its handler, starting in `s`; `none` when `gapRole_abort`
is reached. -/
def taskRun (cfg : Config) : State → List (Env × Event) → Option State
  | s, [] => some s
  | s, (env, ev) :: rest =>
    match taskStep cfg env ev s with
    | none => none
    | some r => taskRun cfg r.1 rest

/-- Run of `multi_role_processRoleEvent` over a list of role events. -/
def roleRun (cfg : Config) : State → List (Env × gapMultiRoleEvent_t) → Option State
  | s, [] => some s
  | s, (env, e) :: rest =>
    match multi_role_processRoleEvent cfg env e s with
    | none => none
    | some r => roleRun cfg r.1 rest

/-- Run of `multi_role_processGATTDiscEvent` over a list of GATT messages:
the states visited, the start state first; the run stops at `gapRole_abort`. -/
def discRun (cfg : Config) : State → List (Env × gattMsgEvent_t) → List State
  | s, [] => [s]
  | s, (env, m) :: rest =>
    match multi_role_processGATTDiscEvent cfg env m s with
    | none => [s]
    | some r => s :: discRun cfg r.1 rest

/-- Run of `multi_role_processGATTDiscEvent` over a list of GATT messages:
the final state and all actions issued, in order; `none` when
`gapRole_abort` is reached. -/
def discFold (cfg : Config) : State → List (Env × gattMsgEvent_t) → Option (State × List Action)
  | s, [] => some (s, [])
  | s, (env, m) :: rest =>
    match multi_role_processGATTDiscEvent cfg env m s with
    | none => none
    | some r =>
      match discFold cfg r.1 rest with
      | none => none
      | some r2 => some (r2.1, r.2 ++ r2.2)

/-- The handle carried by a successful link-established event. -/
def establishedHandle : gapMultiRoleEvent_t → Option Nat
  | gapMultiRoleEvent_t.GAP_LINK_ESTABLISHED_EVENT Status.SUCCESS h _ => some h
  | _ => none

/-- Along a run of role events from `s`, every successful link-established
event carries a handle that no slot of the table holds at that moment. -/
def freshHandles (cfg : Config) : State → List (Env × gapMultiRoleEvent_t) → Bool
  | _, [] => true
  | s, (env, e) :: rest =>
    (match establishedHandle e with
      | some h => decide (∀ i, i < cfg.MAX_NUM_BLE_CONNS → s.connHandleMap i ≠ h)
      | none => true)
    && (match multi_role_processRoleEvent cfg env e s with
      | none => true
      | some r => freshHandles cfg r.1 rest)

/-! ## Properties stated by the specification -/

/-- Slot `i` of the connection table is occupied. -/
def Occupied (cfg : Config) (s : State) (i : Nat) : Prop :=
  s.connHandleMap i ≠ cfg.INVALID_CONNHANDLE

/-- No two occupied slots of `connHandleMap` hold the same handle. -/
def UniqueHandles (cfg : Config) (s : State) : Prop :=
  ∀ i, i < cfg.MAX_NUM_BLE_CONNS → ∀ j, j < cfg.MAX_NUM_BLE_CONNS →
    s.connHandleMap i ≠ cfg.INVALID_CONNHANDLE →
    s.connHandleMap i = s.connHandleMap j → i = j

/-- Handle `h` is held by some slot of `connHandleMap`. -/
def Mapped (cfg : Config) (s : State) (h : Nat) : Prop :=
  ∃ i, i < cfg.MAX_NUM_BLE_CONNS ∧ s.connHandleMap i = h

/-- Every free slot has its three derived attribute handles at zero. -/
def FreeSlotsZero (cfg : Config) (s : State) : Prop :=
  ∀ i, i < cfg.MAX_NUM_BLE_CONNS → s.connHandleMap i = cfg.INVALID_CONNHANDLE →
    s.io_data_hdl i = 0 ∧ s.io_conf_hdl i = 0 ∧ s.keys_data_hdl i = 0

instance (cfg : Config) (s : State) (i : Nat) : Decidable (Occupied cfg s i) := by
  unfold Occupied; infer_instance

instance (cfg : Config) (s : State) : Decidable (UniqueHandles cfg s) := by
  unfold UniqueHandles; infer_instance

instance (cfg : Config) (s : State) (h : Nat) : Decidable (Mapped cfg s h) := by
  unfold Mapped; infer_instance

instance (cfg : Config) (s : State) : Decidable (FreeSlotsZero cfg s) := by
  unfold FreeSlotsZero; infer_instance

/-- The edges of the discovery state machine listed by the specification. -/
def DiscEdge : DiscState → DiscState → Bool
  | DiscState.BLE_DISC_STATE_MTU, DiscState.BLE_DISC_STATE_SVC => true
  | DiscState.BLE_DISC_STATE_MTU, DiscState.BLE_DISC_STATE_IDLE => true
  | DiscState.BLE_DISC_STATE_SVC, DiscState.BLE_DISC_STATE_CHAR => true
  | DiscState.BLE_DISC_STATE_CHAR, DiscState.BLE_DISC_STATE_SVC => true
  | DiscState.BLE_DISC_STATE_CHAR, DiscState.BLE_DISC_STATE_INIT_IO => true
  | DiscState.BLE_DISC_STATE_INIT_IO, DiscState.BLE_DISC_STATE_INIT_KEYS => true
  | DiscState.BLE_DISC_STATE_INIT_KEYS, DiscState.BLE_DISC_STATE_DONE => true
  | DiscState.BLE_DISC_STATE_DONE, DiscState.BLE_DISC_STATE_IDLE => true
  | _, _ => false

/-! ## Concrete builds, stacks and runs -/

/-- A build with a table of three slots and the constant values of the BLE
stack headers. -/
def cfg3 : Config :=
  { MAX_NUM_BLE_CONNS := 3
    INVALID_CONNHANDLE := 0xFFFF
    GAP_CONNHANDLE_INIT := 0xFFFE
    bleNoResources := 0x15
    L2CAP_HDR_SIZE := 4 }

/-- A stack whose link database holds exactly the given links (handle and
role): `linkDB_GetInfo` and `GATT_bm_alloc` succeed for these handles only,
every write and every response goes through, and characteristic 3 of the
simple profile reads 1. -/
def envLinks (links : List (Nat × ConnRole)) : Env :=
  { linkDB_NumActive := links.length
    linkDB_GetInfo := fun h => links.lookup h
    pInfoUninit := ConnRole.GAP_PROFILE_PERIPHERAL
    GATT_bm_alloc := fun h => (links.lookup h).isSome
    GATT_WriteCharValue := fun _ => Status.SUCCESS
    statusUninit := Status.SUCCESS
    HCI_EXT_ConnEventNoticeCmd := fun _ => Status.SUCCESS
    GATT_SendRsp := fun _ => Status.SUCCESS
    simpleProfileChar2 := 0
    simpleProfileChar3 := 1 }

/-- A successful link-established event for handle `h` in role `role`. -/
def linkEstablished (h : Nat) (role : ConnRole) : gapMultiRoleEvent_t :=
  gapMultiRoleEvent_t.GAP_LINK_ESTABLISHED_EVENT Status.SUCCESS h role

/-- A link-terminated event for handle `h`. -/
def linkTerminated (h : Nat) : gapMultiRoleEvent_t :=
  gapMultiRoleEvent_t.GAP_LINK_TERMINATED_EVENT h 0

/-- Scenario of the specification: links 10 (central), 11 (peripheral) and
12 (central) are established in this order, then link 11 terminates. -/
def scenarioABC : List (Env × gapMultiRoleEvent_t) :=
  [(envLinks [(10, ConnRole.GAP_PROFILE_CENTRAL)],
      linkEstablished 10 ConnRole.GAP_PROFILE_CENTRAL),
   (envLinks [(10, ConnRole.GAP_PROFILE_CENTRAL), (11, ConnRole.GAP_PROFILE_PERIPHERAL)],
      linkEstablished 11 ConnRole.GAP_PROFILE_PERIPHERAL),
   (envLinks [(10, ConnRole.GAP_PROFILE_CENTRAL), (11, ConnRole.GAP_PROFILE_PERIPHERAL),
              (12, ConnRole.GAP_PROFILE_CENTRAL)],
      linkEstablished 12 ConnRole.GAP_PROFILE_CENTRAL),
   (envLinks [(10, ConnRole.GAP_PROFILE_CENTRAL), (12, ConnRole.GAP_PROFILE_CENTRAL)],
      linkTerminated 11)]

/-- Two successful link-established events that carry the same handle 5. -/
def scenarioSameHandle : List (Env × gapMultiRoleEvent_t) :=
  [(envLinks [(5, ConnRole.GAP_PROFILE_CENTRAL)],
      linkEstablished 5 ConnRole.GAP_PROFILE_CENTRAL),
   (envLinks [(5, ConnRole.GAP_PROFILE_CENTRAL)],
      linkEstablished 5 ConnRole.GAP_PROFILE_CENTRAL)]

/-- A GATT message with the given method and status and empty payload. -/
def gattMsg0 (connHandle : Nat) (method : AttMethod) (status : Status) : gattMsgEvent_t :=
  { status := status, connHandle := connHandle, method := method, numInfo := 0
    attrHandle0 := 0, grpEndHandle0 := 0, numPairs := 0, pDataList := []
    reqOpcode := AttMethod.otherMethod 0, notiValue0 := 0 }

/-- An MTU exchange response on link `h`. -/
def msgMtuRsp (h : Nat) : gattMsgEvent_t :=
  gattMsg0 h AttMethod.ATT_EXCHANGE_MTU_RSP Status.SUCCESS

/-- A find-by-type-value response on link `h` with one service found, of
handle range `startHdl .. endHdl`. -/
def msgSvcFound (h startHdl endHdl : Nat) : gattMsgEvent_t :=
  { gattMsg0 h AttMethod.ATT_FIND_BY_TYPE_VALUE_RSP Status.SUCCESS with
    numInfo := 1, attrHandle0 := startHdl, grpEndHandle0 := endHdl }

/-- The procedure-complete message that ends a service search on link `h`. -/
def msgSvcComplete (h : Nat) : gattMsgEvent_t :=
  gattMsg0 h AttMethod.ATT_FIND_BY_TYPE_VALUE_RSP Status.bleProcedureComplete

/-- A read-by-type response on link `h` with one characteristic found, of
value handle `hdl` (bytes 3 and 4 of the data list). -/
def msgCharFound (h hdl : Nat) : gattMsgEvent_t :=
  { gattMsg0 h AttMethod.ATT_READ_BY_TYPE_RSP Status.SUCCESS with
    numPairs := 1, pDataList := [0, 0, 0, LO_UINT16 hdl, HI_UINT16 hdl] }

/-- The procedure-complete message that ends a characteristic discovery on
link `h`. -/
def msgCharComplete (h : Nat) : gattMsgEvent_t :=
  gattMsg0 h AttMethod.ATT_READ_BY_TYPE_RSP Status.bleProcedureComplete

/-- A write response on link `h`. -/
def msgWriteRsp (h : Nat) : gattMsgEvent_t :=
  gattMsg0 h AttMethod.ATT_WRITE_RSP Status.SUCCESS

/-- Scenario of the specification: MTU response, service found (10..20),
procedure complete, three characteristics found (21, 22, 23), procedure
complete. -/
def scenarioThreeChars (h : Nat) : List gattMsgEvent_t :=
  [msgMtuRsp h, msgSvcFound h 10 20, msgSvcComplete h, msgCharFound h 21,
   msgCharFound h 22, msgCharFound h 23, msgCharComplete h]

/-- As `scenarioThreeChars`, with two characteristics found (21, 22) before
the procedure complete. -/
def scenarioTwoChars (h : Nat) : List gattMsgEvent_t :=
  [msgMtuRsp h, msgSvcFound h 10 20, msgSvcComplete h, msgCharFound h 21,
   msgCharFound h 22, msgCharComplete h]

/-- A complete discovery on link `h`: first service with two
characteristics, second service with one, then the three write responses. -/
def scenarioFullDiscovery (h : Nat) : List gattMsgEvent_t :=
  scenarioTwoChars h ++
  [msgSvcFound h 30 40, msgSvcComplete h, msgCharFound h 31, msgCharComplete h,
   msgWriteRsp h, msgWriteRsp h, msgWriteRsp h]

/-- Pair every message of a list with the same answers of the stack. -/
def withEnv (env : Env) (msgs : List gattMsgEvent_t) : List (Env × gattMsgEvent_t) :=
  msgs.map (fun m => (env, m))

/-- The stack with the single link 0, formed as central. -/
def envCentral0 : Env := envLinks [(0, ConnRole.GAP_PROFILE_CENTRAL)]

/-- Events that bring the initial state to `BLE_DISC_STATE_MTU` for link 0:
device initialised, link 0 established as central, discovery clock. -/
def eventsToMtu : List (Env × Event) :=
  [(envLinks [], Event.roleEvent (gapMultiRoleEvent_t.GAP_DEVICE_INIT_DONE_EVENT 27)),
   (envCentral0, Event.roleEvent (linkEstablished 0 ConnRole.GAP_PROFILE_CENTRAL)),
   (envCentral0, Event.startDiscovery)]

/-- The state reached by `eventsToMtu` in a build with three slots. -/
def stateAtMtu : State :=
  (taskRun cfg3 (multi_role_init cfg3) eventsToMtu).getD (multi_role_init cfg3)

/-- The state reached from `stateAtMtu` by the MTU response of link 0:
`discState` is `BLE_DISC_STATE_SVC`. -/
def stateAtSvc : State :=
  (taskRun cfg3 stateAtMtu [(envCentral0, Event.gattMsg (msgMtuRsp 0))]).getD stateAtMtu

/-- The stack with link 0 formed as peripheral (a peer that connected to
this device) and link 1 formed as central. -/
def envTwoLinks : Env :=
  envLinks [(0, ConnRole.GAP_PROFILE_PERIPHERAL), (1, ConnRole.GAP_PROFILE_CENTRAL)]

/-- A run of the event loop in which the peer of link 0 writes
characteristic 3 while link 1 is in characteristic discovery. Link 0 is
established as peripheral and its discovery stops after the MTU response;
link 1 is established as central and its discovery reaches
`BLE_DISC_STATE_CHAR`; then characteristic 3 changes to 1; then the first
characteristic of link 1 is reported, with value handle 21. -/
def scenarioCharChangeDuringDiscovery : List (Env × Event) :=
  [(envLinks [], Event.roleEvent (gapMultiRoleEvent_t.GAP_DEVICE_INIT_DONE_EVENT 27)),
   (envLinks [(0, ConnRole.GAP_PROFILE_PERIPHERAL)],
      Event.roleEvent (linkEstablished 0 ConnRole.GAP_PROFILE_PERIPHERAL)),
   (envLinks [(0, ConnRole.GAP_PROFILE_PERIPHERAL)], Event.startDiscovery),
   (envLinks [(0, ConnRole.GAP_PROFILE_PERIPHERAL)], Event.gattMsg (msgMtuRsp 0)),
   (envTwoLinks, Event.roleEvent (linkEstablished 1 ConnRole.GAP_PROFILE_CENTRAL)),
   (envTwoLinks, Event.startDiscovery),
   (envTwoLinks, Event.gattMsg (msgMtuRsp 1)),
   (envTwoLinks, Event.gattMsg (msgSvcFound 1 10 20)),
   (envTwoLinks, Event.gattMsg (msgSvcComplete 1)),
   (envTwoLinks, Event.charChange SimpleProfileParam.SIMPLEPROFILE_CHAR3),
   (envTwoLinks, Event.gattMsg (msgCharFound 1 21))]

/-- Consecutive runs of `multi_role_sendAttRsp`, one per connection-event-end
notice, each with the answers of the stack at that moment. -/
def sendAttRspRun : State → List Env → State
  | s, [] => s
  | s, env :: rest => sendAttRspRun (multi_role_sendAttRsp env s).1 rest

/-- The stack with link 0 (central) whose transmit buffers are exhausted:
`GATT_SendRsp` reports `blePending`. -/
def envBusy : Env :=
  { envCentral0 with GATT_SendRsp := fun _ => Status.blePending }

/-- The stack with link 0 (central) in which `GATT_bm_alloc` returns no
buffer. -/
def envNoAlloc : Env :=
  { envCentral0 with GATT_bm_alloc := fun _ => false }

/-- A response of the local GATT server on link `h` that the stack could not
transmit: status `blePending`. -/
def msgRspPending (h : Nat) (method : AttMethod) : gattMsgEvent_t :=
  gattMsg0 h method Status.blePending

/-- The state in which the read response of link 0 is staged for
retransmission: `stateAtMtu` after `multi_role_processGATTMsg` received it
with status `blePending`. -/
def stateStaged : State :=
  ((multi_role_processGATTMsg cfg3 envCentral0 (msgRspPending 0 AttMethod.ATT_READ_RSP)
      stateAtMtu).map (fun r => r.1)).getD stateAtMtu

/-- The state reached from `stateAtMtu` by the first `n` messages of the
complete discovery of link 0. -/
def stateAfterDiscovery (n : Nat) : State :=
  ((discFold cfg3 stateAtMtu (withEnv envCentral0 ((scenarioFullDiscovery 0).take n))).map
    (fun r => r.1)).getD stateAtMtu

/-! ## Description of the multicast write, slot by slot -/

/-- Content of the local `pInfo.connRole` of
`multiRole_WriteCharValuesToAllSlaves` when the iteration reaches slot `i`:
uninitialised before slot 0, then what the call of `linkDB_GetInfo` for the
previous slot left in it. -/
def pInfoBefore (env : Env) (connHandleMap : Nat → Nat) : Nat → ConnRole
  | 0 => env.pInfoUninit
  | i + 1 => pInfoConnRole env (connHandleMap i) (pInfoBefore env connHandleMap i)

/-- The role that `multiRole_WriteCharValuesToAllSlaves` tests at slot `i`:
the content of `pInfo.connRole` after `linkDB_GetInfo(connHandleMap[i], ..)`. -/
def roleAtSlot (env : Env) (connHandleMap : Nat → Nat) (i : Nat) : ConnRole :=
  pInfoBefore env connHandleMap (i + 1)

/-- Slot `i` gets a write request: the role tested at the slot is central and
`GATT_bm_alloc` returns a buffer. -/
def slotWritten (env : Env) (connHandleMap : Nat → Nat) (i : Nat) : Bool :=
  decide (roleAtSlot env connHandleMap i = ConnRole.GAP_PROFILE_CENTRAL)
    && env.GATT_bm_alloc (connHandleMap i)

/-- The write request of slot `i`: `size` bytes of `value` to attribute
`handles[i]` on connection `connHandleMap[i]`. -/
def slotWrite (size : Nat) (value : List Nat) (handles connHandleMap : Nat → Nat)
    (i : Nat) : Action :=
  Action.GATT_WriteCharValue (connHandleMap i) (handles i) (copyValue size value)

/-- The write requests of the slots `i, i+1, .., i+n-1`, in this order. -/
def writesFrom (env : Env) (size : Nat) (value : List Nat)
    (handles connHandleMap : Nat → Nat) : Nat → Nat → List Action
  | _, 0 => []
  | i, n + 1 =>
    (if slotWritten env connHandleMap i then [slotWrite size value handles connHandleMap i]
     else [])
    ++ writesFrom env size value handles connHandleMap (i + 1) n

/-- The table `[10, free, 12]` reached by the scenario of the specification
(links 10, 11, 12 established, link 11 terminated). -/
def stateABC : State :=
  (roleRun cfg3 (multi_role_init cfg3) scenarioABC).getD (multi_role_init cfg3)

/-- The stack with the central links 10 and 12, in which `GATT_bm_alloc`
returns a buffer for every handle and a write on a handle that is not a link
fails. -/
def envAllocAlways : Env :=
  { envLinks [(10, ConnRole.GAP_PROFILE_CENTRAL), (12, ConnRole.GAP_PROFILE_CENTRAL)] with
    GATT_bm_alloc := fun _ => true
    GATT_WriteCharValue := fun h => if h = 10 ∨ h = 12 then Status.SUCCESS else Status.FAILURE }

/-- The stack with the central links 10 and 12, in which `GATT_bm_alloc`
returns no buffer for link 10. -/
def envNoAlloc10 : Env :=
  { envLinks [(10, ConnRole.GAP_PROFILE_CENTRAL), (12, ConnRole.GAP_PROFILE_CENTRAL)] with
    GATT_bm_alloc := fun h => decide (h = 12) }

/-- The stack with the central links 10 and 12, in which the write on link 12
fails. -/
def envSendFail12 : Env :=
  { envLinks [(10, ConnRole.GAP_PROFILE_CENTRAL), (12, ConnRole.GAP_PROFILE_CENTRAL)] with
    GATT_WriteCharValue := fun h => if h = 12 then Status.FAILURE else Status.SUCCESS }

/-- The stack with the central links 10 and 12, in which the write on link 10
fails. -/
def envSendFail10 : Env :=
  { envLinks [(10, ConnRole.GAP_PROFILE_CENTRAL), (12, ConnRole.GAP_PROFILE_CENTRAL)] with
    GATT_WriteCharValue := fun h => if h = 10 then Status.FAILURE else Status.SUCCESS }

/-- A link-established event that reports a failure. -/
def linkEstablishFailed : gapMultiRoleEvent_t :=
  gapMultiRoleEvent_t.GAP_LINK_ESTABLISHED_EVENT Status.FAILURE 0xFFFF
    ConnRole.GAP_PROFILE_CENTRAL

/-- A run of the event loop in which a connection attempt fails while link 0
(a peer that connected to this device) is up: device initialised, link 0
established as peripheral, discovery clock, MTU response of link 0 (discovery
stops, `discState` idle), link-established with a failure status. -/
def scenarioConnectFailure : List (Env × Event) :=
  [(envLinks [], Event.roleEvent (gapMultiRoleEvent_t.GAP_DEVICE_INIT_DONE_EVENT 27)),
   (envLinks [(0, ConnRole.GAP_PROFILE_PERIPHERAL)],
      Event.roleEvent (linkEstablished 0 ConnRole.GAP_PROFILE_PERIPHERAL)),
   (envLinks [(0, ConnRole.GAP_PROFILE_PERIPHERAL)], Event.startDiscovery),
   (envLinks [(0, ConnRole.GAP_PROFILE_PERIPHERAL)], Event.gattMsg (msgMtuRsp 0)),
   (envLinks [(0, ConnRole.GAP_PROFILE_PERIPHERAL)], Event.roleEvent linkEstablishFailed)]

/-- A run of the event loop in which the link under discovery terminates:
link 0 established as peripheral (discovery stops after the MTU response),
link 1 established as central, discovery clock, link 1 terminated. -/
def scenarioTerminateDuringDiscovery : List (Env × Event) :=
  [(envLinks [], Event.roleEvent (gapMultiRoleEvent_t.GAP_DEVICE_INIT_DONE_EVENT 27)),
   (envLinks [(0, ConnRole.GAP_PROFILE_PERIPHERAL)],
      Event.roleEvent (linkEstablished 0 ConnRole.GAP_PROFILE_PERIPHERAL)),
   (envLinks [(0, ConnRole.GAP_PROFILE_PERIPHERAL)], Event.startDiscovery),
   (envLinks [(0, ConnRole.GAP_PROFILE_PERIPHERAL)], Event.gattMsg (msgMtuRsp 0)),
   (envTwoLinks, Event.roleEvent (linkEstablished 1 ConnRole.GAP_PROFILE_CENTRAL)),
   (envTwoLinks, Event.startDiscovery),
   (envLinks [(0, ConnRole.GAP_PROFILE_PERIPHERAL)], Event.roleEvent (linkTerminated 1))]

/-! ## Description of the advertisement filter, iteration by iteration -/

/-- One iteration of the outer loop of `multi_role_findSvcUuid` entered at
offset `p`: `none` when the iteration returns `TRUE`, else the offset at which
the next iteration starts. -/
def findSvcUuidStep (uuid : Nat) (pData : List Nat) (dataLen : Nat) (p : Nat) : Option Nat :=
  let adLen := pData.getD p 0
  let p1 := p + 1
  if 0 < adLen then
    let adType := pData.getD p1 0
    if adType = GAP_ADTYPE_16BIT_MORE ∨ adType = GAP_ADTYPE_16BIT_COMPLETE then
      match findUuidInList uuid pData dataLen (p1 + 1) (adLen - 1) (adLen - 1) with
      | (true, _, _) => none
      | (false, p2, adLen2) => some (if adLen2 = 1 then p2 + 1 else p2)
    else some (p1 + adLen)
  else some p1

/-- The offsets at which the iterations of the outer loop of
`multi_role_findSvcUuid` are entered, from offset `p` on. -/
def findSvcUuidPositions (uuid : Nat) (pData : List Nat) (dataLen : Nat) :
    Nat → Nat → List Nat
  | _, 0 => []
  | p, fuel + 1 =>
    if p + 1 < dataLen then
      p :: (match findSvcUuidStep uuid pData dataLen p with
            | none => []
            | some p2 => findSvcUuidPositions uuid pData dataLen p2 fuel)
    else []

/-- The offsets dereferenced by the inner loop of `multi_role_findSvcUuid`:
`pData[0]` in every iteration, `pData[1]` when the first byte matched. -/
def findUuidInListReads (uuid : Nat) (pData : List Nat) (dataLen : Nat) :
    Nat → Nat → Nat → List Nat
  | _, _, 0 => []
  | p, adLen, fuel + 1 =>
    if 2 ≤ adLen ∧ p + 1 < dataLen then
      if pData.getD p 0 = LO_UINT16 uuid then
        if pData.getD (p + 1) 0 = HI_UINT16 uuid then [p, p + 1]
        else [p, p + 1] ++ findUuidInListReads uuid pData dataLen (p + 2) (adLen - 2) fuel
      else [p] ++ findUuidInListReads uuid pData dataLen (p + 2) (adLen - 2) fuel
    else []

/-- The offsets dereferenced by one iteration of the outer loop of
`multi_role_findSvcUuid` entered at offset `p`: the length byte `*pData++`,
the type byte `*pData` of a field of non-zero length, and the reads of the
inner loop for a field of 16-bit UUIDs. -/
def findSvcUuidStepReads (uuid : Nat) (pData : List Nat) (dataLen : Nat) (p : Nat) :
    List Nat :=
  let adLen := pData.getD p 0
  let p1 := p + 1
  [p] ++
    (if 0 < adLen then
      let adType := pData.getD p1 0
      [p1] ++
        (if adType = GAP_ADTYPE_16BIT_MORE ∨ adType = GAP_ADTYPE_16BIT_COMPLETE then
          findUuidInListReads uuid pData dataLen (p1 + 1) (adLen - 1) (adLen - 1)
        else [])
    else [])

/-- The offsets dereferenced by `multi_role_findSvcUuid` from offset `p` on. -/
def findSvcUuidReads (uuid : Nat) (pData : List Nat) (dataLen : Nat) :
    Nat → Nat → List Nat
  | _, 0 => []
  | p, fuel + 1 =>
    if p + 1 < dataLen then
      findSvcUuidStepReads uuid pData dataLen p ++
        (match findSvcUuidStep uuid pData dataLen p with
          | none => []
          | some p2 => findSvcUuidReads uuid pData dataLen p2 fuel)
    else []

/-! ## Well-formed advertisement payloads -/

/-- A field of an advertisement payload: its type byte and its data bytes. -/
structure AdField where
  adType : Nat
  data : List Nat
  deriving DecidableEq, Repr

/-- The bytes of a field: the length byte (type byte and data bytes counted),
the type byte, the data bytes. -/
def AdField.encode (f : AdField) : List Nat :=
  (f.data.length + 1) :: f.adType :: f.data

/-- The payload made of the fields `fs`, one after the other. -/
def advPayload : List AdField → List Nat
  | [] => []
  | f :: fs => f.encode ++ advPayload fs

/-- The list `data` holds the two bytes `(lo, hi)` of `uuid` at an even offset. -/
def holdsPair (uuid : Nat) (data : List Nat) : Prop :=
  ∃ j, 2 * j + 1 < data.length ∧ data.getD (2 * j) 0 = LO_UINT16 uuid
    ∧ data.getD (2 * j + 1) 0 = HI_UINT16 uuid

/-- Field `f` is a list of 16-bit service UUIDs (type 0x02 or 0x03) that
holds `uuid` at an even offset of its data. -/
def AdField.holdsUuid (uuid : Nat) (f : AdField) : Prop :=
  (f.adType = 0x02 ∨ f.adType = 0x03) ∧ holdsPair uuid f.data

/-! ## Theorems -/

/-! ### Loops over the connection table -/

theorem mapLoop_eq_some (m : Nat → Nat) (h : Nat) :
    ∀ fuel i k, mapLoop m h i fuel = some k ↔
      (i ≤ k ∧ k < i + fuel ∧ m k = h ∧ ∀ j, i ≤ j → j < k → m j ≠ h) := by
  intro fuel
  induction fuel with
  | zero =>
    intro i k
    simp only [mapLoop]
    constructor
    · intro hk; cases hk
    · rintro ⟨h1, h2, _⟩; omega
  | succ n ih =>
    intro i k
    simp only [mapLoop]
    by_cases hi : m i = h
    · simp only [hi, if_true, Option.some.injEq]
      constructor
      · rintro rfl
        exact ⟨le_refl _, by omega, hi, fun j h1 h2 => by omega⟩
      · rintro ⟨h1, _, _, h4⟩
        by_contra hne
        exact h4 i (le_refl _) (by omega) hi
    · simp only [hi, if_false, ih]
      constructor
      · rintro ⟨h1, h2, h3, h4⟩
        refine ⟨by omega, by omega, h3, fun j hj1 hj2 => ?_⟩
        by_cases hji : j = i
        · subst hji; exact hi
        · exact h4 j (by omega) hj2
      · rintro ⟨h1, h2, h3, h4⟩
        have hik : i ≠ k := by rintro rfl; exact hi h3
        exact ⟨by omega, by omega, h3, fun j hj1 hj2 => h4 j (by omega) hj2⟩

theorem mapLoop_eq_none (m : Nat → Nat) (h : Nat) :
    ∀ fuel i, mapLoop m h i fuel = none ↔ ∀ j, i ≤ j → j < i + fuel → m j ≠ h := by
  intro fuel
  induction fuel with
  | zero =>
    intro i
    simp only [mapLoop, true_iff]
    intro j h1 h2; omega
  | succ n ih =>
    intro i
    simp only [mapLoop]
    by_cases hi : m i = h
    · simp only [hi, if_true]
      constructor
      · intro hk; cases hk
      · intro hall; exact absurd hi (hall i (le_refl _) (by omega))
    · simp only [hi, if_false, ih]
      constructor
      · intro hall j hj1 hj2
        by_cases hji : j = i
        · subst hji; exact hi
        · exact hall j (by omega) (by omega)
      · intro hall j hj1 hj2
        exact hall j (by omega) (by omega)

theorem addLoop_eq_mapLoop (cfg : Config) (m : Nat → Nat) :
    ∀ fuel i, addLoop cfg m i fuel = mapLoop m cfg.INVALID_CONNHANDLE i fuel := by
  intro fuel
  induction fuel with
  | zero => intro i; rfl
  | succ n ih => intro i; simp only [addLoop, mapLoop, ih]

theorem setAt_same (a : Nat → Nat) (i v : Nat) : setAt a i v i = v := by
  simp [setAt]

theorem setAt_other (a : Nat → Nat) (i v j : Nat) (h : j ≠ i) : setAt a i v j = a j := by
  simp [setAt, h]

theorem initMapLoop_apply (cfg : Config) :
    ∀ fuel m i j, initMapLoop cfg m i fuel j =
      if i ≤ j ∧ j < i + fuel then cfg.INVALID_CONNHANDLE else m j := by
  intro fuel
  induction fuel with
  | zero =>
    intro m i j
    rw [if_neg (by omega)]
    rfl
  | succ n ih =>
    intro m i j
    simp only [initMapLoop]
    rw [ih]
    by_cases hji : j = i
    · subst hji
      rw [if_neg (by omega), if_pos (by omega), setAt_same]
    · by_cases hc : i ≤ j ∧ j < i + (n + 1)
      · rw [if_pos (by omega), if_pos hc]
      · rw [if_neg (by omega), if_neg hc, setAt_other _ _ _ _ hji]

theorem init_connHandleMap (cfg : Config) (i : Nat) (hi : i < cfg.MAX_NUM_BLE_CONNS) :
    (multi_role_init cfg).connHandleMap i = cfg.INVALID_CONNHANDLE := by
  simp [multi_role_init, initMapLoop_apply, hi]

theorem mapConnHandleToIndex_eq_some (cfg : Config) (s : State) (h k : Nat) :
    multi_role_mapConnHandleToIndex cfg s h = some k ↔
      (k < cfg.MAX_NUM_BLE_CONNS ∧ s.connHandleMap k = h
        ∧ ∀ j, j < k → s.connHandleMap j ≠ h) := by
  unfold multi_role_mapConnHandleToIndex
  rw [mapLoop_eq_some]
  constructor
  · rintro ⟨_, h2, h3, h4⟩
    exact ⟨by omega, h3, fun j hj => h4 j (Nat.zero_le _) hj⟩
  · rintro ⟨h2, h3, h4⟩
    exact ⟨Nat.zero_le _, by omega, h3, fun j _ hj => h4 j hj⟩

theorem mapConnHandleToIndex_eq_none (cfg : Config) (s : State) (h : Nat) :
    multi_role_mapConnHandleToIndex cfg s h = none ↔
      ∀ i, i < cfg.MAX_NUM_BLE_CONNS → s.connHandleMap i ≠ h := by
  unfold multi_role_mapConnHandleToIndex
  rw [mapLoop_eq_none]
  constructor
  · intro hall i hi; exact hall i (Nat.zero_le _) (by omega)
  · intro hall j _ hj; exact hall j (by omega)

/-- C5: `multi_role_mapConnHandleToIndex(h)` returns `k` exactly when `k` is
the least index below `MAX_NUM_BLE_CONNS` with `connHandleMap[k] == h`; it
returns an index whenever some slot holds `h`; and it reaches the fatal
abort (`gapRole_abort`) if and only if no slot holds `h`. The function only
reads the table: its embedding has no state result. -/
theorem mapConnHandleToIndex_least_or_abort (cfg : Config) (s : State) (h : Nat) :
    (∀ k, multi_role_mapConnHandleToIndex cfg s h = some k ↔
      (k < cfg.MAX_NUM_BLE_CONNS ∧ s.connHandleMap k = h
        ∧ ∀ j, j < k → s.connHandleMap j ≠ h))
    ∧ ((∃ i, i < cfg.MAX_NUM_BLE_CONNS ∧ s.connHandleMap i = h) →
        ∃ k, multi_role_mapConnHandleToIndex cfg s h = some k)
    ∧ (multi_role_mapConnHandleToIndex cfg s h = none ↔
        ∀ i, i < cfg.MAX_NUM_BLE_CONNS → s.connHandleMap i ≠ h) := by
  refine ⟨mapConnHandleToIndex_eq_some cfg s h, ?_, mapConnHandleToIndex_eq_none cfg s h⟩
  rintro ⟨i, hi, him⟩
  cases hres : multi_role_mapConnHandleToIndex cfg s h with
  | none => exact absurd him ((mapConnHandleToIndex_eq_none cfg s h).1 hres i hi)
  | some k => exact ⟨k, rfl⟩

/-- C2: `multi_role_addMappingEntry(h)`, for a table of at most 256 slots:
if `i` is the least free index, the function returns `i`, sets
`connHandleMap[i] = h` and leaves every other slot unchanged; if no slot is
free it returns `bleNoResources` and leaves the whole table unchanged. -/
theorem addMappingEntry_first_free (cfg : Config) (s : State) (h : Nat)
    (hmax : cfg.MAX_NUM_BLE_CONNS ≤ 256) :
    (∀ i, i < cfg.MAX_NUM_BLE_CONNS → s.connHandleMap i = cfg.INVALID_CONNHANDLE →
      (∀ j, j < i → s.connHandleMap j ≠ cfg.INVALID_CONNHANDLE) →
      (multi_role_addMappingEntry cfg s h).2 = i
      ∧ (multi_role_addMappingEntry cfg s h).1.connHandleMap i = h
      ∧ ∀ j, j ≠ i →
          (multi_role_addMappingEntry cfg s h).1.connHandleMap j = s.connHandleMap j)
    ∧ ((∀ i, i < cfg.MAX_NUM_BLE_CONNS → s.connHandleMap i ≠ cfg.INVALID_CONNHANDLE) →
      (multi_role_addMappingEntry cfg s h).2 = cfg.bleNoResources
      ∧ (multi_role_addMappingEntry cfg s h).1.connHandleMap = s.connHandleMap) := by
  constructor
  · intro i hi hfree hleast
    have hloop : addLoop cfg s.connHandleMap 0 cfg.MAX_NUM_BLE_CONNS = some i := by
      rw [addLoop_eq_mapLoop, mapLoop_eq_some]
      exact ⟨Nat.zero_le _, by omega, hfree, fun j _ hj => hleast j hj⟩
    simp only [multi_role_addMappingEntry, hloop]
    refine ⟨Nat.mod_eq_of_lt (by omega), setAt_same _ _ _, fun j hj => setAt_other _ _ _ _ hj⟩
  · intro hfull
    have hloop : addLoop cfg s.connHandleMap 0 cfg.MAX_NUM_BLE_CONNS = none := by
      rw [addLoop_eq_mapLoop, mapLoop_eq_none]
      intro j _ hj; exact hfull j (by omega)
    simp only [multi_role_addMappingEntry, hloop]
    exact ⟨trivial, trivial⟩

/-- C2, witness: adding handle 7 to the initial table of three slots claims
slot 0. -/
theorem addMappingEntry_first_free_witness :
    (multi_role_addMappingEntry cfg3 (multi_role_init cfg3) 7).2 = 0
    ∧ (multi_role_addMappingEntry cfg3 (multi_role_init cfg3) 7).1.connHandleMap 0 = 7
    ∧ ∀ j, j ≠ 0 →
        (multi_role_addMappingEntry cfg3 (multi_role_init cfg3) 7).1.connHandleMap j
          = (multi_role_init cfg3).connHandleMap j :=
  (addMappingEntry_first_free cfg3 (multi_role_init cfg3) 7 (by decide)).1 0
    (by decide) (by decide) (by intro j hj; omega)

/-- C5, witness: in the initial table of three slots no slot holds handle 5
and the lookup of 5 reaches the abort. -/
theorem mapConnHandleToIndex_least_or_abort_witness :
    multi_role_mapConnHandleToIndex cfg3 (multi_role_init cfg3) 5 = none :=
  (mapConnHandleToIndex_least_or_abort cfg3 (multi_role_init cfg3) 5).2.2.2 (by decide)

/-! ### Role events and the connection table -/

theorem unique_init (cfg : Config) : UniqueHandles cfg (multi_role_init cfg) := by
  intro i hi j _ hocc _
  exact absurd (init_connHandleMap cfg i hi) hocc

theorem unique_clear (cfg : Config) (m : Nat → Nat) (idx : Nat)
    (hu : ∀ i, i < cfg.MAX_NUM_BLE_CONNS → ∀ j, j < cfg.MAX_NUM_BLE_CONNS →
      m i ≠ cfg.INVALID_CONNHANDLE → m i = m j → i = j) :
    ∀ i, i < cfg.MAX_NUM_BLE_CONNS → ∀ j, j < cfg.MAX_NUM_BLE_CONNS →
      setAt m idx cfg.INVALID_CONNHANDLE i ≠ cfg.INVALID_CONNHANDLE →
      setAt m idx cfg.INVALID_CONNHANDLE i = setAt m idx cfg.INVALID_CONNHANDLE j → i = j := by
  intro i hi j hj hocc heq
  have hii : i ≠ idx := by
    rintro rfl; exact hocc (setAt_same _ _ _)
  rw [setAt_other _ _ _ _ hii] at hocc heq
  have hji : j ≠ idx := by
    rintro rfl
    rw [setAt_same] at heq
    exact hocc heq
  rw [setAt_other _ _ _ _ hji] at heq
  exact hu i hi j hj hocc heq

theorem unique_add (cfg : Config) (m : Nat → Nat) (k h : Nat)
    (hfresh : ∀ i, i < cfg.MAX_NUM_BLE_CONNS → m i ≠ h)
    (hu : ∀ i, i < cfg.MAX_NUM_BLE_CONNS → ∀ j, j < cfg.MAX_NUM_BLE_CONNS →
      m i ≠ cfg.INVALID_CONNHANDLE → m i = m j → i = j) :
    ∀ i, i < cfg.MAX_NUM_BLE_CONNS → ∀ j, j < cfg.MAX_NUM_BLE_CONNS →
      setAt m k h i ≠ cfg.INVALID_CONNHANDLE → setAt m k h i = setAt m k h j → i = j := by
  intro i hi j hj hocc heq
  by_cases hik : i = k
  · by_cases hjk : j = k
    · rw [hik, hjk]
    · rw [hik, setAt_same, setAt_other _ _ _ _ hjk] at heq
      exact absurd heq.symm (hfresh j hj)
  · by_cases hjk : j = k
    · rw [hjk, setAt_same, setAt_other _ _ _ _ hik] at heq
      exact absurd heq (hfresh i hi)
    · rw [setAt_other _ _ _ _ hik] at hocc heq
      rw [setAt_other _ _ _ _ hjk] at heq
      exact hu i hi j hj hocc heq

theorem addMappingEntry_unique (cfg : Config) (s : State) (h : Nat)
    (hfresh : ∀ i, i < cfg.MAX_NUM_BLE_CONNS → s.connHandleMap i ≠ h)
    (hu : UniqueHandles cfg s) :
    UniqueHandles cfg (multi_role_addMappingEntry cfg s h).1 := by
  unfold multi_role_addMappingEntry
  cases hloop : addLoop cfg s.connHandleMap 0 cfg.MAX_NUM_BLE_CONNS with
  | none => exact hu
  | some k => exact unique_add cfg s.connHandleMap k h hfresh hu

theorem processRoleEvent_unique (cfg : Config) (env : Env) (e : gapMultiRoleEvent_t)
    (s : State) (r : State × List Action)
    (hfresh : ∀ h, establishedHandle e = some h →
      ∀ i, i < cfg.MAX_NUM_BLE_CONNS → s.connHandleMap i ≠ h)
    (hu : UniqueHandles cfg s)
    (hstep : multi_role_processRoleEvent cfg env e s = some r) :
    UniqueHandles cfg r.1 := by
  cases e with
  | GAP_DEVICE_INIT_DONE_EVENT len =>
    simp only [multi_role_processRoleEvent, Option.some.injEq] at hstep
    subst hstep; exact hu
  | GAP_MAKE_DISCOVERABLE_DONE_EVENT =>
    simp only [multi_role_processRoleEvent, Option.some.injEq] at hstep
    subst hstep; exact hu
  | GAP_END_DISCOVERABLE_DONE_EVENT =>
    simp only [multi_role_processRoleEvent, Option.some.injEq] at hstep
    subst hstep; exact hu
  | GAP_DEVICE_INFO_EVENT addrType addr pEvtData dataLen =>
    simp only [multi_role_processRoleEvent] at hstep
    split at hstep <;>
      (simp only [Option.some.injEq] at hstep; subst hstep; exact hu)
  | GAP_DEVICE_DISCOVERY_EVENT =>
    simp only [multi_role_processRoleEvent] at hstep
    split at hstep <;>
      (simp only [Option.some.injEq] at hstep; subst hstep; exact hu)
  | GAP_LINK_ESTABLISHED_EVENT status h role =>
    simp only [multi_role_processRoleEvent] at hstep
    split at hstep
    · rename_i hs
      subst hs
      simp only [Option.some.injEq] at hstep
      subst hstep
      exact addMappingEntry_unique cfg { s with connHandle := h } h (hfresh h rfl) hu
    · simp only [Option.some.injEq] at hstep
      subst hstep; exact hu
  | GAP_LINK_TERMINATED_EVENT h reason =>
    simp only [multi_role_processRoleEvent] at hstep
    cases hl : multi_role_mapConnHandleToIndex cfg s h with
    | none => simp [hl] at hstep
    | some idx =>
      simp only [hl, Option.some.injEq] at hstep
      subst hstep
      exact unique_clear cfg s.connHandleMap (idx % 256) hu
  | GAP_LINK_PARAM_UPDATE_EVENT st =>
    simp only [multi_role_processRoleEvent, Option.some.injEq] at hstep
    subst hstep; exact hu
  | otherOpcode c =>
    simp only [multi_role_processRoleEvent, Option.some.injEq] at hstep
    subst hstep; exact hu

theorem roleRun_unique (cfg : Config) :
    ∀ (evs : List (Env × gapMultiRoleEvent_t)) (s s' : State),
      UniqueHandles cfg s → freshHandles cfg s evs = true → roleRun cfg s evs = some s' →
      UniqueHandles cfg s' := by
  intro evs
  induction evs with
  | nil =>
    intro s s' hu _ hrun
    simp only [roleRun, Option.some.injEq] at hrun
    subst hrun; exact hu
  | cons x rest ih =>
    intro s s' hu hfresh hrun
    obtain ⟨env, e⟩ := x
    simp only [roleRun] at hrun
    simp only [freshHandles, Bool.and_eq_true] at hfresh
    cases hstep : multi_role_processRoleEvent cfg env e s with
    | none => simp [hstep] at hrun
    | some r =>
      simp only [hstep] at hrun hfresh
      refine ih r.1 s' (processRoleEvent_unique cfg env e s r ?_ hu hstep) hfresh.2 hrun
      intro h he
      have h1 := hfresh.1
      simp only [he, decide_eq_true_eq] at h1
      exact h1

/-- C1 (as amended): starting from the initialised table, for every finite
sequence of role events in which each successful link-established event
carries a handle that no slot holds when it is processed, the state the run
reaches has no two occupied slots of `connHandleMap` with the same handle. -/
theorem connHandleMap_unique_of_fresh (cfg : Config)
    (evs : List (Env × gapMultiRoleEvent_t)) (s : State)
    (hfresh : freshHandles cfg (multi_role_init cfg) evs = true)
    (hrun : roleRun cfg (multi_role_init cfg) evs = some s) :
    UniqueHandles cfg s :=
  roleRun_unique cfg evs (multi_role_init cfg) s (unique_init cfg) hfresh hrun

/-- C1, counterexample: two successful link-established events with the same
handle 5 leave slots 0 and 1 both holding 5. -/
theorem connHandleMap_duplicate_handle :
    ∃ s, roleRun cfg3 (multi_role_init cfg3) scenarioSameHandle = some s
      ∧ s.connHandleMap 0 = 5 ∧ s.connHandleMap 1 = 5 ∧ ¬ UniqueHandles cfg3 s :=
  ⟨(roleRun cfg3 (multi_role_init cfg3) scenarioSameHandle).get (by decide),
    (Option.some_get _).symm, by decide, by decide, by decide⟩

/-- C1, witness: establish 10, 11, 12 then terminate 11 from the initial
table of three slots. -/
theorem connHandleMap_unique_of_fresh_witness :
    ∃ s, roleRun cfg3 (multi_role_init cfg3) scenarioABC = some s ∧ UniqueHandles cfg3 s :=
  ⟨(roleRun cfg3 (multi_role_init cfg3) scenarioABC).get (by decide),
    (Option.some_get _).symm,
    connHandleMap_unique_of_fresh cfg3 scenarioABC _ (by decide) (Option.some_get _).symm⟩

theorem addMappingEntry_reuse (cfg : Config) (s : State) (h i : Nat)
    (hmax : cfg.MAX_NUM_BLE_CONNS ≤ 256) (hi : i < cfg.MAX_NUM_BLE_CONNS)
    (hfree : s.connHandleMap i = cfg.INVALID_CONNHANDLE) :
    ∃ k, k ≤ i ∧ s.connHandleMap k = cfg.INVALID_CONNHANDLE
      ∧ (multi_role_addMappingEntry cfg s h).2 = k
      ∧ (multi_role_addMappingEntry cfg s h).1.connHandleMap k = h := by
  cases hloop : addLoop cfg s.connHandleMap 0 cfg.MAX_NUM_BLE_CONNS with
  | none =>
    rw [addLoop_eq_mapLoop, mapLoop_eq_none] at hloop
    exact absurd hfree (hloop i (Nat.zero_le _) (by omega))
  | some k =>
    have hk := hloop
    rw [addLoop_eq_mapLoop, mapLoop_eq_some] at hk
    obtain ⟨_, hk2, hk3, hk4⟩ := hk
    have hki : k ≤ i := by
      by_contra hlt
      exact hk4 i (Nat.zero_le _) (by omega) hfree
    refine ⟨k, hki, hk3, ?_, ?_⟩
    · simp only [multi_role_addMappingEntry, hloop]
      exact Nat.mod_eq_of_lt (by omega)
    · simp only [multi_role_addMappingEntry, hloop]
      exact setAt_same _ _ _

/-- C3: processing link-terminated for a handle `h` whose slot (the first
slot holding `h`) is `i` completes without abort, sets `connHandleMap[i]` to
`INVALID_CONNHANDLE` and `io_data_hdl[i]`, `io_conf_hdl[i]`,
`keys_data_hdl[i]` to 0, leaves every other slot of the four arrays
unchanged, and a following `multi_role_addMappingEntry` claims a free slot
of index at most `i`. In the scenario of capacity 3 (establish 10, 11, 12,
terminate 11) slots 0 and 2 are occupied and slot 1 is free. -/
theorem linkTerminated_clears_slot :
    (∀ (cfg : Config) (env : Env) (s : State) (h reason i : Nat),
      cfg.MAX_NUM_BLE_CONNS ≤ 256 → i < cfg.MAX_NUM_BLE_CONNS →
      s.connHandleMap i = h → (∀ j, j < i → s.connHandleMap j ≠ h) →
      ∃ s', multi_role_processRoleEvent cfg env
              (gapMultiRoleEvent_t.GAP_LINK_TERMINATED_EVENT h reason) s = some (s', [])
        ∧ s'.connHandleMap i = cfg.INVALID_CONNHANDLE
        ∧ s'.io_data_hdl i = 0 ∧ s'.io_conf_hdl i = 0 ∧ s'.keys_data_hdl i = 0
        ∧ (∀ j, j ≠ i → s'.connHandleMap j = s.connHandleMap j
            ∧ s'.io_data_hdl j = s.io_data_hdl j ∧ s'.io_conf_hdl j = s.io_conf_hdl j
            ∧ s'.keys_data_hdl j = s.keys_data_hdl j)
        ∧ (∀ h2, ∃ k, k ≤ i ∧ s'.connHandleMap k = cfg.INVALID_CONNHANDLE
            ∧ (multi_role_addMappingEntry cfg s' h2).2 = k
            ∧ (multi_role_addMappingEntry cfg s' h2).1.connHandleMap k = h2))
    ∧ (∃ s, roleRun cfg3 (multi_role_init cfg3) scenarioABC = some s
        ∧ Occupied cfg3 s 0 ∧ ¬ Occupied cfg3 s 1 ∧ Occupied cfg3 s 2) := by
  constructor
  · intro cfg env s h reason i hmax hi hmap hleast
    have hl : multi_role_mapConnHandleToIndex cfg s h = some i :=
      (mapConnHandleToIndex_eq_some cfg s h i).2 ⟨hi, hmap, hleast⟩
    have hmod : i % 256 = i := Nat.mod_eq_of_lt (by omega)
    have hstep : multi_role_processRoleEvent cfg env
        (gapMultiRoleEvent_t.GAP_LINK_TERMINATED_EVENT h reason) s
        = some ({ s with connHandleMap := setAt s.connHandleMap i cfg.INVALID_CONNHANDLE,
                         io_data_hdl := setAt s.io_data_hdl i 0,
                         io_conf_hdl := setAt s.io_conf_hdl i 0,
                         keys_data_hdl := setAt s.keys_data_hdl i 0 }, []) := by
      simp only [multi_role_processRoleEvent, hl, hmod]
    refine ⟨_, hstep, ?_, ?_, ?_, ?_, ?_, ?_⟩
    · exact setAt_same _ _ _
    · exact setAt_same _ _ _
    · exact setAt_same _ _ _
    · exact setAt_same _ _ _
    · intro j hj
      exact ⟨setAt_other _ _ _ _ hj, setAt_other _ _ _ _ hj, setAt_other _ _ _ _ hj,
        setAt_other _ _ _ _ hj⟩
    · intro h2
      exact addMappingEntry_reuse cfg _ h2 i hmax hi (setAt_same _ _ _)
  · exact ⟨(roleRun cfg3 (multi_role_init cfg3) scenarioABC).get (by decide),
      (Option.some_get _).symm, by decide, by decide, by decide⟩

/-- C3, witness: in the table `[10, 11, 12]` reached by three establishments,
terminating 11 clears slot 1. -/
theorem linkTerminated_clears_slot_witness :
    ∃ s', multi_role_processRoleEvent cfg3 (envLinks [])
            (gapMultiRoleEvent_t.GAP_LINK_TERMINATED_EVENT 11 0)
            ((roleRun cfg3 (multi_role_init cfg3) (scenarioABC.take 3)).getD
              (multi_role_init cfg3)) = some (s', [])
      ∧ s'.connHandleMap 1 = cfg3.INVALID_CONNHANDLE
      ∧ s'.io_data_hdl 1 = 0 ∧ s'.io_conf_hdl 1 = 0 ∧ s'.keys_data_hdl 1 = 0 := by
  obtain ⟨s', h1, h2, h3, h4, h5, _⟩ :=
    linkTerminated_clears_slot.1 cfg3 (envLinks [])
      ((roleRun cfg3 (multi_role_init cfg3) (scenarioABC.take 3)).getD (multi_role_init cfg3))
      11 0 1 (by decide) (by decide) (by decide) (by decide)
  exact ⟨s', h1, h2, h3, h4, h5⟩

/-- C4 (as amended): processing link-terminated for a handle held by no
slot of the connection table reaches `gapRole_abort` in
`multi_role_mapConnHandleToIndex`: the handler does not complete, so no
state is produced (neither a changed nor an unchanged one). -/
theorem linkTerminated_unmapped_aborts (cfg : Config) (env : Env) (s : State)
    (h reason : Nat)
    (hnone : ∀ i, i < cfg.MAX_NUM_BLE_CONNS → s.connHandleMap i ≠ h) :
    multi_role_processRoleEvent cfg env
      (gapMultiRoleEvent_t.GAP_LINK_TERMINATED_EVENT h reason) s = none := by
  have hl : multi_role_mapConnHandleToIndex cfg s h = none :=
    (mapConnHandleToIndex_eq_none cfg s h).2 hnone
  simp only [multi_role_processRoleEvent, hl]

/-- C4, witness: terminating handle 5 in the initial table of three slots. -/
theorem linkTerminated_unmapped_aborts_witness :
    multi_role_processRoleEvent cfg3 (envLinks [])
      (gapMultiRoleEvent_t.GAP_LINK_TERMINATED_EVENT 5 0) (multi_role_init cfg3) = none :=
  linkTerminated_unmapped_aborts cfg3 (envLinks [])
    (multi_role_init cfg3) 5 0 (by decide)

/-- C4, counterexample: with the table `[10, 0xFFFF, 12]` of the scenario,
handle 11 is held by no slot, and processing link-terminated for 11 does
not return a state: it reaches the abort. -/
theorem linkTerminated_unmapped_not_noop :
    ∃ s, roleRun cfg3 (multi_role_init cfg3) scenarioABC = some s
      ∧ (∀ i, i < cfg3.MAX_NUM_BLE_CONNS → s.connHandleMap i ≠ 11)
      ∧ (multi_role_processRoleEvent cfg3 (envLinks [])
          (gapMultiRoleEvent_t.GAP_LINK_TERMINATED_EVENT 11 0) s).isSome = false :=
  ⟨(roleRun cfg3 (multi_role_init cfg3) scenarioABC).get (by decide),
    (Option.some_get _).symm, by decide, by decide⟩

/-! ### Discovery state machine -/

theorem discSvcStore_discState (pMsg : gattMsgEvent_t) (s : State) :
    (discSvcStore pMsg s).discState = s.discState := by
  unfold discSvcStore
  split_ifs <;> rfl

theorem discEventSvc_discState (pMsg : gattMsgEvent_t) (s : State) :
    (discEventSvc pMsg s).1.discState = s.discState
    ∨ (discEventSvc pMsg s).1.discState = DiscState.BLE_DISC_STATE_CHAR := by
  unfold discEventSvc discSvcComplete
  split_ifs
  · right; rfl
  · left; exact discSvcStore_discState pMsg s
  · left; exact discSvcStore_discState pMsg s

theorem discCharStore_discState (pMsg : gattMsgEvent_t) (connIndex : Nat) (s : State) :
    (discCharStore pMsg connIndex s).discState = s.discState := by
  unfold discCharStore
  split_ifs
  · split <;> rfl
  · rfl

theorem discCharComplete_discState (env : Env) (pMsg : gattMsgEvent_t) (connIndex : Nat)
    (s : State) :
    (discCharComplete env pMsg connIndex s).1.discState = s.discState
    ∨ (discCharComplete env pMsg connIndex s).1.discState = DiscState.BLE_DISC_STATE_SVC
    ∨ (discCharComplete env pMsg connIndex s).1.discState
        = DiscState.BLE_DISC_STATE_INIT_IO := by
  unfold discCharComplete
  split_ifs <;> (try split) <;> simp

theorem discEventChar_discState (env : Env) (pMsg : gattMsgEvent_t) (connIndex : Nat)
    (s : State) :
    (discEventChar env pMsg connIndex s).1.discState = s.discState
    ∨ (discEventChar env pMsg connIndex s).1.discState = DiscState.BLE_DISC_STATE_SVC
    ∨ (discEventChar env pMsg connIndex s).1.discState = DiscState.BLE_DISC_STATE_INIT_IO := by
  have h := discCharComplete_discState env pMsg connIndex (discCharStore pMsg connIndex s)
  rw [discCharStore_discState] at h
  exact h

theorem discEventWrite_discState (env : Env) (handle : Nat) (value : List Nat)
    (next : DiscState) (s : State) :
    (discEventWrite env handle value next s).1.discState = s.discState
    ∨ (discEventWrite env handle value next s).1.discState = next := by
  unfold discEventWrite
  split_ifs <;> simp

theorem discEventBody_edge (cfg : Config) (env : Env) (pMsg : gattMsgEvent_t)
    (connIndex : Nat) (s : State) :
    (discEventBody cfg env pMsg connIndex s).1.discState = s.discState
    ∨ DiscEdge s.discState (discEventBody cfg env pMsg connIndex s).1.discState = true := by
  unfold discEventBody
  by_cases hm : pMsg.method = AttMethod.ATT_MTU_UPDATED_EVENT
  · rw [if_pos hm]; exact Or.inl rfl
  · rw [if_neg hm]
    cases hd : s.discState <;> simp only []
    · exact Or.inl hd
    · split_ifs
      · right; rfl
      · right; rfl
      · left; exact hd
    · rcases discEventSvc_discState pMsg s with h | h
      · left; rw [h, hd]
      · right; rw [h]; rfl
    · rcases discEventChar_discState env pMsg connIndex s with h | h | h
      · left; rw [h, hd]
      · right; rw [h]; rfl
      · right; rw [h]; rfl
    · split_ifs
      · rcases discEventWrite_discState env (s.io_conf_hdl connIndex) [1]
          DiscState.BLE_DISC_STATE_INIT_KEYS s with h | h
        · left; rw [h, hd]
        · right; rw [h]; rfl
      · left; exact hd
    · split_ifs
      · rcases discEventWrite_discState env ((s.keys_data_hdl connIndex + 1) % 65536)
          [0x01, 0x00] DiscState.BLE_DISC_STATE_DONE s with h | h
        · left; rw [h, hd]
        · right; rw [h]; rfl
      · left; exact hd
    · split_ifs <;> first
        | (left; exact hd)
        | (right; rfl)

theorem processGATTDiscEvent_edge (cfg : Config) (env : Env) (pMsg : gattMsgEvent_t)
    (s : State) (r : State × List Action)
    (hstep : multi_role_processGATTDiscEvent cfg env pMsg s = some r) :
    r.1.discState = s.discState ∨ DiscEdge s.discState r.1.discState = true := by
  unfold multi_role_processGATTDiscEvent at hstep
  cases hl : multi_role_mapConnHandleToIndex cfg s s.connHandle with
  | none => simp [hl] at hstep
  | some idx =>
    simp only [hl, Option.some.injEq] at hstep
    subst hstep
    exact discEventBody_edge cfg env pMsg (idx % 256) s

theorem discEdge_into_keys_or_done (a b : DiscState) (he : DiscEdge a b = true)
    (hb : b = DiscState.BLE_DISC_STATE_INIT_KEYS ∨ b = DiscState.BLE_DISC_STATE_DONE) :
    a = DiscState.BLE_DISC_STATE_INIT_IO ∨ a = DiscState.BLE_DISC_STATE_INIT_KEYS := by
  rcases hb with hb | hb <;> subst hb <;> cases a <;> simp [DiscEdge] at he ⊢

theorem discRun_passes_init_io (cfg : Config) :
    ∀ (msgs : List (Env × gattMsgEvent_t)) (s : State) (k : Nat) (st : State),
      s.discState ≠ DiscState.BLE_DISC_STATE_INIT_KEYS →
      s.discState ≠ DiscState.BLE_DISC_STATE_DONE →
      (discRun cfg s msgs)[k]? = some st →
      (st.discState = DiscState.BLE_DISC_STATE_INIT_KEYS
        ∨ st.discState = DiscState.BLE_DISC_STATE_DONE) →
      ∃ j st', j < k ∧ (discRun cfg s msgs)[j]? = some st'
        ∧ st'.discState = DiscState.BLE_DISC_STATE_INIT_IO := by
  intro msgs
  induction msgs with
  | nil =>
    intro s k st h1 h2 hk hst
    cases k with
    | zero =>
      simp only [discRun, List.getElem?_cons_zero, Option.some.injEq] at hk
      subst hk
      rcases hst with h | h
      · exact absurd h h1
      · exact absurd h h2
    | succ k' => simp [discRun] at hk
  | cons x rest ih =>
    intro s k st h1 h2 hk hst
    obtain ⟨env, m⟩ := x
    cases hstep : multi_role_processGATTDiscEvent cfg env m s with
    | none =>
      simp only [discRun, hstep] at hk
      cases k with
      | zero =>
        simp only [List.getElem?_cons_zero, Option.some.injEq] at hk
        subst hk
        rcases hst with h | h
        · exact absurd h h1
        · exact absurd h h2
      | succ k' => simp at hk
    | some r =>
      simp only [discRun, hstep] at hk ⊢
      cases k with
      | zero =>
        simp only [List.getElem?_cons_zero, Option.some.injEq] at hk
        subst hk
        rcases hst with h | h
        · exact absurd h h1
        · exact absurd h h2
      | succ k' =>
        simp only [List.getElem?_cons_succ] at hk
        by_cases hio : s.discState = DiscState.BLE_DISC_STATE_INIT_IO
        · exact ⟨0, s, Nat.succ_pos _, by simp, hio⟩
        · have hedge := processGATTDiscEvent_edge cfg env m s r hstep
          have hr1 : r.1.discState ≠ DiscState.BLE_DISC_STATE_INIT_KEYS := by
            intro hr
            rcases hedge with he | he
            · exact h1 (he ▸ hr)
            · rcases discEdge_into_keys_or_done _ _ he (Or.inl hr) with h | h
              · exact hio h
              · exact h1 h
          have hr2 : r.1.discState ≠ DiscState.BLE_DISC_STATE_DONE := by
            intro hr
            rcases hedge with he | he
            · exact h2 (he ▸ hr)
            · rcases discEdge_into_keys_or_done _ _ he (Or.inr hr) with h | h
              · exact hio h
              · exact h1 h
          obtain ⟨j, st', hj, hget, hst'⟩ := ih r.1 k' st hr1 hr2 hk hst
          exact ⟨j + 1, st', by omega, by simpa using hget, hst'⟩

theorem mapConnHandleToIndex_of_mapped (cfg : Config) (s : State) (h : Nat)
    (hmapped : Mapped cfg s h) :
    ∃ idx, multi_role_mapConnHandleToIndex cfg s h = some idx := by
  obtain ⟨i, hi, him⟩ := hmapped
  cases hres : multi_role_mapConnHandleToIndex cfg s h with
  | none => exact absurd him ((mapConnHandleToIndex_eq_none cfg s h).1 hres i hi)
  | some k => exact ⟨k, rfl⟩

theorem processGATTDiscEvent_of_lookup (cfg : Config) (env : Env) (pMsg : gattMsgEvent_t)
    (s : State) (idx : Nat)
    (hl : multi_role_mapConnHandleToIndex cfg s s.connHandle = some idx) :
    multi_role_processGATTDiscEvent cfg env pMsg s
      = some (discEventBody cfg env pMsg (idx % 256) s) := by
  simp only [multi_role_processGATTDiscEvent, hl]

/-- C7: for every discovery state and every GATT message,
`multi_role_processGATTDiscEvent` completes when `connHandle` is in the
connection table, and every call that completes either leaves `discState`
unchanged or moves it along one of the edges MTU→{SVC, IDLE}, SVC→CHAR,
CHAR→{SVC, INIT_IO}, INIT_IO→INIT_KEYS, INIT_KEYS→DONE, DONE→IDLE; hence on
every run of the function started in `BLE_DISC_STATE_MTU` (whatever the role
reported for the link), a state with `discState` `BLE_DISC_STATE_INIT_KEYS`
or `BLE_DISC_STATE_DONE` is preceded in the run by a state with `discState`
`BLE_DISC_STATE_INIT_IO`. -/
theorem discState_follows_fixed_order (cfg : Config) :
    (∀ (env : Env) (pMsg : gattMsgEvent_t) (s : State),
      Mapped cfg s s.connHandle →
      ∃ r, multi_role_processGATTDiscEvent cfg env pMsg s = some r)
    ∧ (∀ (env : Env) (pMsg : gattMsgEvent_t) (s : State) (r : State × List Action),
      multi_role_processGATTDiscEvent cfg env pMsg s = some r →
      r.1.discState = s.discState ∨ DiscEdge s.discState r.1.discState = true)
    ∧ (∀ (msgs : List (Env × gattMsgEvent_t)) (s : State) (k : Nat) (st : State),
      s.discState = DiscState.BLE_DISC_STATE_MTU →
      (discRun cfg s msgs)[k]? = some st →
      (st.discState = DiscState.BLE_DISC_STATE_INIT_KEYS
        ∨ st.discState = DiscState.BLE_DISC_STATE_DONE) →
      ∃ j st', j < k ∧ (discRun cfg s msgs)[j]? = some st'
        ∧ st'.discState = DiscState.BLE_DISC_STATE_INIT_IO) := by
  refine ⟨?_, fun env pMsg s r h => processGATTDiscEvent_edge cfg env pMsg s r h, ?_⟩
  · intro env pMsg s hmapped
    obtain ⟨idx, hl⟩ := mapConnHandleToIndex_of_mapped cfg s s.connHandle hmapped
    exact ⟨_, processGATTDiscEvent_of_lookup cfg env pMsg s idx hl⟩
  · intro msgs s k st hs hk hst
    exact discRun_passes_init_io cfg msgs s k st (by rw [hs]; decide) (by rw [hs]; decide)
      hk hst

/-- C7, witness: on the complete discovery of link 0 (thirteen messages), the
state at position 11 has `discState` `BLE_DISC_STATE_INIT_KEYS` and is
preceded by a state with `discState` `BLE_DISC_STATE_INIT_IO`. -/
theorem discState_follows_fixed_order_witness :
    ∃ j st', j < 11
      ∧ (discRun cfg3 stateAtMtu (withEnv envCentral0 (scenarioFullDiscovery 0)))[j]?
          = some st'
      ∧ st'.discState = DiscState.BLE_DISC_STATE_INIT_IO :=
  (discState_follows_fixed_order cfg3).2.2 (withEnv envCentral0 (scenarioFullDiscovery 0))
    stateAtMtu 11
    (((discRun cfg3 stateAtMtu (withEnv envCentral0 (scenarioFullDiscovery 0)))[11]?).get
      (by decide))
    (by decide) (Option.some_get _).symm (by decide)

/-- C8 (as amended): `multi_role_startDiscovery` has no guard on
`discState`. Whatever `discState` is, it resets `svcStartHdl` and
`svcEndHdl` to 0, sets `discState` to `BLE_DISC_STATE_MTU` and issues one MTU
exchange request on the current `connHandle`; the connection table and
`connHandle` are unchanged. -/
theorem startDiscovery_unconditional (cfg : Config) (s : State) :
    (multi_role_startDiscovery cfg s).1.discState = DiscState.BLE_DISC_STATE_MTU
    ∧ (multi_role_startDiscovery cfg s).1.svcStartHdl = 0
    ∧ (multi_role_startDiscovery cfg s).1.svcEndHdl = 0
    ∧ (multi_role_startDiscovery cfg s).1.connHandle = s.connHandle
    ∧ (multi_role_startDiscovery cfg s).1.connHandleMap = s.connHandleMap
    ∧ (multi_role_startDiscovery cfg s).2
        = [Action.GATT_ExchangeMTU s.connHandle
            ((s.maxPduSize + 65536 - cfg.L2CAP_HDR_SIZE % 65536) % 65536)] :=
  ⟨rfl, rfl, rfl, rfl, rfl, rfl⟩

/-- C8, counterexample: in the state reached when link 0 is in service
discovery (`discState` is `BLE_DISC_STATE_SVC`, not idle), processing the
discovery-start event changes `discState` to `BLE_DISC_STATE_MTU` and issues
an MTU exchange request. -/
theorem startDiscovery_restarts_when_not_idle :
    stateAtSvc.discState = DiscState.BLE_DISC_STATE_SVC
    ∧ (multi_role_startDiscovery cfg3 stateAtSvc).1.discState
        = DiscState.BLE_DISC_STATE_MTU
    ∧ (multi_role_startDiscovery cfg3 stateAtSvc).2 = [Action.GATT_ExchangeMTU 0 23] := by
  decide

/-- C9 (as amended): with the link under discovery in the table (slot
`idx`), `discState` at `BLE_DISC_STATE_MTU`, the sub-state at
`CHAR_DISC_STATE_IO_DATA`, a central link and the write buffer allocated,
processing an MTU response, a service found (10..20), a procedure complete,
three characteristics found (21, 22, 23) and a procedure complete ends in
`BLE_DISC_STATE_INIT_IO`, with the three handles stored and the 1-byte write
of `st_leds_value` to handle 21 issued last; no search for the SK service is
issued. The return to `BLE_DISC_STATE_SVC` with the search for the 16-bit SK
service 0xFFE0 is what the procedure complete produces after two
characteristics found (21, 22). -/
theorem scenario_three_chars_starts_configuration (cfg : Config) (env : Env) (s : State)
    (idx : Nat)
    (hl : multi_role_mapConnHandleToIndex cfg s s.connHandle = some idx)
    (hd : s.discState = DiscState.BLE_DISC_STATE_MTU)
    (hc : s.char_disc_state = CharDiscState.CHAR_DISC_STATE_IO_DATA)
    (hrole : pInfoConnRole env s.connHandle env.pInfoUninit = ConnRole.GAP_PROFILE_CENTRAL)
    (halloc : env.GATT_bm_alloc s.connHandle = true) :
    (∃ r, discFold cfg s (withEnv env (scenarioThreeChars s.connHandle)) = some r
      ∧ r.1.discState = DiscState.BLE_DISC_STATE_INIT_IO
      ∧ r.1.char_disc_state = CharDiscState.CHAR_DISC_STATE_DONE
      ∧ r.1.io_data_hdl (idx % 256) = 21 ∧ r.1.io_conf_hdl (idx % 256) = 22
      ∧ r.1.keys_data_hdl (idx % 256) = 23
      ∧ r.2 = [Action.GATT_DiscPrimaryServiceByUUID s.connHandle
                  (UuidArg.TI_BASE_UUID_128 0xAA64) 16,
               Action.GATT_DiscAllChars s.connHandle 10 20,
               Action.GATT_WriteCharValue s.connHandle 21 [s.st_leds_value]]
              ++ (if env.GATT_WriteCharValue s.connHandle ≠ Status.SUCCESS
                  then [Action.GATT_bm_free_req] else []))
    ∧ (∃ r, discFold cfg s (withEnv env (scenarioTwoChars s.connHandle)) = some r
      ∧ r.1.discState = DiscState.BLE_DISC_STATE_SVC
      ∧ r.1.char_disc_state = CharDiscState.CHAR_DISC_STATE_KEYS_DATA
      ∧ r.2 = [Action.GATT_DiscPrimaryServiceByUUID s.connHandle
                  (UuidArg.TI_BASE_UUID_128 0xAA64) 16,
               Action.GATT_DiscAllChars s.connHandle 10 20,
               Action.GATT_DiscPrimaryServiceByUUID s.connHandle
                  (UuidArg.bytes [0xE0, 0xFF]) 2]) := by
  unfold multi_role_mapConnHandleToIndex at hl
  constructor
  · simp [discFold, withEnv, scenarioThreeChars, multi_role_processGATTDiscEvent,
      multi_role_mapConnHandleToIndex, hl, discEventBody, discEventSvc, discSvcStore,
      discSvcComplete, discEventChar, discCharStore, discCharComplete,
      msgMtuRsp, msgSvcFound, msgSvcComplete, msgCharFound, msgCharComplete, gattMsg0,
      hd, hc, hrole, halloc, setAt, BUILD_UINT16, LO_UINT16, HI_UINT16, IO_SERV_UUID,
      ATT_UUID_SIZE]
  · simp [discFold, withEnv, scenarioTwoChars, multi_role_processGATTDiscEvent,
      multi_role_mapConnHandleToIndex, hl, discEventBody, discEventSvc, discSvcStore,
      discSvcComplete, discEventChar, discCharStore, discCharComplete,
      msgMtuRsp, msgSvcFound, msgSvcComplete, msgCharFound, msgCharComplete, gattMsg0,
      hd, hc, hrole, halloc, setAt, BUILD_UINT16, LO_UINT16, HI_UINT16, IO_SERV_UUID,
      SK_SERV_UUID, ATT_UUID_SIZE, ATT_BT_UUID_SIZE]

/-- C9, witness: the scenario on link 0 from the state reached by
`eventsToMtu`. -/
theorem scenario_three_chars_starts_configuration_witness :
    ∃ r, discFold cfg3 stateAtMtu (withEnv envCentral0 (scenarioThreeChars 0)) = some r
      ∧ r.1.discState = DiscState.BLE_DISC_STATE_INIT_IO
      ∧ r.1.io_data_hdl 0 = 21 ∧ r.1.io_conf_hdl 0 = 22 ∧ r.1.keys_data_hdl 0 = 23 := by
  obtain ⟨r, h1, h2, _, h4, h5, h6, _⟩ :=
    (scenario_three_chars_starts_configuration cfg3 envCentral0 stateAtMtu 0
      (by decide) (by decide) (by decide) (by decide) (by decide)).1
  exact ⟨r, h1, h2, h4, h5, h6⟩

/-- C9, counterexample: the scenario of the claim, run on link 0 from the
state reached by `eventsToMtu`, ends in `BLE_DISC_STATE_INIT_IO` and not in
`BLE_DISC_STATE_SVC`, and the search for the SK service is not among the
requests issued. -/
theorem scenario_three_chars_no_loopback :
    ∃ r, discFold cfg3 stateAtMtu (withEnv envCentral0 (scenarioThreeChars 0)) = some r
      ∧ r.1.discState = DiscState.BLE_DISC_STATE_INIT_IO
      ∧ r.1.discState ≠ DiscState.BLE_DISC_STATE_SVC
      ∧ Action.GATT_DiscPrimaryServiceByUUID 0 (UuidArg.bytes [0xE0, 0xFF]) 2 ∉ r.2 :=
  ⟨(discFold cfg3 stateAtMtu (withEnv envCentral0 (scenarioThreeChars 0))).get (by decide),
    (Option.some_get _).symm, by decide, by decide, by decide⟩

/-- C10: in `BLE_DISC_STATE_MTU`, with the link under discovery in the
connection table: on an `ATT_EXCHANGE_MTU_RSP`, if the role read for the
link is central, `discState` becomes `BLE_DISC_STATE_SVC` and exactly one
request is issued, the primary-service-by-UUID search for the 128-bit TI
base UUID of 0xAA64; if the role is not central, `discState` becomes
`BLE_DISC_STATE_IDLE` and nothing is issued; a message of any other method
leaves the state unchanged and issues nothing. Nothing else of the state
changes in any of the three cases. -/
theorem mtu_response_dispatch (cfg : Config) (env : Env) (pMsg : gattMsgEvent_t)
    (s : State)
    (hd : s.discState = DiscState.BLE_DISC_STATE_MTU)
    (hmapped : Mapped cfg s s.connHandle) :
    (pMsg.method = AttMethod.ATT_EXCHANGE_MTU_RSP →
      pInfoConnRole env s.connHandle env.pInfoUninit = ConnRole.GAP_PROFILE_CENTRAL →
      multi_role_processGATTDiscEvent cfg env pMsg s
        = some ({ s with discState := DiscState.BLE_DISC_STATE_SVC },
            [Action.GATT_DiscPrimaryServiceByUUID s.connHandle
              (UuidArg.TI_BASE_UUID_128 0xAA64) 16]))
    ∧ (pMsg.method = AttMethod.ATT_EXCHANGE_MTU_RSP →
      pInfoConnRole env s.connHandle env.pInfoUninit ≠ ConnRole.GAP_PROFILE_CENTRAL →
      multi_role_processGATTDiscEvent cfg env pMsg s
        = some ({ s with discState := DiscState.BLE_DISC_STATE_IDLE }, []))
    ∧ (pMsg.method ≠ AttMethod.ATT_EXCHANGE_MTU_RSP →
      multi_role_processGATTDiscEvent cfg env pMsg s = some (s, [])) := by
  obtain ⟨idx, hl⟩ := mapConnHandleToIndex_of_mapped cfg s s.connHandle hmapped
  rw [processGATTDiscEvent_of_lookup cfg env pMsg s idx hl]
  refine ⟨?_, ?_, ?_⟩
  · intro hm hrole
    simp [discEventBody, hm, hd, hrole, IO_SERV_UUID, ATT_UUID_SIZE]
  · intro hm hrole
    simp [discEventBody, hm, hd, hrole]
  · intro hm
    by_cases hu : pMsg.method = AttMethod.ATT_MTU_UPDATED_EVENT
    · simp [discEventBody, hu]
    · simp [discEventBody, hm, hd, hu]

/-- C10, witness: the MTU response of link 0 (central) in the state reached
by `eventsToMtu`. -/
theorem mtu_response_dispatch_witness :
    multi_role_processGATTDiscEvent cfg3 envCentral0 (msgMtuRsp 0) stateAtMtu
      = some ({ stateAtMtu with discState := DiscState.BLE_DISC_STATE_SVC },
          [Action.GATT_DiscPrimaryServiceByUUID stateAtMtu.connHandle
            (UuidArg.TI_BASE_UUID_128 0xAA64) 16]) :=
  (mtu_response_dispatch cfg3 envCentral0 (msgMtuRsp 0) stateAtMtu (by decide)
    (by decide)).1 (by decide) (by decide)

/-- C6, failing run: after `scenarioCharChangeDuringDiscovery` the table is
`[0, 1, 0xFFFF]`, `connHandle` is `0xFFFF`, and the free slot 2 has
`io_data_hdl[2] = 21`. -/
theorem free_slot_handle_written_after_char_change :
    ∃ s, taskRun cfg3 (multi_role_init cfg3) scenarioCharChangeDuringDiscovery = some s
      ∧ s.connHandle = cfg3.INVALID_CONNHANDLE
      ∧ s.connHandleMap 2 = cfg3.INVALID_CONNHANDLE
      ∧ s.io_data_hdl 2 = 21
      ∧ ¬ FreeSlotsZero cfg3 s :=
  ⟨(taskRun cfg3 (multi_role_init cfg3) scenarioCharChangeDuringDiscovery).get (by decide),
    (Option.some_get _).symm, by decide, by decide, by decide, by decide⟩

/-! ### Discovery state machine, state by state -/

theorem mapConnHandleToIndex_lt (cfg : Config) (s : State) (h idx : Nat)
    (hl : multi_role_mapConnHandleToIndex cfg s h = some idx) :
    idx < cfg.MAX_NUM_BLE_CONNS :=
  ((mapConnHandleToIndex_eq_some cfg s h idx).1 hl).1

theorem connIndex_eq (cfg : Config) (s : State) (h idx : Nat)
    (hmax : cfg.MAX_NUM_BLE_CONNS ≤ 256)
    (hl : multi_role_mapConnHandleToIndex cfg s h = some idx) :
    idx % 256 = idx :=
  Nat.mod_eq_of_lt (Nat.lt_of_lt_of_le (mapConnHandleToIndex_lt cfg s h idx hl) hmax)

theorem discEventBody_mtu_updated (cfg : Config) (env : Env) (pMsg : gattMsgEvent_t)
    (connIndex : Nat) (s : State)
    (hm : pMsg.method = AttMethod.ATT_MTU_UPDATED_EVENT) :
    discEventBody cfg env pMsg connIndex s = (s, []) := by
  unfold discEventBody
  rw [if_pos hm]

theorem discEventBody_svc (cfg : Config) (env : Env) (pMsg : gattMsgEvent_t)
    (connIndex : Nat) (s : State)
    (hd : s.discState = DiscState.BLE_DISC_STATE_SVC)
    (hm : pMsg.method ≠ AttMethod.ATT_MTU_UPDATED_EVENT) :
    discEventBody cfg env pMsg connIndex s = discEventSvc pMsg s := by
  unfold discEventBody
  rw [if_neg hm]
  simp only [hd]

theorem discEventBody_char (cfg : Config) (env : Env) (pMsg : gattMsgEvent_t)
    (connIndex : Nat) (s : State)
    (hd : s.discState = DiscState.BLE_DISC_STATE_CHAR)
    (hm : pMsg.method ≠ AttMethod.ATT_MTU_UPDATED_EVENT) :
    discEventBody cfg env pMsg connIndex s = discEventChar env pMsg connIndex s := by
  unfold discEventBody
  rw [if_neg hm]
  simp only [hd]

theorem discSvcStore_pos (pMsg : gattMsgEvent_t) (s : State)
    (h : pMsg.method = AttMethod.ATT_FIND_BY_TYPE_VALUE_RSP ∧ 0 < pMsg.numInfo) :
    discSvcStore pMsg s
      = { s with svcStartHdl := pMsg.attrHandle0, svcEndHdl := pMsg.grpEndHandle0 } := by
  unfold discSvcStore
  rw [if_pos h]

theorem discSvcStore_neg (pMsg : gattMsgEvent_t) (s : State)
    (h : ¬ (pMsg.method = AttMethod.ATT_FIND_BY_TYPE_VALUE_RSP ∧ 0 < pMsg.numInfo)) :
    discSvcStore pMsg s = s := by
  unfold discSvcStore
  rw [if_neg h]

theorem discSvcComplete_found (pMsg : gattMsgEvent_t) (s : State)
    (h : (pMsg.method = AttMethod.ATT_FIND_BY_TYPE_VALUE_RSP
          ∧ pMsg.status = Status.bleProcedureComplete)
        ∨ pMsg.method = AttMethod.ATT_ERROR_RSP)
    (h0 : s.svcStartHdl ≠ 0) :
    discSvcComplete pMsg s
      = ({ s with discState := DiscState.BLE_DISC_STATE_CHAR },
          [Action.GATT_DiscAllChars s.connHandle s.svcStartHdl s.svcEndHdl]) := by
  unfold discSvcComplete
  rw [if_pos h, if_pos h0]

theorem discSvcComplete_not_found (pMsg : gattMsgEvent_t) (s : State)
    (h0 : s.svcStartHdl = 0) :
    discSvcComplete pMsg s = (s, []) := by
  unfold discSvcComplete
  split_ifs with h1 h2
  · exact absurd h0 h2
  · rfl
  · rfl

theorem discSvcComplete_pending (pMsg : gattMsgEvent_t) (s : State)
    (h : ¬ ((pMsg.method = AttMethod.ATT_FIND_BY_TYPE_VALUE_RSP
          ∧ pMsg.status = Status.bleProcedureComplete)
        ∨ pMsg.method = AttMethod.ATT_ERROR_RSP)) :
    discSvcComplete pMsg s = (s, []) := by
  unfold discSvcComplete
  rw [if_neg h]

theorem discSvcComplete_frame (pMsg : gattMsgEvent_t) (s : State) :
    (discSvcComplete pMsg s).1.svcStartHdl = s.svcStartHdl
    ∧ (discSvcComplete pMsg s).1.svcEndHdl = s.svcEndHdl := by
  unfold discSvcComplete
  split_ifs <;> exact ⟨rfl, rfl⟩

/-- C11: in `BLE_DISC_STATE_SVC`, with the link under discovery in the
connection table, `multi_role_processGATTDiscEvent` completes and: a
find-by-type-value response with `numInfo > 0` stores the start and
group-end handles of its first entry in `svcStartHdl` / `svcEndHdl` (any
other message leaves them unchanged); then, on a procedure-complete
find-by-type-value response or an ATT error response, if `svcStartHdl` is
not 0 `discState` becomes `BLE_DISC_STATE_CHAR` and the one request issued is
discover-all-characteristics over `svcStartHdl .. svcEndHdl`, and if
`svcStartHdl` is 0 `discState` stays `BLE_DISC_STATE_SVC` and nothing is
issued; a message that does not complete the procedure leaves `discState`
and issues nothing. -/
theorem svc_state_caches_window_then_discovers_chars (cfg : Config) (env : Env)
    (pMsg : gattMsgEvent_t) (s : State)
    (hd : s.discState = DiscState.BLE_DISC_STATE_SVC)
    (hmapped : Mapped cfg s s.connHandle) :
    ∃ r, multi_role_processGATTDiscEvent cfg env pMsg s = some r
      ∧ (pMsg.method = AttMethod.ATT_FIND_BY_TYPE_VALUE_RSP → 0 < pMsg.numInfo →
          r.1.svcStartHdl = pMsg.attrHandle0 ∧ r.1.svcEndHdl = pMsg.grpEndHandle0)
      ∧ (¬ (pMsg.method = AttMethod.ATT_FIND_BY_TYPE_VALUE_RSP ∧ 0 < pMsg.numInfo) →
          r.1.svcStartHdl = s.svcStartHdl ∧ r.1.svcEndHdl = s.svcEndHdl)
      ∧ ((pMsg.method = AttMethod.ATT_FIND_BY_TYPE_VALUE_RSP
            ∧ pMsg.status = Status.bleProcedureComplete)
          ∨ pMsg.method = AttMethod.ATT_ERROR_RSP →
          (r.1.svcStartHdl ≠ 0 →
            r.1.discState = DiscState.BLE_DISC_STATE_CHAR
            ∧ r.2 = [Action.GATT_DiscAllChars s.connHandle r.1.svcStartHdl r.1.svcEndHdl])
          ∧ (r.1.svcStartHdl = 0 →
            r.1.discState = DiscState.BLE_DISC_STATE_SVC ∧ r.2 = []))
      ∧ (¬ ((pMsg.method = AttMethod.ATT_FIND_BY_TYPE_VALUE_RSP
              ∧ pMsg.status = Status.bleProcedureComplete)
            ∨ pMsg.method = AttMethod.ATT_ERROR_RSP) →
          r.1.discState = DiscState.BLE_DISC_STATE_SVC ∧ r.2 = []) := by
  obtain ⟨idx, hl⟩ := mapConnHandleToIndex_of_mapped cfg s s.connHandle hmapped
  refine ⟨discEventBody cfg env pMsg (idx % 256) s,
    processGATTDiscEvent_of_lookup cfg env pMsg s idx hl, ?_⟩
  by_cases hm : pMsg.method = AttMethod.ATT_MTU_UPDATED_EVENT
  · rw [discEventBody_mtu_updated cfg env pMsg _ s hm]
    refine ⟨?_, fun _ => ⟨rfl, rfl⟩, ?_, fun _ => ⟨hd, rfl⟩⟩
    · intro h; rw [hm] at h; cases h
    · rintro (⟨h, _⟩ | h) <;> (rw [hm] at h; cases h)
  · rw [discEventBody_svc cfg env pMsg _ s hd hm]
    unfold discEventSvc
    have hfr := discSvcComplete_frame pMsg (discSvcStore pMsg s)
    have hsd := discSvcStore_discState pMsg s
    have hconn : (discSvcStore pMsg s).connHandle = s.connHandle := by
      unfold discSvcStore; split_ifs <;> rfl
    refine ⟨?_, ?_, ?_, ?_⟩
    · intro h1 h2
      rw [hfr.1, hfr.2, discSvcStore_pos pMsg s ⟨h1, h2⟩]
      exact ⟨rfl, rfl⟩
    · intro h1
      rw [hfr.1, hfr.2, discSvcStore_neg pMsg s h1]
      exact ⟨rfl, rfl⟩
    · intro h2
      rw [hfr.1, hfr.2]
      constructor
      · intro h0
        rw [discSvcComplete_found pMsg _ h2 h0, hconn]
        exact ⟨rfl, rfl⟩
      · intro h0
        rw [discSvcComplete_not_found pMsg _ h0, hsd]
        exact ⟨hd, rfl⟩
    · intro h2
      rw [discSvcComplete_pending pMsg _ h2, hsd]
      exact ⟨hd, rfl⟩

/-- C11, witness: in the state reached after the service-found response of
link 0 (window 10..20), the procedure-complete message moves to
`BLE_DISC_STATE_CHAR` and issues discover-all-characteristics over 10..20. -/
theorem svc_state_caches_window_then_discovers_chars_witness :
    ∃ r, multi_role_processGATTDiscEvent cfg3 envCentral0 (msgSvcComplete 0)
           (stateAfterDiscovery 2) = some r
      ∧ r.1.discState = DiscState.BLE_DISC_STATE_CHAR
      ∧ r.2 = [Action.GATT_DiscAllChars 0 10 20] := by
  obtain ⟨r, h1, _, h3, h4, _⟩ :=
    svc_state_caches_window_then_discovers_chars cfg3 envCentral0 (msgSvcComplete 0)
      (stateAfterDiscovery 2) (by decide) (by decide)
  have hs := h3 (by decide)
  have h5 := (h4 (Or.inl (by decide))).1 (by rw [hs.1]; decide)
  refine ⟨r, h1, h5.1, ?_⟩
  rw [h5.2, hs.1, hs.2]
  decide

theorem discCharStore_neg (pMsg : gattMsgEvent_t) (connIndex : Nat) (s : State)
    (h : ¬ (pMsg.method = AttMethod.ATT_READ_BY_TYPE_RSP ∧ 0 < pMsg.numPairs)) :
    discCharStore pMsg connIndex s = s := by
  unfold discCharStore
  rw [if_neg h]

theorem discCharStore_io_data (pMsg : gattMsgEvent_t) (connIndex : Nat) (s : State)
    (h : pMsg.method = AttMethod.ATT_READ_BY_TYPE_RSP ∧ 0 < pMsg.numPairs)
    (hc : s.char_disc_state = CharDiscState.CHAR_DISC_STATE_IO_DATA) :
    discCharStore pMsg connIndex s
      = { s with
          io_data_hdl := setAt s.io_data_hdl connIndex
            (BUILD_UINT16 (pMsg.pDataList.getD 3 0) (pMsg.pDataList.getD 4 0)),
          char_disc_state := CharDiscState.CHAR_DISC_STATE_IO_CONF } := by
  unfold discCharStore
  rw [if_pos h]
  simp only [hc]

theorem discCharStore_io_conf (pMsg : gattMsgEvent_t) (connIndex : Nat) (s : State)
    (h : pMsg.method = AttMethod.ATT_READ_BY_TYPE_RSP ∧ 0 < pMsg.numPairs)
    (hc : s.char_disc_state = CharDiscState.CHAR_DISC_STATE_IO_CONF) :
    discCharStore pMsg connIndex s
      = { s with
          io_conf_hdl := setAt s.io_conf_hdl connIndex
            (BUILD_UINT16 (pMsg.pDataList.getD 3 0) (pMsg.pDataList.getD 4 0)),
          char_disc_state := CharDiscState.CHAR_DISC_STATE_KEYS_DATA } := by
  unfold discCharStore
  rw [if_pos h]
  simp only [hc]

theorem discCharStore_keys_data (pMsg : gattMsgEvent_t) (connIndex : Nat) (s : State)
    (h : pMsg.method = AttMethod.ATT_READ_BY_TYPE_RSP ∧ 0 < pMsg.numPairs)
    (hc : s.char_disc_state = CharDiscState.CHAR_DISC_STATE_KEYS_DATA) :
    discCharStore pMsg connIndex s
      = { s with
          keys_data_hdl := setAt s.keys_data_hdl connIndex
            (BUILD_UINT16 (pMsg.pDataList.getD 3 0) (pMsg.pDataList.getD 4 0)),
          char_disc_state := CharDiscState.CHAR_DISC_STATE_DONE } := by
  unfold discCharStore
  rw [if_pos h]
  simp only [hc]

theorem discCharStore_done (pMsg : gattMsgEvent_t) (connIndex : Nat) (s : State)
    (hc : s.char_disc_state = CharDiscState.CHAR_DISC_STATE_DONE) :
    discCharStore pMsg connIndex s = s := by
  unfold discCharStore
  split_ifs
  · simp only [hc]
  · rfl

theorem discCharStore_frame (pMsg : gattMsgEvent_t) (connIndex : Nat) (s : State) :
    (discCharStore pMsg connIndex s).connHandle = s.connHandle
    ∧ (discCharStore pMsg connIndex s).connHandleMap = s.connHandleMap
    ∧ (discCharStore pMsg connIndex s).st_leds_value = s.st_leds_value
    ∧ (discCharStore pMsg connIndex s).svcStartHdl = s.svcStartHdl
    ∧ (discCharStore pMsg connIndex s).svcEndHdl = s.svcEndHdl := by
  unfold discCharStore
  split_ifs
  · split <;> exact ⟨rfl, rfl, rfl, rfl, rfl⟩
  · exact ⟨rfl, rfl, rfl, rfl, rfl⟩

theorem discCharComplete_pending (env : Env) (pMsg : gattMsgEvent_t) (connIndex : Nat)
    (s : State)
    (h : ¬ ((pMsg.method = AttMethod.ATT_READ_BY_TYPE_RSP
          ∧ pMsg.status = Status.bleProcedureComplete)
        ∨ pMsg.method = AttMethod.ATT_ERROR_RSP)) :
    discCharComplete env pMsg connIndex s = (s, []) := by
  unfold discCharComplete
  rw [if_neg h]

theorem discCharComplete_keys_data (env : Env) (pMsg : gattMsgEvent_t) (connIndex : Nat)
    (s : State)
    (h : (pMsg.method = AttMethod.ATT_READ_BY_TYPE_RSP
          ∧ pMsg.status = Status.bleProcedureComplete)
        ∨ pMsg.method = AttMethod.ATT_ERROR_RSP)
    (hc : s.char_disc_state = CharDiscState.CHAR_DISC_STATE_KEYS_DATA) :
    discCharComplete env pMsg connIndex s
      = ({ s with discState := DiscState.BLE_DISC_STATE_SVC },
          [Action.GATT_DiscPrimaryServiceByUUID s.connHandle
            (UuidArg.bytes [LO_UINT16 SK_SERV_UUID, HI_UINT16 SK_SERV_UUID])
            ATT_BT_UUID_SIZE]) := by
  unfold discCharComplete
  rw [if_pos h]
  simp only [hc]

theorem discCharComplete_done_alloc (env : Env) (pMsg : gattMsgEvent_t) (connIndex : Nat)
    (s : State)
    (h : (pMsg.method = AttMethod.ATT_READ_BY_TYPE_RSP
          ∧ pMsg.status = Status.bleProcedureComplete)
        ∨ pMsg.method = AttMethod.ATT_ERROR_RSP)
    (hc : s.char_disc_state = CharDiscState.CHAR_DISC_STATE_DONE)
    (ha : env.GATT_bm_alloc s.connHandle = true) :
    discCharComplete env pMsg connIndex s
      = ({ s with discState := DiscState.BLE_DISC_STATE_INIT_IO },
          [Action.GATT_WriteCharValue s.connHandle (s.io_data_hdl connIndex)
            [s.st_leds_value]]
          ++ (if env.GATT_WriteCharValue s.connHandle ≠ Status.SUCCESS
              then [Action.GATT_bm_free_req] else [])) := by
  unfold discCharComplete
  rw [if_pos h]
  simp only [hc, ha, if_true]

theorem discCharComplete_done_no_alloc (env : Env) (pMsg : gattMsgEvent_t)
    (connIndex : Nat) (s : State)
    (hc : s.char_disc_state = CharDiscState.CHAR_DISC_STATE_DONE)
    (ha : env.GATT_bm_alloc s.connHandle = false) :
    discCharComplete env pMsg connIndex s = (s, []) := by
  unfold discCharComplete
  by_cases h : ((pMsg.method = AttMethod.ATT_READ_BY_TYPE_RSP
        ∧ pMsg.status = Status.bleProcedureComplete)
      ∨ pMsg.method = AttMethod.ATT_ERROR_RSP)
  · rw [if_pos h]
    simp [hc, ha]
  · rw [if_neg h]

theorem discCharComplete_early (env : Env) (pMsg : gattMsgEvent_t) (connIndex : Nat)
    (s : State)
    (hc : s.char_disc_state = CharDiscState.CHAR_DISC_STATE_IO_DATA
        ∨ s.char_disc_state = CharDiscState.CHAR_DISC_STATE_IO_CONF) :
    discCharComplete env pMsg connIndex s = (s, []) := by
  unfold discCharComplete
  by_cases h : ((pMsg.method = AttMethod.ATT_READ_BY_TYPE_RSP
        ∧ pMsg.status = Status.bleProcedureComplete)
      ∨ pMsg.method = AttMethod.ATT_ERROR_RSP)
  · rw [if_pos h]
    rcases hc with hc | hc <;> simp only [hc]
  · rw [if_neg h]

theorem discCharComplete_frame (env : Env) (pMsg : gattMsgEvent_t) (connIndex : Nat)
    (s : State) :
    (discCharComplete env pMsg connIndex s).1.char_disc_state = s.char_disc_state
    ∧ (discCharComplete env pMsg connIndex s).1.io_data_hdl = s.io_data_hdl
    ∧ (discCharComplete env pMsg connIndex s).1.io_conf_hdl = s.io_conf_hdl
    ∧ (discCharComplete env pMsg connIndex s).1.keys_data_hdl = s.keys_data_hdl
    ∧ (discCharComplete env pMsg connIndex s).1.connHandleMap = s.connHandleMap := by
  unfold discCharComplete
  by_cases h : ((pMsg.method = AttMethod.ATT_READ_BY_TYPE_RSP
        ∧ pMsg.status = Status.bleProcedureComplete)
      ∨ pMsg.method = AttMethod.ATT_ERROR_RSP)
  · rw [if_pos h]
    split
    · exact ⟨rfl, rfl, rfl, rfl, rfl⟩
    · split_ifs <;> exact ⟨rfl, rfl, rfl, rfl, rfl⟩
    · exact ⟨rfl, rfl, rfl, rfl, rfl⟩
  · rw [if_neg h]
    exact ⟨rfl, rfl, rfl, rfl, rfl⟩

theorem build_uint16_bytes (lo hi : Nat) (hlo : lo < 256) (hhi : hi < 256) :
    BUILD_UINT16 lo hi = lo + 256 * hi := by
  unfold BUILD_UINT16
  rw [Nat.mod_eq_of_lt hlo, Nat.mod_eq_of_lt hhi]
  omega

theorem getD_lt_of_bytes (l : List Nat) (i : Nat) (hb : ∀ b, b ∈ l → b < 256) :
    l.getD i 0 < 256 := by
  by_cases hi : i < l.length
  · rw [List.getD_eq_getElem l 0 hi]
    exact hb _ (List.getElem_mem hi)
  · rw [List.getD_eq_default l 0 (by omega)]
    omega

/-- C13: in `BLE_DISC_STATE_CHAR`, with the link under discovery at slot
`idx` of a table of at most 256 slots, a read-by-type response with
`numPairs > 0` (payload bytes below 256) advances `char_disc_state` by one
step in the order IO_DATA → IO_CONF → KEYS_DATA → DONE and stores
`pDataList[3] + 256 * pDataList[4]` at index `idx` of `io_data_hdl`,
`io_conf_hdl`, `keys_data_hdl` respectively, every other index of that array
and the two other arrays being unchanged; in sub-state DONE the sub-state and
the three arrays are unchanged. The connection table is unchanged. -/
theorem char_found_stores_handle_and_advances (cfg : Config) (env : Env)
    (pMsg : gattMsgEvent_t) (s : State) (idx : Nat)
    (hmax : cfg.MAX_NUM_BLE_CONNS ≤ 256)
    (hl : multi_role_mapConnHandleToIndex cfg s s.connHandle = some idx)
    (hd : s.discState = DiscState.BLE_DISC_STATE_CHAR)
    (hm : pMsg.method = AttMethod.ATT_READ_BY_TYPE_RSP)
    (hn : 0 < pMsg.numPairs)
    (hb : ∀ b, b ∈ pMsg.pDataList → b < 256) :
    ∃ r, multi_role_processGATTDiscEvent cfg env pMsg s = some r
      ∧ r.1.connHandleMap = s.connHandleMap
      ∧ (s.char_disc_state = CharDiscState.CHAR_DISC_STATE_IO_DATA →
          r.1.char_disc_state = CharDiscState.CHAR_DISC_STATE_IO_CONF
          ∧ r.1.io_data_hdl idx = pMsg.pDataList.getD 3 0 + 256 * pMsg.pDataList.getD 4 0
          ∧ (∀ j, j ≠ idx → r.1.io_data_hdl j = s.io_data_hdl j)
          ∧ r.1.io_conf_hdl = s.io_conf_hdl ∧ r.1.keys_data_hdl = s.keys_data_hdl)
      ∧ (s.char_disc_state = CharDiscState.CHAR_DISC_STATE_IO_CONF →
          r.1.char_disc_state = CharDiscState.CHAR_DISC_STATE_KEYS_DATA
          ∧ r.1.io_conf_hdl idx = pMsg.pDataList.getD 3 0 + 256 * pMsg.pDataList.getD 4 0
          ∧ (∀ j, j ≠ idx → r.1.io_conf_hdl j = s.io_conf_hdl j)
          ∧ r.1.io_data_hdl = s.io_data_hdl ∧ r.1.keys_data_hdl = s.keys_data_hdl)
      ∧ (s.char_disc_state = CharDiscState.CHAR_DISC_STATE_KEYS_DATA →
          r.1.char_disc_state = CharDiscState.CHAR_DISC_STATE_DONE
          ∧ r.1.keys_data_hdl idx = pMsg.pDataList.getD 3 0 + 256 * pMsg.pDataList.getD 4 0
          ∧ (∀ j, j ≠ idx → r.1.keys_data_hdl j = s.keys_data_hdl j)
          ∧ r.1.io_data_hdl = s.io_data_hdl ∧ r.1.io_conf_hdl = s.io_conf_hdl)
      ∧ (s.char_disc_state = CharDiscState.CHAR_DISC_STATE_DONE →
          r.1.char_disc_state = CharDiscState.CHAR_DISC_STATE_DONE
          ∧ r.1.io_data_hdl = s.io_data_hdl ∧ r.1.io_conf_hdl = s.io_conf_hdl
          ∧ r.1.keys_data_hdl = s.keys_data_hdl) := by
  have hidx := connIndex_eq cfg s s.connHandle idx hmax hl
  have hmu : pMsg.method ≠ AttMethod.ATT_MTU_UPDATED_EVENT := by rw [hm]; decide
  have hv : BUILD_UINT16 (pMsg.pDataList.getD 3 0) (pMsg.pDataList.getD 4 0)
      = pMsg.pDataList.getD 3 0 + 256 * pMsg.pDataList.getD 4 0 :=
    build_uint16_bytes _ _ (getD_lt_of_bytes _ 3 hb) (getD_lt_of_bytes _ 4 hb)
  refine ⟨discEventBody cfg env pMsg (idx % 256) s,
    processGATTDiscEvent_of_lookup cfg env pMsg s idx hl, ?_⟩
  rw [discEventBody_char cfg env pMsg _ s hd hmu, hidx]
  unfold discEventChar
  obtain ⟨f1, f2, f3, f4, f5⟩ := discCharComplete_frame env pMsg idx (discCharStore pMsg idx s)
  rw [f1, f2, f3, f4, f5]
  refine ⟨(discCharStore_frame pMsg idx s).2.1, ?_, ?_, ?_, ?_⟩
  · intro hc
    rw [discCharStore_io_data pMsg idx s ⟨hm, hn⟩ hc, hv]
    exact ⟨rfl, setAt_same _ _ _, fun j hj => setAt_other _ _ _ _ hj, rfl, rfl⟩
  · intro hc
    rw [discCharStore_io_conf pMsg idx s ⟨hm, hn⟩ hc, hv]
    exact ⟨rfl, setAt_same _ _ _, fun j hj => setAt_other _ _ _ _ hj, rfl, rfl⟩
  · intro hc
    rw [discCharStore_keys_data pMsg idx s ⟨hm, hn⟩ hc, hv]
    exact ⟨rfl, setAt_same _ _ _, fun j hj => setAt_other _ _ _ _ hj, rfl, rfl⟩
  · intro hc
    rw [discCharStore_done pMsg idx s hc]
    exact ⟨hc, rfl, rfl, rfl⟩

/-- C13, witness: the first characteristic found on link 0 (value handle 21)
is stored in `io_data_hdl[0]` and the sub-state moves to IO_CONF. -/
theorem char_found_stores_handle_and_advances_witness :
    ∃ r, multi_role_processGATTDiscEvent cfg3 envCentral0 (msgCharFound 0 21)
           (stateAfterDiscovery 3) = some r
      ∧ r.1.char_disc_state = CharDiscState.CHAR_DISC_STATE_IO_CONF
      ∧ r.1.io_data_hdl 0 = 21 := by
  obtain ⟨r, h1, _, h3, _⟩ :=
    char_found_stores_handle_and_advances cfg3 envCentral0 (msgCharFound 0 21)
      (stateAfterDiscovery 3) 0 (by decide) (by decide) (by decide) (by decide) (by decide)
      (by decide)
  obtain ⟨h4, h5, _⟩ := h3 (by decide)
  exact ⟨r, h1, h4, by rw [h5]; decide⟩

/-- C14: in `BLE_DISC_STATE_CHAR`, with the link under discovery at slot
`idx` of a table of at most 256 slots, on a procedure-complete read-by-type
response or an ATT error response, with the sub-state in force when the
completion is examined (the sub-state before the message, unless the message
itself carries a characteristic): in KEYS_DATA `discState` becomes
`BLE_DISC_STATE_SVC` and the one request issued is the service search for the
2-byte UUID 0xFFE0; in DONE with the write buffer allocated `discState`
becomes `BLE_DISC_STATE_INIT_IO` and a 1-byte write of `st_leds_value` to
`io_data_hdl[idx]` is issued; in IO_DATA or IO_CONF `discState` stays
`BLE_DISC_STATE_CHAR` and nothing is issued. -/
theorem char_complete_dispatch (cfg : Config) (env : Env) (pMsg : gattMsgEvent_t)
    (s : State) (idx : Nat)
    (hmax : cfg.MAX_NUM_BLE_CONNS ≤ 256)
    (hl : multi_role_mapConnHandleToIndex cfg s s.connHandle = some idx)
    (hd : s.discState = DiscState.BLE_DISC_STATE_CHAR)
    (hcomp : (pMsg.method = AttMethod.ATT_READ_BY_TYPE_RSP
          ∧ pMsg.status = Status.bleProcedureComplete)
        ∨ pMsg.method = AttMethod.ATT_ERROR_RSP) :
    ∃ r, multi_role_processGATTDiscEvent cfg env pMsg s = some r
      ∧ (¬ (pMsg.method = AttMethod.ATT_READ_BY_TYPE_RSP ∧ 0 < pMsg.numPairs) →
          r.1.char_disc_state = s.char_disc_state)
      ∧ (r.1.char_disc_state = CharDiscState.CHAR_DISC_STATE_KEYS_DATA →
          r.1.discState = DiscState.BLE_DISC_STATE_SVC
          ∧ r.2 = [Action.GATT_DiscPrimaryServiceByUUID s.connHandle
                    (UuidArg.bytes [0xE0, 0xFF]) 2])
      ∧ (r.1.char_disc_state = CharDiscState.CHAR_DISC_STATE_DONE →
          env.GATT_bm_alloc s.connHandle = true →
          r.1.discState = DiscState.BLE_DISC_STATE_INIT_IO
          ∧ r.2 = [Action.GATT_WriteCharValue s.connHandle (r.1.io_data_hdl idx)
                    [s.st_leds_value]]
                  ++ (if env.GATT_WriteCharValue s.connHandle ≠ Status.SUCCESS
                      then [Action.GATT_bm_free_req] else []))
      ∧ (r.1.char_disc_state = CharDiscState.CHAR_DISC_STATE_IO_DATA
          ∨ r.1.char_disc_state = CharDiscState.CHAR_DISC_STATE_IO_CONF →
          r.1.discState = DiscState.BLE_DISC_STATE_CHAR ∧ r.2 = []) := by
  have hidx := connIndex_eq cfg s s.connHandle idx hmax hl
  have hmu : pMsg.method ≠ AttMethod.ATT_MTU_UPDATED_EVENT := by
    rcases hcomp with ⟨h, _⟩ | h <;> (rw [h]; decide)
  refine ⟨discEventBody cfg env pMsg (idx % 256) s,
    processGATTDiscEvent_of_lookup cfg env pMsg s idx hl, ?_⟩
  rw [discEventBody_char cfg env pMsg _ s hd hmu, hidx]
  unfold discEventChar
  obtain ⟨f1, f2, _, _, _⟩ := discCharComplete_frame env pMsg idx (discCharStore pMsg idx s)
  obtain ⟨g1, _, g3, _, _⟩ := discCharStore_frame pMsg idx s
  have gd := discCharStore_discState pMsg idx s
  rw [f1, f2]
  refine ⟨?_, ?_, ?_, ?_⟩
  · intro h
    rw [discCharStore_neg pMsg idx s h]
  · intro hc
    rw [discCharComplete_keys_data env pMsg idx _ hcomp hc, g1]
    exact ⟨rfl, rfl⟩
  · intro hc ha
    rw [← g1] at ha
    rw [discCharComplete_done_alloc env pMsg idx _ hcomp hc ha, g1, g3]
    exact ⟨rfl, rfl⟩
  · intro hc
    rw [discCharComplete_early env pMsg idx _ hc, gd]
    exact ⟨hd, rfl⟩

/-- C14, witness: on link 0, after the two characteristics of the first
service, the procedure-complete message returns to `BLE_DISC_STATE_SVC` and
issues the search for the SK service. -/
theorem char_complete_dispatch_witness :
    ∃ r, multi_role_processGATTDiscEvent cfg3 envCentral0 (msgCharComplete 0)
           (stateAfterDiscovery 5) = some r
      ∧ r.1.discState = DiscState.BLE_DISC_STATE_SVC
      ∧ r.2 = [Action.GATT_DiscPrimaryServiceByUUID 0 (UuidArg.bytes [0xE0, 0xFF]) 2] := by
  obtain ⟨r, h1, h2, h3, _⟩ :=
    char_complete_dispatch cfg3 envCentral0 (msgCharComplete 0) (stateAfterDiscovery 5) 0
      (by decide) (by decide) (by decide) (Or.inl (by decide))
  have hc := h2 (by decide)
  obtain ⟨h4, h5⟩ := h3 (by rw [hc]; decide)
  exact ⟨r, h1, h4, by rw [h5]; decide⟩

theorem discEventWrite_alloc (env : Env) (handle : Nat) (value : List Nat)
    (next : DiscState) (s : State) (ha : env.GATT_bm_alloc s.connHandle = true) :
    discEventWrite env handle value next s
      = ({ s with discState := next },
          [Action.GATT_WriteCharValue s.connHandle handle value]
          ++ (if env.GATT_WriteCharValue s.connHandle ≠ Status.SUCCESS
              then [Action.GATT_bm_free_req] else [])) := by
  unfold discEventWrite
  rw [if_pos ha]

theorem discEventWrite_no_alloc (env : Env) (handle : Nat) (value : List Nat)
    (next : DiscState) (s : State) (ha : env.GATT_bm_alloc s.connHandle = false) :
    discEventWrite env handle value next s = (s, []) := by
  unfold discEventWrite
  rw [if_neg (by rw [ha]; decide)]

theorem discEventBody_init_io (cfg : Config) (env : Env) (pMsg : gattMsgEvent_t)
    (connIndex : Nat) (s : State)
    (hd : s.discState = DiscState.BLE_DISC_STATE_INIT_IO)
    (hm : pMsg.method = AttMethod.ATT_WRITE_RSP) :
    discEventBody cfg env pMsg connIndex s
      = discEventWrite env (s.io_conf_hdl connIndex) [1]
          DiscState.BLE_DISC_STATE_INIT_KEYS s := by
  unfold discEventBody
  rw [if_neg (by rw [hm]; decide)]
  simp only [hd, hm, if_true]

theorem discEventBody_init_keys (cfg : Config) (env : Env) (pMsg : gattMsgEvent_t)
    (connIndex : Nat) (s : State)
    (hd : s.discState = DiscState.BLE_DISC_STATE_INIT_KEYS)
    (hm : pMsg.method = AttMethod.ATT_WRITE_RSP) :
    discEventBody cfg env pMsg connIndex s
      = discEventWrite env ((s.keys_data_hdl connIndex + 1) % 65536) [0x01, 0x00]
          DiscState.BLE_DISC_STATE_DONE s := by
  unfold discEventBody
  rw [if_neg (by rw [hm]; decide)]
  simp only [hd, hm, if_true]

theorem discEventBody_config_other (cfg : Config) (env : Env) (pMsg : gattMsgEvent_t)
    (connIndex : Nat) (s : State)
    (hd : s.discState = DiscState.BLE_DISC_STATE_INIT_IO
        ∨ s.discState = DiscState.BLE_DISC_STATE_INIT_KEYS
        ∨ s.discState = DiscState.BLE_DISC_STATE_DONE)
    (hm : pMsg.method ≠ AttMethod.ATT_WRITE_RSP) :
    discEventBody cfg env pMsg connIndex s = (s, []) := by
  unfold discEventBody
  by_cases hu : pMsg.method = AttMethod.ATT_MTU_UPDATED_EVENT
  · rw [if_pos hu]
  · rw [if_neg hu]
    rcases hd with hd | hd | hd <;> simp only [hd, hm, if_false]

theorem discEventBody_done (cfg : Config) (env : Env) (pMsg : gattMsgEvent_t)
    (connIndex : Nat) (s : State)
    (hd : s.discState = DiscState.BLE_DISC_STATE_DONE)
    (hm : pMsg.method = AttMethod.ATT_WRITE_RSP) :
    discEventBody cfg env pMsg connIndex s
      = ({ s with discState := DiscState.BLE_DISC_STATE_IDLE,
                  char_disc_state := CharDiscState.CHAR_DISC_STATE_IO_DATA },
          if env.linkDB_NumActive < cfg.MAX_NUM_BLE_CONNS
          then [Action.GAPRole_SetParameter_ADVERT_ENABLED true] else []) := by
  unfold discEventBody
  rw [if_neg (by rw [hm]; decide)]
  simp only [hd, hm, if_true]

/-- C15: with the link under discovery at slot `idx` of a table of at most
256 slots, on a write response with the write buffer allocated: in
`BLE_DISC_STATE_INIT_IO` a 1-byte write of the value 1 to `io_conf_hdl[idx]`
is issued and `discState` becomes `BLE_DISC_STATE_INIT_KEYS`; in
`BLE_DISC_STATE_INIT_KEYS` a 2-byte write of the bytes 0x01, 0x00 to the
16-bit handle `keys_data_hdl[idx] + 1` is issued and `discState` becomes
`BLE_DISC_STATE_DONE` (the handle is `keys_data_hdl[idx] + 1` itself when
`keys_data_hdl[idx]` is below 0xFFFF); in both states a message other than a
write response leaves the whole state unchanged and issues nothing. -/
theorem config_write_steps (cfg : Config) (env : Env) (pMsg : gattMsgEvent_t)
    (s : State) (idx : Nat)
    (hmax : cfg.MAX_NUM_BLE_CONNS ≤ 256)
    (hl : multi_role_mapConnHandleToIndex cfg s s.connHandle = some idx) :
    (s.discState = DiscState.BLE_DISC_STATE_INIT_IO →
      pMsg.method = AttMethod.ATT_WRITE_RSP → env.GATT_bm_alloc s.connHandle = true →
      multi_role_processGATTDiscEvent cfg env pMsg s
        = some ({ s with discState := DiscState.BLE_DISC_STATE_INIT_KEYS },
            [Action.GATT_WriteCharValue s.connHandle (s.io_conf_hdl idx) [1]]
            ++ (if env.GATT_WriteCharValue s.connHandle ≠ Status.SUCCESS
                then [Action.GATT_bm_free_req] else [])))
    ∧ (s.discState = DiscState.BLE_DISC_STATE_INIT_KEYS →
      pMsg.method = AttMethod.ATT_WRITE_RSP → env.GATT_bm_alloc s.connHandle = true →
      multi_role_processGATTDiscEvent cfg env pMsg s
        = some ({ s with discState := DiscState.BLE_DISC_STATE_DONE },
            [Action.GATT_WriteCharValue s.connHandle ((s.keys_data_hdl idx + 1) % 65536)
              [0x01, 0x00]]
            ++ (if env.GATT_WriteCharValue s.connHandle ≠ Status.SUCCESS
                then [Action.GATT_bm_free_req] else [])))
    ∧ (s.keys_data_hdl idx < 0xFFFF →
        (s.keys_data_hdl idx + 1) % 65536 = s.keys_data_hdl idx + 1)
    ∧ (s.discState = DiscState.BLE_DISC_STATE_INIT_IO
        ∨ s.discState = DiscState.BLE_DISC_STATE_INIT_KEYS →
      pMsg.method ≠ AttMethod.ATT_WRITE_RSP →
      multi_role_processGATTDiscEvent cfg env pMsg s = some (s, [])) := by
  have hidx := connIndex_eq cfg s s.connHandle idx hmax hl
  rw [processGATTDiscEvent_of_lookup cfg env pMsg s idx hl, hidx]
  refine ⟨?_, ?_, ?_, ?_⟩
  · intro hd hm ha
    rw [discEventBody_init_io cfg env pMsg idx s hd hm, discEventWrite_alloc env _ _ _ s ha]
  · intro hd hm ha
    rw [discEventBody_init_keys cfg env pMsg idx s hd hm, discEventWrite_alloc env _ _ _ s ha]
  · intro hk
    exact Nat.mod_eq_of_lt (by omega)
  · intro hd hm
    rw [discEventBody_config_other cfg env pMsg idx s
      (hd.elim Or.inl (fun h => Or.inr (Or.inl h))) hm]

/-- C15, witness: on link 0 in `BLE_DISC_STATE_INIT_IO`, the write response
triggers the write of 1 to handle 22 (`io_conf_hdl[0]`). -/
theorem config_write_steps_witness :
    multi_role_processGATTDiscEvent cfg3 envCentral0 (msgWriteRsp 0) (stateAfterDiscovery 10)
      = some ({ stateAfterDiscovery 10 with discState := DiscState.BLE_DISC_STATE_INIT_KEYS },
          [Action.GATT_WriteCharValue (stateAfterDiscovery 10).connHandle
              ((stateAfterDiscovery 10).io_conf_hdl 0) [1]]
          ++ (if envCentral0.GATT_WriteCharValue (stateAfterDiscovery 10).connHandle
                ≠ Status.SUCCESS
              then [Action.GATT_bm_free_req] else [])) :=
  (config_write_steps cfg3 envCentral0 (msgWriteRsp 0) (stateAfterDiscovery 10) 0
    (by decide) (by decide)).1 (by decide) (by decide) (by decide)

/-- C16: in `BLE_DISC_STATE_DONE`, with the link under discovery in the
connection table, a write response sets `discState` to
`BLE_DISC_STATE_IDLE` and `char_disc_state` to IO_DATA and changes nothing
else of the state (connection table and stored handles included); the
request to enable advertising is issued if and only if
`linkDB_NumActive() < MAX_NUM_BLE_CONNS`, and nothing else is issued. -/
theorem done_write_response_finishes (cfg : Config) (env : Env) (pMsg : gattMsgEvent_t)
    (s : State)
    (hd : s.discState = DiscState.BLE_DISC_STATE_DONE)
    (hmapped : Mapped cfg s s.connHandle)
    (hm : pMsg.method = AttMethod.ATT_WRITE_RSP) :
    ∃ r, multi_role_processGATTDiscEvent cfg env pMsg s = some r
      ∧ r.1 = { s with discState := DiscState.BLE_DISC_STATE_IDLE,
                       char_disc_state := CharDiscState.CHAR_DISC_STATE_IO_DATA }
      ∧ r.1.connHandleMap = s.connHandleMap
      ∧ r.1.io_data_hdl = s.io_data_hdl ∧ r.1.io_conf_hdl = s.io_conf_hdl
      ∧ r.1.keys_data_hdl = s.keys_data_hdl
      ∧ (Action.GAPRole_SetParameter_ADVERT_ENABLED true ∈ r.2
          ↔ env.linkDB_NumActive < cfg.MAX_NUM_BLE_CONNS)
      ∧ (∀ a, a ∈ r.2 → a = Action.GAPRole_SetParameter_ADVERT_ENABLED true) := by
  obtain ⟨idx, hl⟩ := mapConnHandleToIndex_of_mapped cfg s s.connHandle hmapped
  refine ⟨discEventBody cfg env pMsg (idx % 256) s,
    processGATTDiscEvent_of_lookup cfg env pMsg s idx hl, ?_⟩
  rw [discEventBody_done cfg env pMsg _ s hd hm]
  refine ⟨rfl, rfl, rfl, rfl, rfl, ?_, ?_⟩
  · by_cases hn : env.linkDB_NumActive < cfg.MAX_NUM_BLE_CONNS
    · simp [hn]
    · simp [hn]
  · intro a ha
    by_cases hn : env.linkDB_NumActive < cfg.MAX_NUM_BLE_CONNS
    · simpa [hn] using ha
    · simp [hn] at ha

/-- C16, witness: the last write response of the discovery of link 0, with
one active link out of three: advertising is enabled again. -/
theorem done_write_response_finishes_witness :
    ∃ r, multi_role_processGATTDiscEvent cfg3 envCentral0 (msgWriteRsp 0)
           (stateAfterDiscovery 12) = some r
      ∧ r.1.discState = DiscState.BLE_DISC_STATE_IDLE
      ∧ Action.GAPRole_SetParameter_ADVERT_ENABLED true ∈ r.2 := by
  obtain ⟨r, h1, h2, _, _, _, _, h7, _⟩ :=
    done_write_response_finishes cfg3 envCentral0 (msgWriteRsp 0) (stateAfterDiscovery 12)
      (by decide) (by decide) (by decide)
  exact ⟨r, h1, by rw [h2], h7.2 (by decide)⟩

/-- C17 (as amended): with the link under discovery at slot `idx`, if the
write buffer cannot be allocated at a configuration step, the write is
skipped and `discState` does not advance: in `BLE_DISC_STATE_CHAR` on a
completion with sub-state DONE it stays `BLE_DISC_STATE_CHAR`, in
`BLE_DISC_STATE_INIT_IO` and in `BLE_DISC_STATE_INIT_KEYS` on a write
response the whole state is unchanged; nothing is issued. -/
theorem alloc_failure_keeps_disc_state (cfg : Config) (env : Env) (pMsg : gattMsgEvent_t)
    (s : State) (idx : Nat)
    (hl : multi_role_mapConnHandleToIndex cfg s s.connHandle = some idx)
    (ha : env.GATT_bm_alloc s.connHandle = false) :
    (s.discState = DiscState.BLE_DISC_STATE_CHAR →
      ∃ r, multi_role_processGATTDiscEvent cfg env pMsg s = some r
        ∧ (r.1.char_disc_state = CharDiscState.CHAR_DISC_STATE_DONE →
            r.1.discState = DiscState.BLE_DISC_STATE_CHAR ∧ r.2 = []))
    ∧ (s.discState = DiscState.BLE_DISC_STATE_INIT_IO →
      pMsg.method = AttMethod.ATT_WRITE_RSP →
      multi_role_processGATTDiscEvent cfg env pMsg s = some (s, []))
    ∧ (s.discState = DiscState.BLE_DISC_STATE_INIT_KEYS →
      pMsg.method = AttMethod.ATT_WRITE_RSP →
      multi_role_processGATTDiscEvent cfg env pMsg s = some (s, [])) := by
  rw [processGATTDiscEvent_of_lookup cfg env pMsg s idx hl]
  refine ⟨?_, ?_, ?_⟩
  · intro hd
    refine ⟨_, rfl, ?_⟩
    by_cases hu : pMsg.method = AttMethod.ATT_MTU_UPDATED_EVENT
    · rw [discEventBody_mtu_updated cfg env pMsg _ s hu]
      intro _; exact ⟨hd, rfl⟩
    · rw [discEventBody_char cfg env pMsg _ s hd hu]
      unfold discEventChar
      obtain ⟨f1, _⟩ := discCharComplete_frame env pMsg (idx % 256)
        (discCharStore pMsg (idx % 256) s)
      obtain ⟨g1, _⟩ := discCharStore_frame pMsg (idx % 256) s
      rw [f1]
      intro hc
      rw [discCharComplete_done_no_alloc env pMsg _ _ hc (by rw [g1]; exact ha),
        discCharStore_discState]
      exact ⟨hd, rfl⟩
  · intro hd hm
    rw [discEventBody_init_io cfg env pMsg _ s hd hm, discEventWrite_no_alloc env _ _ _ s ha]
  · intro hd hm
    rw [discEventBody_init_keys cfg env pMsg _ s hd hm,
      discEventWrite_no_alloc env _ _ _ s ha]

/-- C17, witness: on link 0 in `BLE_DISC_STATE_INIT_IO`, a write response
when no buffer can be allocated leaves the state unchanged. -/
theorem alloc_failure_keeps_disc_state_witness :
    multi_role_processGATTDiscEvent cfg3 envNoAlloc (msgWriteRsp 0) (stateAfterDiscovery 10)
      = some (stateAfterDiscovery 10, []) :=
  (alloc_failure_keeps_disc_state cfg3 envNoAlloc (msgWriteRsp 0) (stateAfterDiscovery 10) 0
    (by decide) (by decide)).2.1 (by decide) (by decide)

/-- C17, counterexample: on link 0 in `BLE_DISC_STATE_INIT_IO`, a write
response when no buffer can be allocated issues nothing and leaves
`discState` at `BLE_DISC_STATE_INIT_IO`, whereas with a buffer the same
message moves to `BLE_DISC_STATE_INIT_KEYS`. -/
theorem alloc_failure_does_not_advance :
    (stateAfterDiscovery 10).discState = DiscState.BLE_DISC_STATE_INIT_IO
    ∧ (multi_role_processGATTDiscEvent cfg3 envNoAlloc (msgWriteRsp 0)
        (stateAfterDiscovery 10)).map (fun r => (r.1.discState, r.2))
        = some (DiscState.BLE_DISC_STATE_INIT_IO, [])
    ∧ (multi_role_processGATTDiscEvent cfg3 envCentral0 (msgWriteRsp 0)
        (stateAfterDiscovery 10)).map (fun r => r.1.discState)
        = some DiscState.BLE_DISC_STATE_INIT_KEYS := by
  decide

/-- C12, failing run: in the discovery of link 0 the first service search is
issued with the window at 0, 0, but when the procedure-complete after the two
characteristics of the first service issues the search for the SK service,
`svcStartHdl` and `svcEndHdl` still hold 10 and 20; if the SK service is then
not found, the procedure-complete of that search starts a characteristic
discovery over the old window 10..20. -/
theorem second_service_search_keeps_window :
    (multi_role_processGATTDiscEvent cfg3 envCentral0 (msgMtuRsp 0) stateAtMtu).map
        (fun r => (r.2, r.1.svcStartHdl, r.1.svcEndHdl))
      = some ([Action.GATT_DiscPrimaryServiceByUUID 0 (UuidArg.TI_BASE_UUID_128 0xAA64) 16],
              0, 0)
    ∧ (multi_role_processGATTDiscEvent cfg3 envCentral0 (msgCharComplete 0)
        (stateAfterDiscovery 5)).map (fun r => (r.2, r.1.svcStartHdl, r.1.svcEndHdl))
      = some ([Action.GATT_DiscPrimaryServiceByUUID 0 (UuidArg.bytes [0xE0, 0xFF]) 2],
              10, 20)
    ∧ (multi_role_processGATTDiscEvent cfg3 envCentral0 (msgSvcComplete 0)
        (stateAfterDiscovery 6)).map (fun r => (r.1.discState, r.2))
      = some (DiscState.BLE_DISC_STATE_CHAR, [Action.GATT_DiscAllChars 0 10 20]) := by
  decide

/-! ### ATT response retry guard -/

/-- C18: when `multi_role_processGATTMsg` receives a message with status
`blePending`, the registration for the connection-event notice succeeds and a
response is already pending, the pending response is freed through the
failure branch of `multi_role_freeAttRsp` (payload freed, "Rsp retry failed"
displayed, message freed), the new message becomes the pending response,
`rspTxRetry` is 0, nothing else of the state changes, and the function
returns FALSE. -/
theorem staging_while_pending_drops_previous (cfg : Config) (env : Env)
    (pMsg old : gattMsgEvent_t) (s : State)
    (hst : pMsg.status = Status.blePending)
    (hreg : env.HCI_EXT_ConnEventNoticeCmd pMsg.connHandle = Status.SUCCESS)
    (hp : s.pAttRsp = some old) :
    multi_role_processGATTMsg cfg env pMsg s
      = some ({ s with pAttRsp := some pMsg, rspTxRetry := 0 },
          [Action.HCI_EXT_ConnEventNoticeCmd pMsg.connHandle true,
           Action.GATT_bm_free_rsp, Action.Display_RspRetryFailed s.rspTxRetry,
           Action.ICall_freeMsg_rsp],
          false) := by
  unfold multi_role_processGATTMsg
  rw [if_pos ⟨hst, hreg⟩]
  simp [multi_role_freeAttRsp, hp]

/-- C18, witness: a second pending response (a write response) arrives on
link 0 while the read response is staged. -/
theorem staging_while_pending_drops_previous_witness :
    multi_role_processGATTMsg cfg3 envCentral0 (msgRspPending 0 AttMethod.ATT_WRITE_RSP)
        stateStaged
      = some ({ stateStaged with
                pAttRsp := some (msgRspPending 0 AttMethod.ATT_WRITE_RSP), rspTxRetry := 0 },
          [Action.HCI_EXT_ConnEventNoticeCmd
              (msgRspPending 0 AttMethod.ATT_WRITE_RSP).connHandle true,
           Action.GATT_bm_free_rsp, Action.Display_RspRetryFailed stateStaged.rspTxRetry,
           Action.ICall_freeMsg_rsp],
          false) :=
  staging_while_pending_drops_previous cfg3 envCentral0
    (msgRspPending 0 AttMethod.ATT_WRITE_RSP) (msgRspPending 0 AttMethod.ATT_READ_RSP)
    stateStaged (by decide) (by decide) (by decide)

theorem sendAttRsp_busy (env : Env) (s : State) (rsp : gattMsgEvent_t)
    (hp : s.pAttRsp = some rsp)
    (hbusy : env.GATT_SendRsp rsp.connHandle = Status.blePending
      ∨ env.GATT_SendRsp rsp.connHandle = Status.MSG_BUFFER_NOT_AVAIL) :
    multi_role_sendAttRsp env s
      = ({ s with rspTxRetry := (s.rspTxRetry + 1) % 256 },
          [Action.GATT_SendRsp rsp.connHandle rsp.method,
           Action.Display_RspSendRetry ((s.rspTxRetry + 1) % 256)]) := by
  unfold multi_role_sendAttRsp
  rcases hbusy with h | h <;> simp [hp, h]

theorem sendAttRspRun_busy :
    ∀ (envs : List Env) (s : State) (rsp : gattMsgEvent_t),
      s.pAttRsp = some rsp → s.rspTxRetry < 256 →
      (∀ env, env ∈ envs →
        env.GATT_SendRsp rsp.connHandle = Status.blePending
        ∨ env.GATT_SendRsp rsp.connHandle = Status.MSG_BUFFER_NOT_AVAIL) →
      (sendAttRspRun s envs).rspTxRetry = (s.rspTxRetry + envs.length) % 256
      ∧ (sendAttRspRun s envs).pAttRsp = some rsp := by
  intro envs
  induction envs with
  | nil =>
    intro s rsp hp hr _
    simp only [sendAttRspRun, List.length_nil, Nat.add_zero]
    exact ⟨(Nat.mod_eq_of_lt hr).symm, hp⟩
  | cons env rest ih =>
    intro s rsp hp hr hbusy
    have h1 := sendAttRsp_busy env s rsp hp (hbusy env (List.mem_cons_self _ _))
    simp only [sendAttRspRun, h1]
    obtain ⟨h2, h3⟩ := ih { s with rspTxRetry := (s.rspTxRetry + 1) % 256 } rsp hp
      (Nat.mod_lt _ (by decide)) (fun e he => hbusy e (List.mem_cons_of_mem _ he))
    refine ⟨?_, h3⟩
    rw [h2]
    simp only [List.length_cons]
    omega

/-- C19 (as amended): the number of re-attempts is not capped, but the
counter is a `uint8_t`: starting from a staged response with `rspTxRetry`
at 0, after `n` consecutive runs of `multi_role_sendAttRsp` that the
transport answers with `blePending` or `MSG_BUFFER_NOT_AVAIL`, the same
response is still pending and `rspTxRetry` equals `n` modulo 256 (so it
equals `n` for `n` below 256). -/
theorem retry_counter_wraps (s : State) (rsp : gattMsgEvent_t) (envs : List Env)
    (hp : s.pAttRsp = some rsp) (h0 : s.rspTxRetry = 0)
    (hbusy : ∀ env, env ∈ envs →
      env.GATT_SendRsp rsp.connHandle = Status.blePending
      ∨ env.GATT_SendRsp rsp.connHandle = Status.MSG_BUFFER_NOT_AVAIL) :
    (sendAttRspRun s envs).rspTxRetry = envs.length % 256
    ∧ (envs.length < 256 → (sendAttRspRun s envs).rspTxRetry = envs.length)
    ∧ (sendAttRspRun s envs).pAttRsp = some rsp := by
  obtain ⟨h1, h2⟩ := sendAttRspRun_busy envs s rsp hp (by rw [h0]; decide) hbusy
  rw [h0, Nat.zero_add] at h1
  exact ⟨h1, fun hlt => by rw [h1, Nat.mod_eq_of_lt hlt], h2⟩

/-- C19, witness: three busy re-attempts of the staged read response of
link 0. -/
theorem retry_counter_wraps_witness :
    (sendAttRspRun stateStaged (List.replicate 3 envBusy)).rspTxRetry = 3
    ∧ (sendAttRspRun stateStaged (List.replicate 3 envBusy)).pAttRsp
        = some (msgRspPending 0 AttMethod.ATT_READ_RSP) := by
  obtain ⟨_, h2, h3⟩ :=
    retry_counter_wraps stateStaged (msgRspPending 0 AttMethod.ATT_READ_RSP)
      (List.replicate 3 envBusy) (by decide) (by decide) (by decide)
  exact ⟨h2 (by decide), h3⟩

/-- C19, counterexample: after 256 busy re-attempts of the staged read
response of link 0 the response is still pending and `rspTxRetry` is 0, not
256. -/
theorem retry_counter_zero_after_256 :
    (sendAttRspRun stateStaged (List.replicate 256 envBusy)).rspTxRetry = 0
    ∧ (sendAttRspRun stateStaged (List.replicate 256 envBusy)).rspTxRetry ≠ 256
    ∧ (sendAttRspRun stateStaged (List.replicate 256 envBusy)).pAttRsp
        = some (msgRspPending 0 AttMethod.ATT_READ_RSP) := by
  have hbusy : ∀ env, env ∈ List.replicate 256 envBusy →
      env.GATT_SendRsp (msgRspPending 0 AttMethod.ATT_READ_RSP).connHandle
        = Status.blePending
      ∨ env.GATT_SendRsp (msgRspPending 0 AttMethod.ATT_READ_RSP).connHandle
        = Status.MSG_BUFFER_NOT_AVAIL := by
    intro env he
    rw [List.eq_of_mem_replicate he]
    exact Or.inl rfl
  obtain ⟨h1, h2⟩ := sendAttRspRun_busy (List.replicate 256 envBusy) stateStaged
    (msgRspPending 0 AttMethod.ATT_READ_RSP) (by decide) (by decide) hbusy
  rw [List.length_replicate] at h1
  have h3 : stateStaged.rspTxRetry = 0 := by decide
  rw [h3] at h1
  have h4 : (sendAttRspRun stateStaged (List.replicate 256 envBusy)).rspTxRetry = 0 := h1
  exact ⟨h4, by rw [h4]; decide, h2⟩

/-- C20: when a response is pending and `GATT_SendRsp` returns a status other
than `blePending` and `MSG_BUFFER_NOT_AVAIL`, `multi_role_sendAttRsp` sends the
response, disables the connection-event notice for the link of the response,
frees the response (`pAttRsp` becomes NULL) and resets `rspTxRetry` to 0,
nothing else of the state changing; when no response is pending it changes
nothing and issues nothing. -/
theorem send_att_rsp_definitive_or_empty (env : Env) (s : State) :
    (∀ rsp, s.pAttRsp = some rsp →
      env.GATT_SendRsp rsp.connHandle ≠ Status.blePending →
      env.GATT_SendRsp rsp.connHandle ≠ Status.MSG_BUFFER_NOT_AVAIL →
      (multi_role_sendAttRsp env s).1 = { s with pAttRsp := none, rspTxRetry := 0 }
      ∧ (multi_role_sendAttRsp env s).2
          = [Action.GATT_SendRsp rsp.connHandle rsp.method,
             Action.HCI_EXT_ConnEventNoticeCmd rsp.connHandle false]
            ++ (if env.GATT_SendRsp rsp.connHandle = Status.SUCCESS
                then [Action.Display_RspSent ((s.rspTxRetry + 1) % 256)]
                else [Action.GATT_bm_free_rsp,
                      Action.Display_RspRetryFailed ((s.rspTxRetry + 1) % 256)])
            ++ [Action.ICall_freeMsg_rsp])
    ∧ (s.pAttRsp = none → multi_role_sendAttRsp env s = (s, [])) := by
  constructor
  · intro rsp hp h1 h2
    unfold multi_role_sendAttRsp
    simp only [hp]
    rw [if_pos ⟨h1, h2⟩]
    simp [multi_role_freeAttRsp, hp]
  · intro hp
    unfold multi_role_sendAttRsp
    simp only [hp]

/-- C20, witness: the staged read response of link 0 is sent successfully at
the next connection event. -/
theorem send_att_rsp_definitive_or_empty_witness :
    (multi_role_sendAttRsp envCentral0 stateStaged).1
      = { stateStaged with pAttRsp := none, rspTxRetry := 0 } :=
  ((send_att_rsp_definitive_or_empty envCentral0 stateStaged).1
    (msgRspPending 0 AttMethod.ATT_READ_RSP) (by decide) (by decide) (by decide)).1

/-! ### The multicast write -/

theorem writeAllLoop_skip (env : Env) (size : Nat) (value : List Nat) (handles : Nat → Nat)
    (i fuel : Nat) (s : State) (pInfo : ConnRole) (status : Status) (acts : List Action)
    (h : ¬ (pInfoConnRole env (s.connHandleMap i) pInfo = ConnRole.GAP_PROFILE_CENTRAL
            ∧ env.GATT_bm_alloc (s.connHandleMap i) = true)) :
    writeAllLoop env size value handles i (fuel + 1) s pInfo status acts
      = writeAllLoop env size value handles (i + 1) fuel
          { s with connHandle := s.connHandleMap i }
          (pInfoConnRole env (s.connHandleMap i) pInfo) status acts := by
  simp only [writeAllLoop]
  by_cases hc : pInfoConnRole env (s.connHandleMap i) pInfo = ConnRole.GAP_PROFILE_CENTRAL
  · rw [if_pos hc, if_neg (fun ha => h ⟨hc, ha⟩)]
  · rw [if_neg hc]

theorem writeAllLoop_sent (env : Env) (size : Nat) (value : List Nat) (handles : Nat → Nat)
    (i fuel : Nat) (s : State) (pInfo : ConnRole) (status : Status) (acts : List Action)
    (hc : pInfoConnRole env (s.connHandleMap i) pInfo = ConnRole.GAP_PROFILE_CENTRAL)
    (ha : env.GATT_bm_alloc (s.connHandleMap i) = true)
    (hs : env.GATT_WriteCharValue (s.connHandleMap i) = Status.SUCCESS) :
    writeAllLoop env size value handles i (fuel + 1) s pInfo status acts
      = writeAllLoop env size value handles (i + 1) fuel
          { s with connHandle := s.connHandleMap i }
          (pInfoConnRole env (s.connHandleMap i) pInfo) Status.SUCCESS
          (acts ++ [slotWrite size value handles s.connHandleMap i]) := by
  simp only [writeAllLoop]
  rw [if_pos hc, if_pos ha, if_neg (not_not.mpr hs), hs]
  rfl

theorem writeAllLoop_failed (env : Env) (size : Nat) (value : List Nat) (handles : Nat → Nat)
    (i fuel : Nat) (s : State) (pInfo : ConnRole) (status : Status) (acts : List Action)
    (hc : pInfoConnRole env (s.connHandleMap i) pInfo = ConnRole.GAP_PROFILE_CENTRAL)
    (ha : env.GATT_bm_alloc (s.connHandleMap i) = true)
    (hs : env.GATT_WriteCharValue (s.connHandleMap i) ≠ Status.SUCCESS) :
    writeAllLoop env size value handles i (fuel + 1) s pInfo status acts
      = ({ s with connHandle := s.connHandleMap i },
         env.GATT_WriteCharValue (s.connHandleMap i),
         acts ++ [slotWrite size value handles s.connHandleMap i]
           ++ [Action.GATT_bm_free_req]) := by
  simp only [writeAllLoop]
  rw [if_pos hc, if_pos ha, if_pos hs]
  rfl

theorem slotWritten_iff (env : Env) (m : Nat → Nat) (i : Nat) :
    slotWritten env m i = true ↔
      (pInfoConnRole env (m i) (pInfoBefore env m i) = ConnRole.GAP_PROFILE_CENTRAL
        ∧ env.GATT_bm_alloc (m i) = true) := by
  unfold slotWritten roleAtSlot
  simp only [Bool.and_eq_true, decide_eq_true_eq]
  rfl

/-- A link known to the stack as central is tested as central. -/
theorem roleAtSlot_of_link (env : Env) (m : Nat → Nat) (i : Nat)
    (h : env.linkDB_GetInfo (m i) = some ConnRole.GAP_PROFILE_CENTRAL) :
    roleAtSlot env m i = ConnRole.GAP_PROFILE_CENTRAL := by
  show pInfoConnRole env (m i) (pInfoBefore env m i) = _
  unfold pInfoConnRole
  rw [h]

/-- A pass of the loop over `n` slots without send failure: every slot is
visited, the requests of the written slots are issued in order, `connHandle` is
left at the handle of the last slot visited, and `status` is that of the last
request sent, if any. -/
theorem writeAllLoop_pass (env : Env) (size : Nat) (value : List Nat) (handles : Nat → Nat)
    (s : State) (fuel : Nat) :
    ∀ (n i c : Nat) (status : Status) (acts : List Action),
      (∀ j, i ≤ j → j < i + n → slotWritten env s.connHandleMap j = true →
        env.GATT_WriteCharValue (s.connHandleMap j) = Status.SUCCESS) →
      ∃ st,
        writeAllLoop env size value handles i (n + fuel) { s with connHandle := c }
            (pInfoBefore env s.connHandleMap i) status acts
          = writeAllLoop env size value handles (i + n) fuel
              { s with connHandle := if n = 0 then c else s.connHandleMap (i + n - 1) }
              (pInfoBefore env s.connHandleMap (i + n)) st
              (acts ++ writesFrom env size value handles s.connHandleMap i n)
        ∧ ((∀ j, i ≤ j → j < i + n → slotWritten env s.connHandleMap j = false) →
            st = status)
        ∧ ((∃ j, i ≤ j ∧ j < i + n ∧ slotWritten env s.connHandleMap j = true) →
            st = Status.SUCCESS) := by
  intro n
  induction n with
  | zero =>
    intro i c status acts _
    refine ⟨status, ?_, fun _ => rfl, ?_⟩
    · rw [Nat.zero_add, Nat.add_zero, if_pos rfl]
      simp only [writesFrom, List.append_nil]
    · rintro ⟨j, h1, h2, _⟩
      omega
  | succ n ih =>
    intro i c status acts hok
    have hfuel : n + 1 + fuel = (n + fuel) + 1 := by omega
    have hidx : i + 1 + n = i + (n + 1) := by omega
    have hlast : (if n = 0 then s.connHandleMap i else s.connHandleMap (i + 1 + n - 1))
        = s.connHandleMap (i + (n + 1) - 1) := by
      by_cases hn : n = 0
      · rw [if_pos hn, hn]; rfl
      · rw [if_neg hn]
        congr 1
        omega
    have hok' : ∀ j, i + 1 ≤ j → j < i + 1 + n →
        slotWritten env s.connHandleMap j = true →
        env.GATT_WriteCharValue (s.connHandleMap j) = Status.SUCCESS :=
      fun j h1 h2 => hok j (by omega) (by omega)
    rw [hfuel, if_neg (Nat.succ_ne_zero n)]
    cases hw : slotWritten env s.connHandleMap i with
    | true =>
      have hw' := (slotWritten_iff env s.connHandleMap i).mp hw
      have hs := hok i (Nat.le_refl i) (by omega) hw
      obtain ⟨st, h1, h2, h3⟩ := ih (i + 1) (s.connHandleMap i) Status.SUCCESS
        (acts ++ [slotWrite size value handles s.connHandleMap i]) hok'
      have hstep := writeAllLoop_sent env size value handles i (n + fuel)
        { s with connHandle := c } (pInfoBefore env s.connHandleMap i) status acts
        hw'.1 hw'.2 hs
      have hst : st = Status.SUCCESS := by
        by_cases hex : ∃ j, i + 1 ≤ j ∧ j < i + 1 + n ∧
            slotWritten env s.connHandleMap j = true
        · exact h3 hex
        · refine h2 (fun j hj1 hj2 => ?_)
          cases hj : slotWritten env s.connHandleMap j with
          | true => exact absurd ⟨j, hj1, hj2, hj⟩ hex
          | false => rfl
      refine ⟨Status.SUCCESS, ?_, ?_, fun _ => rfl⟩
      · rw [hstep]
        rw [hst, hlast, hidx] at h1
        rw [writesFrom, if_pos hw, ← List.append_assoc]
        exact h1
      · intro hall
        have := hall i (Nat.le_refl i) (by omega)
        rw [hw] at this
        exact absurd this (by decide)
    | false =>
      have hw' : ¬ (pInfoConnRole env (s.connHandleMap i) (pInfoBefore env s.connHandleMap i)
            = ConnRole.GAP_PROFILE_CENTRAL ∧ env.GATT_bm_alloc (s.connHandleMap i) = true) := by
        intro h
        rw [(slotWritten_iff env s.connHandleMap i).mpr h] at hw
        exact absurd hw (by decide)
      obtain ⟨st, h1, h2, h3⟩ := ih (i + 1) (s.connHandleMap i) status acts hok'
      have hstep := writeAllLoop_skip env size value handles i (n + fuel)
        { s with connHandle := c } (pInfoBefore env s.connHandleMap i) status acts hw'
      refine ⟨st, ?_, ?_, ?_⟩
      · rw [hstep]
        rw [hlast, hidx] at h1
        rw [writesFrom, if_neg (by rw [hw]; decide), List.nil_append]
        exact h1
      · intro hall
        exact h2 (fun j hj1 hj2 => hall j (by omega) (by omega))
      · rintro ⟨j, hj1, hj2, hj3⟩
        refine h3 ⟨j, ?_, by omega, hj3⟩
        by_cases hji : j = i
        · rw [hji, hw] at hj3
          exact absurd hj3 (by decide)
        · omega

theorem writesFrom_append (env : Env) (size : Nat) (value : List Nat)
    (handles m : Nat → Nat) :
    ∀ (a i b : Nat), writesFrom env size value handles m i (a + b)
      = writesFrom env size value handles m i a
          ++ writesFrom env size value handles m (i + a) b := by
  intro a
  induction a with
  | zero => intro i b; rw [Nat.zero_add]; rfl
  | succ a ih =>
    intro i b
    have h : a + 1 + b = (a + b) + 1 := by omega
    have h2 : i + 1 + a = i + (a + 1) := by omega
    rw [h, writesFrom, writesFrom, ih (i + 1) b, h2, List.append_assoc]

theorem writesFrom_mem (env : Env) (size : Nat) (value : List Nat)
    (handles m : Nat → Nat) :
    ∀ (n i j : Nat), i ≤ j → j < i + n → slotWritten env m j = true →
      slotWrite size value handles m j ∈ writesFrom env size value handles m i n := by
  intro n
  induction n with
  | zero => intro i j h1 h2; omega
  | succ n ih =>
    intro i j h1 h2 hw
    rw [writesFrom]
    by_cases hji : j = i
    · rw [← hji, if_pos hw]
      exact List.mem_append_left _ (List.mem_singleton.mpr rfl)
    · exact List.mem_append_right _ (ih (i + 1) j (by omega) (by omega) hw)

theorem writesFrom_skip (env : Env) (size : Nat) (value : List Nat)
    (handles m : Nat → Nat) (i n : Nat) (h : slotWritten env m i = false) :
    writesFrom env size value handles m i (n + 1)
      = writesFrom env size value handles m (i + 1) n := by
  rw [writesFrom, if_neg (by rw [h]; decide), List.nil_append]

/-- A call in which no request fails: every slot is visited. -/
theorem writeAll_no_send_failure (cfg : Config) (env : Env) (size : Nat) (value : List Nat)
    (handles : Nat → Nat) (s : State)
    (hok : ∀ j, j < cfg.MAX_NUM_BLE_CONNS → slotWritten env s.connHandleMap j = true →
      env.GATT_WriteCharValue (s.connHandleMap j) = Status.SUCCESS) :
    ∃ st,
      multiRole_WriteCharValuesToAllSlaves cfg env size value handles s
        = ({ s with connHandle := if cfg.MAX_NUM_BLE_CONNS = 0 then s.connHandle
                                  else s.connHandleMap (cfg.MAX_NUM_BLE_CONNS - 1) },
           st, writesFrom env size value handles s.connHandleMap 0 cfg.MAX_NUM_BLE_CONNS)
      ∧ ((∀ j, j < cfg.MAX_NUM_BLE_CONNS → slotWritten env s.connHandleMap j = false) →
          st = env.statusUninit)
      ∧ ((∃ j, j < cfg.MAX_NUM_BLE_CONNS ∧ slotWritten env s.connHandleMap j = true) →
          st = Status.SUCCESS) := by
  obtain ⟨st, h1, h2, h3⟩ := writeAllLoop_pass env size value handles s 0
    cfg.MAX_NUM_BLE_CONNS 0 s.connHandle env.statusUninit []
    (fun j _ hj => hok j (by omega))
  refine ⟨st, ?_, ?_, ?_⟩
  · rw [Nat.add_zero, Nat.zero_add, List.nil_append] at h1
    exact h1
  · intro hall
    exact h2 (fun j _ hj => hall j (by omega))
  · rintro ⟨j, hj, hw⟩
    exact h3 ⟨j, Nat.zero_le j, by omega, hw⟩

/-- A call in which the first failing request is that of slot `k`: the
iteration stops there. -/
theorem writeAll_first_send_failure (cfg : Config) (env : Env) (size : Nat)
    (value : List Nat) (handles : Nat → Nat) (s : State) (k : Nat)
    (hk : k < cfg.MAX_NUM_BLE_CONNS)
    (hw : slotWritten env s.connHandleMap k = true)
    (hfail : env.GATT_WriteCharValue (s.connHandleMap k) ≠ Status.SUCCESS)
    (hbelow : ∀ j, j < k → slotWritten env s.connHandleMap j = true →
      env.GATT_WriteCharValue (s.connHandleMap j) = Status.SUCCESS) :
    multiRole_WriteCharValuesToAllSlaves cfg env size value handles s
      = ({ s with connHandle := s.connHandleMap k },
         env.GATT_WriteCharValue (s.connHandleMap k),
         writesFrom env size value handles s.connHandleMap 0 k
           ++ [slotWrite size value handles s.connHandleMap k]
           ++ [Action.GATT_bm_free_req]) := by
  obtain ⟨st, h1, _, _⟩ := writeAllLoop_pass env size value handles s
    (cfg.MAX_NUM_BLE_CONNS - k - 1 + 1) k 0 s.connHandle env.statusUninit []
    (fun j _ hj => hbelow j (by omega))
  have hfuel : k + (cfg.MAX_NUM_BLE_CONNS - k - 1 + 1) = cfg.MAX_NUM_BLE_CONNS := by omega
  have hw' := (slotWritten_iff env s.connHandleMap k).mp hw
  rw [hfuel, List.nil_append] at h1
  refine Eq.trans h1 ?_
  rw [Nat.zero_add]
  exact writeAllLoop_failed env size value handles k (cfg.MAX_NUM_BLE_CONNS - k - 1)
    { s with connHandle := if k = 0 then s.connHandle else s.connHandleMap (k - 1) }
    (pInfoBefore env s.connHandleMap k) st _ hw'.1 hw'.2 hfail

/-- Whatever the stack answers, the loop changes no variable other than
`connHandle`. -/
theorem writeAllLoop_frame (env : Env) (size : Nat) (value : List Nat) (handles : Nat → Nat)
    (s : State) :
    ∀ (fuel i c : Nat) (pInfo : ConnRole) (status : Status) (acts : List Action),
      ∃ c1, (writeAllLoop env size value handles i fuel { s with connHandle := c } pInfo
          status acts).1 = { s with connHandle := c1 } := by
  intro fuel
  induction fuel with
  | zero => intro i c pInfo status acts; exact ⟨c, rfl⟩
  | succ fuel ih =>
    intro i c pInfo status acts
    by_cases hc : pInfoConnRole env (s.connHandleMap i) pInfo = ConnRole.GAP_PROFILE_CENTRAL
        ∧ env.GATT_bm_alloc (s.connHandleMap i) = true
    · by_cases hs : env.GATT_WriteCharValue (s.connHandleMap i) = Status.SUCCESS
      · rw [writeAllLoop_sent env size value handles i fuel { s with connHandle := c } pInfo
          status acts hc.1 hc.2 hs]
        exact ih (i + 1) (s.connHandleMap i) _ _ _
      · rw [writeAllLoop_failed env size value handles i fuel { s with connHandle := c } pInfo
          status acts hc.1 hc.2 hs]
        exact ⟨s.connHandleMap i, rfl⟩
    · rw [writeAllLoop_skip env size value handles i fuel { s with connHandle := c } pInfo
        status acts hc]
      exact ih (i + 1) (s.connHandleMap i) _ _ _

theorem writeAll_frame (cfg : Config) (env : Env) (size : Nat) (value : List Nat)
    (handles : Nat → Nat) (s : State) :
    (multiRole_WriteCharValuesToAllSlaves cfg env size value handles s).1
      = { s with connHandle :=
            (multiRole_WriteCharValuesToAllSlaves cfg env size value handles s).1.connHandle } := by
  obtain ⟨c1, h⟩ := writeAllLoop_frame env size value handles s cfg.MAX_NUM_BLE_CONNS 0
    s.connHandle env.pInfoUninit env.statusUninit []
  have h' : (multiRole_WriteCharValuesToAllSlaves cfg env size value handles s).1
      = { s with connHandle := c1 } := h
  rw [h']

/-- Claim C21. When the request of a central slot `k` fails and no request of a
lower slot failed, `multiRole_WriteCharValuesToAllSlaves` returns the status of
the failed request; the requests it issued are exactly those of the written
slots below `k`, in order, followed by the request of slot `k` (whose buffer is
then freed), so that every central slot below `k` that got a buffer has its
request in the list and no request is issued for a slot above `k`. -/
theorem write_all_stops_at_send_failure (cfg : Config) (env : Env) (size : Nat)
    (value : List Nat) (handles : Nat → Nat) (s : State) (k : Nat)
    (hk : k < cfg.MAX_NUM_BLE_CONNS)
    (hrole : roleAtSlot env s.connHandleMap k = ConnRole.GAP_PROFILE_CENTRAL)
    (halloc : env.GATT_bm_alloc (s.connHandleMap k) = true)
    (hfail : env.GATT_WriteCharValue (s.connHandleMap k) ≠ Status.SUCCESS)
    (hbelow : ∀ j, j < k → slotWritten env s.connHandleMap j = true →
      env.GATT_WriteCharValue (s.connHandleMap j) = Status.SUCCESS) :
    (multiRole_WriteCharValuesToAllSlaves cfg env size value handles s).2.1
        = env.GATT_WriteCharValue (s.connHandleMap k)
      ∧ (multiRole_WriteCharValuesToAllSlaves cfg env size value handles s).2.2
        = writesFrom env size value handles s.connHandleMap 0 k
            ++ [slotWrite size value handles s.connHandleMap k]
            ++ [Action.GATT_bm_free_req]
      ∧ (∀ j, j < k → roleAtSlot env s.connHandleMap j = ConnRole.GAP_PROFILE_CENTRAL →
          env.GATT_bm_alloc (s.connHandleMap j) = true →
          slotWrite size value handles s.connHandleMap j
            ∈ (multiRole_WriteCharValuesToAllSlaves cfg env size value handles s).2.2) := by
  have hw : slotWritten env s.connHandleMap k = true :=
    (slotWritten_iff env s.connHandleMap k).mpr ⟨hrole, halloc⟩
  rw [writeAll_first_send_failure cfg env size value handles s k hk hw hfail hbelow]
  refine ⟨rfl, rfl, fun j hj hr ha => ?_⟩
  have hwj : slotWritten env s.connHandleMap j = true :=
    (slotWritten_iff env s.connHandleMap j).mpr ⟨hr, ha⟩
  exact List.mem_append_left _ (List.mem_append_left _
    (writesFrom_mem env size value handles s.connHandleMap k 0 j (Nat.zero_le j)
      (by omega) hwj))

theorem write_all_stops_at_send_failure_witness :
    (multiRole_WriteCharValuesToAllSlaves cfg3 envSendFail12 1 [3] (fun i => 40 + i)
        stateABC).2.1 = Status.FAILURE
      ∧ (multiRole_WriteCharValuesToAllSlaves cfg3 envSendFail12 1 [3] (fun i => 40 + i)
        stateABC).2.2
        = [Action.GATT_WriteCharValue 10 40 [3], Action.GATT_WriteCharValue 12 42 [3],
           Action.GATT_bm_free_req] :=
  ⟨(write_all_stops_at_send_failure cfg3 envSendFail12 1 [3] (fun i => 40 + i) stateABC 2
      (by decide) (by decide) (by decide) (by decide) (by decide)).1,
   (write_all_stops_at_send_failure cfg3 envSendFail12 1 [3] (fun i => 40 + i) stateABC 2
      (by decide) (by decide) (by decide) (by decide) (by decide)).2.1⟩

/-- Claim C22, evaluation of the code. In the table `[10, free, 12]` with
central links 10 and 12, slot 1 is free and the stack does not know its handle
`INVALID_CONNHANDLE`, so `linkDB_GetInfo` leaves `pInfo` as slot 0 set it
(central); when `GATT_bm_alloc` returns a buffer, a write request is issued on
connection `INVALID_CONNHANDLE` for the free slot, and its failure ends the
iteration before the central slot 2 is written. -/
theorem write_all_writes_free_slot :
    stateABC.connHandleMap 1 = cfg3.INVALID_CONNHANDLE
      ∧ envAllocAlways.linkDB_GetInfo (stateABC.connHandleMap 1) = none
      ∧ roleAtSlot envAllocAlways stateABC.connHandleMap 1 = ConnRole.GAP_PROFILE_CENTRAL
      ∧ multiRole_WriteCharValuesToAllSlaves cfg3 envAllocAlways 1 [3] (fun i => 40 + i)
            stateABC
          = ({ stateABC with connHandle := cfg3.INVALID_CONNHANDLE }, Status.FAILURE,
             [Action.GATT_WriteCharValue 10 40 [3],
              Action.GATT_WriteCharValue cfg3.INVALID_CONNHANDLE 41 [3],
              Action.GATT_bm_free_req]) := by
  refine ⟨by decide, by decide, by decide, ?_⟩
  exact writeAll_first_send_failure cfg3 envAllocAlways 1 [3] (fun i => 40 + i) stateABC 1
    (by decide) (by decide) (by decide) (by decide)

/-- Claim C23, counterexample. In the table `[10, free, 12]` with central links
10 and 12, `GATT_bm_alloc` returns no buffer for slot 0; the iteration goes on,
the central slot 2 is written and the call returns `SUCCESS`. -/
theorem write_all_continues_after_alloc_failure :
    envNoAlloc10.linkDB_GetInfo (stateABC.connHandleMap 0)
        = some ConnRole.GAP_PROFILE_CENTRAL
      ∧ envNoAlloc10.GATT_bm_alloc (stateABC.connHandleMap 0) = false
      ∧ (multiRole_WriteCharValuesToAllSlaves cfg3 envNoAlloc10 1 [3] (fun i => 40 + i)
            stateABC).2
          = (Status.SUCCESS, [Action.GATT_WriteCharValue 12 42 [3]]) := by
  decide

/-- Claim C23, amended. A slot `k` for which `GATT_bm_alloc` returns no buffer is
skipped and the iteration continues with slot `k+1`: when no request fails, all
slots are visited (`connHandle` is left at the handle of the last slot), the
requests issued are those of the written slots below `k` followed by those of
the written slots above `k`, every written slot above `k` has its request in the
list, and the value returned is `SUCCESS` as soon as one request was sent (the
content of the uninitialised local `status` otherwise). -/
theorem alloc_failure_skips_slot (cfg : Config) (env : Env) (size : Nat)
    (value : List Nat) (handles : Nat → Nat) (s : State) (k : Nat)
    (hk : k < cfg.MAX_NUM_BLE_CONNS)
    (halloc : env.GATT_bm_alloc (s.connHandleMap k) = false)
    (hok : ∀ j, j < cfg.MAX_NUM_BLE_CONNS → slotWritten env s.connHandleMap j = true →
      env.GATT_WriteCharValue (s.connHandleMap j) = Status.SUCCESS) :
    (multiRole_WriteCharValuesToAllSlaves cfg env size value handles s).1
        = { s with connHandle := s.connHandleMap (cfg.MAX_NUM_BLE_CONNS - 1) }
      ∧ (multiRole_WriteCharValuesToAllSlaves cfg env size value handles s).2.2
        = writesFrom env size value handles s.connHandleMap 0 k
            ++ writesFrom env size value handles s.connHandleMap (k + 1)
                (cfg.MAX_NUM_BLE_CONNS - (k + 1))
      ∧ (∀ j, k < j → j < cfg.MAX_NUM_BLE_CONNS →
          slotWritten env s.connHandleMap j = true →
          slotWrite size value handles s.connHandleMap j
            ∈ (multiRole_WriteCharValuesToAllSlaves cfg env size value handles s).2.2)
      ∧ ((∃ j, j < cfg.MAX_NUM_BLE_CONNS ∧ slotWritten env s.connHandleMap j = true) →
          (multiRole_WriteCharValuesToAllSlaves cfg env size value handles s).2.1
            = Status.SUCCESS)
      ∧ ((∀ j, j < cfg.MAX_NUM_BLE_CONNS → slotWritten env s.connHandleMap j = false) →
          (multiRole_WriteCharValuesToAllSlaves cfg env size value handles s).2.1
            = env.statusUninit) := by
  obtain ⟨st, h1, h2, h3⟩ := writeAll_no_send_failure cfg env size value handles s hok
  have hwk : slotWritten env s.connHandleMap k = false := by
    unfold slotWritten
    rw [halloc, Bool.and_false]
  have hsplit : writesFrom env size value handles s.connHandleMap 0 cfg.MAX_NUM_BLE_CONNS
      = writesFrom env size value handles s.connHandleMap 0 k
          ++ writesFrom env size value handles s.connHandleMap (k + 1)
              (cfg.MAX_NUM_BLE_CONNS - (k + 1)) := by
    have hm : cfg.MAX_NUM_BLE_CONNS = k + ((cfg.MAX_NUM_BLE_CONNS - (k + 1)) + 1) := by omega
    rw [hm, writesFrom_append, Nat.zero_add, writesFrom_skip _ _ _ _ _ _ _ hwk]
    congr 2
    omega
  rw [h1, if_neg (by omega)]
  refine ⟨rfl, hsplit, fun j hkj hj hw => ?_, h3, h2⟩
  show _ ∈ writesFrom env size value handles s.connHandleMap 0 cfg.MAX_NUM_BLE_CONNS
  exact writesFrom_mem env size value handles s.connHandleMap cfg.MAX_NUM_BLE_CONNS 0 j
    (Nat.zero_le j) (by omega) hw

theorem alloc_failure_skips_slot_witness :
    (multiRole_WriteCharValuesToAllSlaves cfg3 envNoAlloc10 1 [3] (fun i => 40 + i)
        stateABC).1 = { stateABC with connHandle := 12 }
      ∧ (multiRole_WriteCharValuesToAllSlaves cfg3 envNoAlloc10 1 [3] (fun i => 40 + i)
        stateABC).2.2 = [] ++ [Action.GATT_WriteCharValue 12 42 [3]] :=
  ⟨(alloc_failure_skips_slot cfg3 envNoAlloc10 1 [3] (fun i => 40 + i) stateABC 0
      (by decide) (by decide) (by decide)).1,
   (alloc_failure_skips_slot cfg3 envNoAlloc10 1 [3] (fun i => 40 + i) stateABC 0
      (by decide) (by decide) (by decide)).2.1⟩

/-- Claim C27. `multiRole_WriteCharValuesToAllSlaves` changes `connHandle` and
nothing else (`discState`, `char_disc_state`, `connHandleMap` and the three
handle arrays keep their values): after a call in which no request fails,
`connHandle` is the handle of the last slot (`INVALID_CONNHANDLE` when that slot
is free); after a call in which the first failing request is that of slot `k`,
it is the handle of slot `k`. -/
theorem write_all_overwrites_connHandle (cfg : Config) (env : Env) (size : Nat)
    (value : List Nat) (handles : Nat → Nat) (s : State)
    (hpos : 0 < cfg.MAX_NUM_BLE_CONNS) :
    (multiRole_WriteCharValuesToAllSlaves cfg env size value handles s).1
        = { s with connHandle :=
              (multiRole_WriteCharValuesToAllSlaves cfg env size value handles s).1.connHandle }
      ∧ ((∀ j, j < cfg.MAX_NUM_BLE_CONNS → slotWritten env s.connHandleMap j = true →
            env.GATT_WriteCharValue (s.connHandleMap j) = Status.SUCCESS) →
          (multiRole_WriteCharValuesToAllSlaves cfg env size value handles s).1.connHandle
              = s.connHandleMap (cfg.MAX_NUM_BLE_CONNS - 1)
            ∧ (s.connHandleMap (cfg.MAX_NUM_BLE_CONNS - 1) = cfg.INVALID_CONNHANDLE →
                (multiRole_WriteCharValuesToAllSlaves cfg env size value handles s).1.connHandle
                  = cfg.INVALID_CONNHANDLE))
      ∧ (∀ k, k < cfg.MAX_NUM_BLE_CONNS →
          slotWritten env s.connHandleMap k = true →
          env.GATT_WriteCharValue (s.connHandleMap k) ≠ Status.SUCCESS →
          (∀ j, j < k → slotWritten env s.connHandleMap j = true →
            env.GATT_WriteCharValue (s.connHandleMap j) = Status.SUCCESS) →
          (multiRole_WriteCharValuesToAllSlaves cfg env size value handles s).1.connHandle
            = s.connHandleMap k) := by
  refine ⟨writeAll_frame cfg env size value handles s, fun hok => ?_,
    fun k hk hw hfail hbelow => ?_⟩
  · obtain ⟨st, h1, _, _⟩ := writeAll_no_send_failure cfg env size value handles s hok
    rw [h1, if_neg (by omega)]
    exact ⟨rfl, fun h => h⟩
  · rw [writeAll_first_send_failure cfg env size value handles s k hk hw hfail hbelow]

theorem write_all_overwrites_connHandle_witness :
    (multiRole_WriteCharValuesToAllSlaves cfg3 envNoAlloc10 1 [3] (fun i => 40 + i)
        stateABC).1.connHandle = 12
      ∧ (multiRole_WriteCharValuesToAllSlaves cfg3 envSendFail10 1 [3] (fun i => 40 + i)
        stateABC).1.connHandle = 10 :=
  ⟨((write_all_overwrites_connHandle cfg3 envNoAlloc10 1 [3] (fun i => 40 + i) stateABC
      (by decide)).2.1 (by decide)).1,
   (write_all_overwrites_connHandle cfg3 envSendFail10 1 [3] (fun i => 40 + i) stateABC
      (by decide)).2.2 0 (by decide) (by decide) (by decide) (by decide)⟩

/-! ### Link establishment -/

theorem addMappingEntry_frame (cfg : Config) (s : State) (h : Nat) :
    (multi_role_addMappingEntry cfg s h).1.connHandle = s.connHandle
      ∧ (multi_role_addMappingEntry cfg s h).1.discState = s.discState
      ∧ (multi_role_addMappingEntry cfg s h).1.char_disc_state = s.char_disc_state := by
  unfold multi_role_addMappingEntry
  cases addLoop cfg s.connHandleMap 0 cfg.MAX_NUM_BLE_CONNS with
  | none => exact ⟨rfl, rfl, rfl⟩
  | some index => exact ⟨rfl, rfl, rfl⟩

/-- What `multi_role_addMappingEntry` does to the table and to the rest of the
state: the least free slot receives the handle and the other slots keep their
content; a table without free slot is left as it is; no other variable
changes. -/
theorem addMappingEntry_connHandleMap (cfg : Config) (s : State) (h : Nat) :
    (∀ i, i < cfg.MAX_NUM_BLE_CONNS → s.connHandleMap i = cfg.INVALID_CONNHANDLE →
        (∀ j, j < i → s.connHandleMap j ≠ cfg.INVALID_CONNHANDLE) →
        (multi_role_addMappingEntry cfg s h).1.connHandleMap i = h
          ∧ ∀ j, j ≠ i →
              (multi_role_addMappingEntry cfg s h).1.connHandleMap j = s.connHandleMap j)
      ∧ ((∀ i, i < cfg.MAX_NUM_BLE_CONNS → s.connHandleMap i ≠ cfg.INVALID_CONNHANDLE) →
          (multi_role_addMappingEntry cfg s h).1.connHandleMap = s.connHandleMap)
      ∧ (multi_role_addMappingEntry cfg s h).1
          = { s with connHandleMap := (multi_role_addMappingEntry cfg s h).1.connHandleMap } := by
  refine ⟨fun i hi hfree hleast => ?_, fun hfull => ?_, ?_⟩
  · have hloop : addLoop cfg s.connHandleMap 0 cfg.MAX_NUM_BLE_CONNS = some i := by
      rw [addLoop_eq_mapLoop, mapLoop_eq_some]
      exact ⟨Nat.zero_le _, by omega, hfree, fun j _ hj => hleast j hj⟩
    simp only [multi_role_addMappingEntry, hloop]
    exact ⟨setAt_same _ _ _, fun j hj => setAt_other _ _ _ _ hj⟩
  · have hloop : addLoop cfg s.connHandleMap 0 cfg.MAX_NUM_BLE_CONNS = none := by
      rw [addLoop_eq_mapLoop, mapLoop_eq_none]
      intro j _ hj; exact hfull j (by omega)
    simp only [multi_role_addMappingEntry, hloop]
  · unfold multi_role_addMappingEntry
    cases addLoop cfg s.connHandleMap 0 cfg.MAX_NUM_BLE_CONNS with
    | none => rfl
    | some index => rfl

/-- Claim C25. A link-established event with status `SUCCESS` is handled without
abort: the new state is that of `multi_role_addMappingEntry` applied after
`connHandle` took the handle of the event, so `connHandle` is the handle of the
event and `discState` keeps its value; the handle is added to the connection
table: the least free slot of `connHandleMap` holds it afterwards and every
other slot keeps its content (a table without free slot is left unchanged);
no variable other than `connHandle` and `connHandleMap` changes; the calls
issued are the disabling of advertising, exactly when
`linkDB_NumActive() >= MAX_NUM_BLE_CONNS` or the role of the link is central,
followed by the start of the discovery clock. -/
theorem link_established_success (cfg : Config) (env : Env) (s : State)
    (h : Nat) (role : ConnRole) :
    ∃ s1 acts,
      multi_role_processRoleEvent cfg env
          (gapMultiRoleEvent_t.GAP_LINK_ESTABLISHED_EVENT Status.SUCCESS h role) s
        = some (s1, acts)
      ∧ s1 = (multi_role_addMappingEntry cfg { s with connHandle := h } h).1
      ∧ s1.connHandle = h
      ∧ s1.discState = s.discState
      ∧ Action.Util_startClock ∈ acts
      ∧ (Action.GAPRole_SetParameter_ADVERT_ENABLED false ∈ acts ↔
          (cfg.MAX_NUM_BLE_CONNS ≤ env.linkDB_NumActive
            ∨ role = ConnRole.GAP_PROFILE_CENTRAL))
      ∧ (∀ i, i < cfg.MAX_NUM_BLE_CONNS → s.connHandleMap i = cfg.INVALID_CONNHANDLE →
          (∀ j, j < i → s.connHandleMap j ≠ cfg.INVALID_CONNHANDLE) →
          s1.connHandleMap i = h ∧ ∀ j, j ≠ i → s1.connHandleMap j = s.connHandleMap j)
      ∧ ((∀ i, i < cfg.MAX_NUM_BLE_CONNS → s.connHandleMap i ≠ cfg.INVALID_CONNHANDLE) →
          s1.connHandleMap = s.connHandleMap)
      ∧ s1 = { s with connHandle := h, connHandleMap := s1.connHandleMap }
      ∧ acts = (if cfg.MAX_NUM_BLE_CONNS ≤ env.linkDB_NumActive
                    ∨ role = ConnRole.GAP_PROFILE_CENTRAL
                then [Action.GAPRole_SetParameter_ADVERT_ENABLED false] else [])
                ++ [Action.Util_startClock] := by
  have hf := addMappingEntry_frame cfg { s with connHandle := h } h
  have ht := addMappingEntry_connHandleMap cfg { s with connHandle := h } h
  refine ⟨(multi_role_addMappingEntry cfg { s with connHandle := h } h).1,
    (if cfg.MAX_NUM_BLE_CONNS ≤ env.linkDB_NumActive
          ∨ role = ConnRole.GAP_PROFILE_CENTRAL
       then [Action.GAPRole_SetParameter_ADVERT_ENABLED false] else [])
      ++ [Action.Util_startClock], ?_, rfl, hf.1, hf.2.1, ?_, ?_, ht.1, ht.2.1, ht.2.2, rfl⟩
  · simp only [multi_role_processRoleEvent, if_true]
  · exact List.mem_append_right _ (List.mem_singleton.mpr rfl)
  · by_cases hc : cfg.MAX_NUM_BLE_CONNS ≤ env.linkDB_NumActive
        ∨ role = ConnRole.GAP_PROFILE_CENTRAL
    · rw [if_pos hc]
      exact ⟨fun _ => hc, fun _ => List.mem_append_left _ (List.mem_singleton.mpr rfl)⟩
    · rw [if_neg hc]
      refine ⟨fun hm => ?_, fun hh => absurd hh hc⟩
      rw [List.nil_append, List.mem_singleton] at hm
      exact Action.noConfusion hm

/-- Claim C25, at a concrete table: in the table `[10, free, 12]`, a link
established with handle 13 in the central role puts 13 into slot 1, leaves
slots 0 and 2 as they are, sets `connHandle` to 13, disables advertising and
starts the discovery clock. -/
theorem link_established_success_witness :
    ∃ s1 acts,
      multi_role_processRoleEvent cfg3 (envLinks [])
          (gapMultiRoleEvent_t.GAP_LINK_ESTABLISHED_EVENT Status.SUCCESS 13
            ConnRole.GAP_PROFILE_CENTRAL) stateABC = some (s1, acts)
      ∧ s1.connHandle = 13
      ∧ s1.connHandleMap 0 = 10 ∧ s1.connHandleMap 1 = 13 ∧ s1.connHandleMap 2 = 12
      ∧ acts = [Action.GAPRole_SetParameter_ADVERT_ENABLED false, Action.Util_startClock] := by
  obtain ⟨s1, acts, hrun, _, hc, _, _, _, hadd, _, _, hacts⟩ :=
    link_established_success cfg3 (envLinks []) stateABC 13 ConnRole.GAP_PROFILE_CENTRAL
  have h1 := hadd 1 (by decide) (by decide) (by decide)
  refine ⟨s1, acts, hrun, hc, ?_, h1.1, ?_, ?_⟩
  · rw [h1.2 0 (by decide)]; decide
  · rw [h1.2 2 (by decide)]; decide
  · rw [hacts, if_pos (Or.inr rfl)]; rfl

/-- Claim C26, evaluation of the code. Two runs of the event loop reach a state
in which `discState` is not idle and no slot of `connHandleMap` holds
`connHandle`, and the next GATT message aborts in the lookup of
`multi_role_processGATTDiscEvent`: a link-established event with a failure status
(which sets `connHandle` to `GAP_CONNHANDLE_INIT` and `discState` to
`BLE_DISC_STATE_MTU`), and the termination of the link under discovery (which
clears the slot and leaves `discState` and `connHandle`). -/
theorem abort_reached_during_discovery :
    (∃ s, taskRun cfg3 (multi_role_init cfg3) scenarioConnectFailure = some s
        ∧ s.discState = DiscState.BLE_DISC_STATE_MTU
        ∧ s.connHandle = cfg3.GAP_CONNHANDLE_INIT
        ∧ ¬ Mapped cfg3 s s.connHandle
        ∧ taskRun cfg3 (multi_role_init cfg3)
            (scenarioConnectFailure ++
              [(envLinks [(0, ConnRole.GAP_PROFILE_PERIPHERAL)],
                Event.gattMsg (gattMsg0 0 AttMethod.ATT_MTU_UPDATED_EVENT Status.SUCCESS))])
            = none)
    ∧ (∃ s, taskRun cfg3 (multi_role_init cfg3) scenarioTerminateDuringDiscovery = some s
        ∧ s.discState = DiscState.BLE_DISC_STATE_MTU
        ∧ s.connHandle = 1
        ∧ ¬ Mapped cfg3 s s.connHandle
        ∧ taskRun cfg3 (multi_role_init cfg3)
            (scenarioTerminateDuringDiscovery ++
              [(envLinks [(0, ConnRole.GAP_PROFILE_PERIPHERAL)],
                Event.gattMsg (gattMsg0 0 AttMethod.ATT_MTU_UPDATED_EVENT Status.SUCCESS))])
            = none) := by
  refine ⟨⟨(taskRun cfg3 (multi_role_init cfg3) scenarioConnectFailure).get (by decide),
      (Option.some_get _).symm, by decide, by decide, by decide,
      Option.not_isSome_iff_eq_none.mp (by decide)⟩,
    ⟨(taskRun cfg3 (multi_role_init cfg3) scenarioTerminateDuringDiscovery).get (by decide),
      (Option.some_get _).symm, by decide, by decide, by decide,
      Option.not_isSome_iff_eq_none.mp (by decide)⟩⟩

/-! ### The advertisement filter -/

theorem findSvcUuidLoop_step (uuid : Nat) (pData : List Nat) (dataLen p fuel : Nat) :
    findSvcUuidLoop uuid pData dataLen p (fuel + 1)
      = if p + 1 < dataLen then
          match findSvcUuidStep uuid pData dataLen p with
          | none => some true
          | some p2 => findSvcUuidLoop uuid pData dataLen p2 fuel
        else some false := by
  rw [findSvcUuidLoop]
  by_cases hg : p + 1 < dataLen
  · rw [if_pos hg, if_pos hg]
    unfold findSvcUuidStep
    simp only []
    by_cases h0 : 0 < pData.getD p 0
    · rw [if_pos h0, if_pos h0]
      by_cases ht : pData.getD (p + 1) 0 = GAP_ADTYPE_16BIT_MORE
          ∨ pData.getD (p + 1) 0 = GAP_ADTYPE_16BIT_COMPLETE
      · rw [if_pos ht, if_pos ht]
        rcases hr : findUuidInList uuid pData dataLen (p + 1 + 1) (pData.getD p 0 - 1)
          (pData.getD p 0 - 1) with ⟨b, p2, a2⟩
        cases b <;> rfl
      · rw [if_neg ht, if_neg ht]
    · rw [if_neg h0, if_neg h0]
  · rw [if_neg hg, if_neg hg]

/-- The inner loop never moves backwards. -/
theorem findUuidInList_pos_le (uuid : Nat) (pData : List Nat) (dataLen : Nat) :
    ∀ (fuel p adLen : Nat),
      p ≤ (findUuidInList uuid pData dataLen p adLen fuel).2.1 := by
  intro fuel
  induction fuel with
  | zero => intro p adLen; exact Nat.le_refl p
  | succ fuel ih =>
    intro p adLen
    rw [findUuidInList]
    by_cases hg : 2 ≤ adLen ∧ p + 1 < dataLen
    · rw [if_pos hg]
      by_cases hm : pData.getD p 0 = LO_UINT16 uuid ∧ pData.getD (p + 1) 0 = HI_UINT16 uuid
      · rw [if_pos hm]
      · rw [if_neg hm]
        exact Nat.le_trans (by omega) (ih (p + 2) (adLen - 2))
    · rw [if_neg hg]

/-- The inner loop is left only when its condition `adLen >= 2 && pData < pEnd`
is false or a match returned: `adLen - 1` iterations are enough. -/
theorem findUuidInList_exit (uuid : Nat) (pData : List Nat) (dataLen : Nat) :
    ∀ (fuel p adLen : Nat), adLen ≤ 2 * fuel + 1 →
      (findUuidInList uuid pData dataLen p adLen fuel).1 = false →
      ¬ (2 ≤ (findUuidInList uuid pData dataLen p adLen fuel).2.2
          ∧ (findUuidInList uuid pData dataLen p adLen fuel).2.1 + 1 < dataLen) := by
  intro fuel
  induction fuel with
  | zero =>
    intro p adLen ha _
    show ¬ (2 ≤ adLen ∧ p + 1 < dataLen)
    omega
  | succ fuel ih =>
    intro p adLen ha
    rw [findUuidInList]
    by_cases hg : 2 ≤ adLen ∧ p + 1 < dataLen
    · rw [if_pos hg]
      by_cases hm : pData.getD p 0 = LO_UINT16 uuid ∧ pData.getD (p + 1) 0 = HI_UINT16 uuid
      · rw [if_pos hm]
        intro h
        exact absurd h (Bool.noConfusion)
      · rw [if_neg hm]
        exact ih (p + 2) (adLen - 2) (by omega)
    · rw [if_neg hg]
      intro _
      exact hg

/-- An iteration of the outer loop that does not return `TRUE` advances by at
least one byte. -/
theorem findSvcUuidStep_advances (uuid : Nat) (pData : List Nat) (dataLen p p2 : Nat)
    (h : findSvcUuidStep uuid pData dataLen p = some p2) : p < p2 := by
  unfold findSvcUuidStep at h
  simp only [] at h
  by_cases h0 : 0 < pData.getD p 0
  · rw [if_pos h0] at h
    by_cases ht : pData.getD (p + 1) 0 = GAP_ADTYPE_16BIT_MORE
        ∨ pData.getD (p + 1) 0 = GAP_ADTYPE_16BIT_COMPLETE
    · rw [if_pos ht] at h
      have hle := findUuidInList_pos_le uuid pData dataLen (pData.getD p 0 - 1) (p + 1 + 1)
        (pData.getD p 0 - 1)
      rcases hr : findUuidInList uuid pData dataLen (p + 1 + 1) (pData.getD p 0 - 1)
        (pData.getD p 0 - 1) with ⟨b, q, a2⟩
      rw [hr] at h hle
      cases b with
      | true => exact absurd h (by simp)
      | false =>
        simp only [Option.some.injEq] at h
        simp only at hle
        by_cases ha : a2 = 1
        · rw [if_pos ha] at h; omega
        · rw [if_neg ha] at h; omega
    · rw [if_neg ht] at h
      simp only [Option.some.injEq] at h
      omega
  · rw [if_neg h0] at h
    simp only [Option.some.injEq] at h
    omega

/-- With `fuel` iterations allowed from offset `p`, the outer loop returns as
soon as `dataLen ≤ p + fuel + 1`. -/
theorem findSvcUuidLoop_total (uuid : Nat) (pData : List Nat) (dataLen : Nat) :
    ∀ (fuel p : Nat), dataLen ≤ p + fuel + 1 →
      ∃ b, findSvcUuidLoop uuid pData dataLen p fuel = some b := by
  intro fuel
  induction fuel with
  | zero =>
    intro p h
    rw [findSvcUuidLoop, if_neg (by omega)]
    exact ⟨false, rfl⟩
  | succ fuel ih =>
    intro p h
    rw [findSvcUuidLoop_step]
    by_cases hg : p + 1 < dataLen
    · rw [if_pos hg]
      cases hs : findSvcUuidStep uuid pData dataLen p with
      | none => exact ⟨true, rfl⟩
      | some p2 =>
        have := findSvcUuidStep_advances uuid pData dataLen p p2 hs
        exact ih p2 (by omega)
    · rw [if_neg hg]
      exact ⟨false, rfl⟩

/-- More iterations allowed than needed do not change the result. -/
theorem findSvcUuidLoop_fuel (uuid : Nat) (pData : List Nat) (dataLen : Nat) :
    ∀ (fuel p extra : Nat), dataLen ≤ p + fuel + 1 →
      findSvcUuidLoop uuid pData dataLen p (fuel + extra)
        = findSvcUuidLoop uuid pData dataLen p fuel := by
  intro fuel
  induction fuel with
  | zero =>
    intro p extra h
    rw [Nat.zero_add, findSvcUuidLoop.eq_1]
    cases extra with
    | zero => rfl
    | succ e => rw [findSvcUuidLoop_step, if_neg (by omega), if_neg (by omega)]
  | succ fuel ih =>
    intro p extra h
    have he : fuel + 1 + extra = (fuel + extra) + 1 := by omega
    rw [he, findSvcUuidLoop_step, findSvcUuidLoop_step]
    by_cases hg : p + 1 < dataLen
    · rw [if_pos hg, if_pos hg]
      cases hs : findSvcUuidStep uuid pData dataLen p with
      | none => rfl
      | some p2 =>
        have := findSvcUuidStep_advances uuid pData dataLen p p2 hs
        exact ih p2 extra (by omega)
    · rw [if_neg hg, if_neg hg]

/-- The outer loop is entered at most `dataLen - p` times from offset `p`,
however many iterations are allowed. -/
theorem findSvcUuidPositions_length (uuid : Nat) (pData : List Nat) (dataLen : Nat) :
    ∀ (fuel p : Nat),
      (findSvcUuidPositions uuid pData dataLen p fuel).length ≤ dataLen - p := by
  intro fuel
  induction fuel with
  | zero => intro p; exact Nat.zero_le _
  | succ fuel ih =>
    intro p
    rw [findSvcUuidPositions]
    by_cases hg : p + 1 < dataLen
    · rw [if_pos hg]
      cases hs : findSvcUuidStep uuid pData dataLen p with
      | none => simp only [List.length_cons, List.length_nil]; omega
      | some p2 =>
        have := findSvcUuidStep_advances uuid pData dataLen p p2 hs
        have := ih p2
        simp only [List.length_cons]
        omega
    · rw [if_neg hg]
      exact Nat.zero_le _

/-- Claim C29. `multi_role_findSvcUuid` returns on every input: an iteration of
the outer loop either returns `TRUE` or moves the position forward by at least
one byte (a field of length zero and the odd trailing byte of a UUID list
included), the inner loop is left through its own condition within the
iterations the model allows it, the outer loop is
entered at most `dataLen` times however many iterations are allowed, and
allowing more than `dataLen` iterations does not change the result. -/
theorem findSvcUuid_terminates (uuid : Nat) (pData : List Nat) (dataLen : Nat) :
    (∃ b, multi_role_findSvcUuid uuid pData dataLen = some b)
      ∧ (∀ p p2, findSvcUuidStep uuid pData dataLen p = some p2 → p + 1 ≤ p2)
      ∧ (∀ p adLen, (findUuidInList uuid pData dataLen p adLen adLen).1 = false →
          ¬ (2 ≤ (findUuidInList uuid pData dataLen p adLen adLen).2.2
              ∧ (findUuidInList uuid pData dataLen p adLen adLen).2.1 + 1 < dataLen))
      ∧ (∀ fuel, (findSvcUuidPositions uuid pData dataLen 0 fuel).length ≤ dataLen)
      ∧ (∀ extra, findSvcUuidLoop uuid pData dataLen 0 (dataLen + extra)
          = multi_role_findSvcUuid uuid pData dataLen) := by
  refine ⟨findSvcUuidLoop_total uuid pData dataLen dataLen 0 (by omega),
    fun p p2 h => findSvcUuidStep_advances uuid pData dataLen p p2 h,
    fun p adLen => findUuidInList_exit uuid pData dataLen adLen p adLen (by omega),
    fun fuel => findSvcUuidPositions_length uuid pData dataLen fuel 0,
    fun extra => findSvcUuidLoop_fuel uuid pData dataLen dataLen 0 extra (by omega)⟩

theorem findUuidInListReads_lt (uuid : Nat) (pData : List Nat) (dataLen : Nat) :
    ∀ (fuel p adLen i : Nat),
      i ∈ findUuidInListReads uuid pData dataLen p adLen fuel → i < dataLen := by
  intro fuel
  induction fuel with
  | zero => intro p adLen i h; exact absurd h (List.not_mem_nil i)
  | succ fuel ih =>
    intro p adLen i h
    rw [findUuidInListReads] at h
    by_cases hg : 2 ≤ adLen ∧ p + 1 < dataLen
    · rw [if_pos hg] at h
      have hp : ∀ j, j ∈ [p, p + 1] → j < dataLen := by
        intro j hj
        simp only [List.mem_cons, List.mem_singleton, List.not_mem_nil, or_false] at hj
        omega
      by_cases h0 : pData.getD p 0 = LO_UINT16 uuid
      · rw [if_pos h0] at h
        by_cases h1 : pData.getD (p + 1) 0 = HI_UINT16 uuid
        · rw [if_pos h1] at h
          exact hp i h
        · rw [if_neg h1] at h
          rcases List.mem_append.mp h with h | h
          · exact hp i h
          · exact ih _ _ i h
      · rw [if_neg h0] at h
        rcases List.mem_append.mp h with h | h
        · rw [List.mem_singleton] at h
          omega
        · exact ih _ _ i h
    · rw [if_neg hg] at h
      exact absurd h (List.not_mem_nil i)

theorem findSvcUuidStepReads_lt (uuid : Nat) (pData : List Nat) (dataLen p i : Nat)
    (hg : p + 1 < dataLen) (h : i ∈ findSvcUuidStepReads uuid pData dataLen p) :
    i < dataLen := by
  unfold findSvcUuidStepReads at h
  simp only [] at h
  rcases List.mem_append.mp h with h | h
  · rw [List.mem_singleton] at h
    omega
  · by_cases h0 : 0 < pData.getD p 0
    · rw [if_pos h0] at h
      rcases List.mem_append.mp h with h | h
      · rw [List.mem_singleton] at h
        omega
      · by_cases ht : pData.getD (p + 1) 0 = GAP_ADTYPE_16BIT_MORE
            ∨ pData.getD (p + 1) 0 = GAP_ADTYPE_16BIT_COMPLETE
        · rw [if_pos ht] at h
          exact findUuidInListReads_lt uuid pData dataLen _ _ _ i h
        · rw [if_neg ht] at h
          exact absurd h (List.not_mem_nil i)
    · rw [if_neg h0] at h
      exact absurd h (List.not_mem_nil i)

theorem findSvcUuidReads_lt (uuid : Nat) (pData : List Nat) (dataLen : Nat) :
    ∀ (fuel p i : Nat), i ∈ findSvcUuidReads uuid pData dataLen p fuel → i < dataLen := by
  intro fuel
  induction fuel with
  | zero => intro p i h; exact absurd h (List.not_mem_nil i)
  | succ fuel ih =>
    intro p i h
    rw [findSvcUuidReads] at h
    by_cases hg : p + 1 < dataLen
    · rw [if_pos hg] at h
      rcases List.mem_append.mp h with h | h
      · exact findSvcUuidStepReads_lt uuid pData dataLen p i hg h
      · cases hs : findSvcUuidStep uuid pData dataLen p with
        | none => rw [hs] at h; exact absurd h (List.not_mem_nil i)
        | some p2 => rw [hs] at h; exact ih p2 i h
    · rw [if_neg hg] at h
      exact absurd h (List.not_mem_nil i)

/-- Two buffers that agree below `dataLen` give the inner loop the same result. -/
theorem findUuidInList_congr (uuid : Nat) (pData qData : List Nat) (dataLen : Nat)
    (hag : ∀ i, i < dataLen → pData.getD i 0 = qData.getD i 0) :
    ∀ (fuel p adLen : Nat),
      findUuidInList uuid pData dataLen p adLen fuel
        = findUuidInList uuid qData dataLen p adLen fuel := by
  intro fuel
  induction fuel with
  | zero => intro p adLen; rfl
  | succ fuel ih =>
    intro p adLen
    rw [findUuidInList, findUuidInList]
    by_cases hg : 2 ≤ adLen ∧ p + 1 < dataLen
    · rw [if_pos hg, if_pos hg, hag p (by omega), hag (p + 1) hg.2, ih]
    · rw [if_neg hg, if_neg hg]

theorem findSvcUuidStep_congr (uuid : Nat) (pData qData : List Nat) (dataLen p : Nat)
    (hag : ∀ i, i < dataLen → pData.getD i 0 = qData.getD i 0) (hg : p + 1 < dataLen) :
    findSvcUuidStep uuid pData dataLen p = findSvcUuidStep uuid qData dataLen p := by
  unfold findSvcUuidStep
  simp only []
  rw [hag p (by omega), hag (p + 1) hg, findUuidInList_congr uuid pData qData dataLen hag]

theorem findSvcUuidLoop_congr (uuid : Nat) (pData qData : List Nat) (dataLen : Nat)
    (hag : ∀ i, i < dataLen → pData.getD i 0 = qData.getD i 0) :
    ∀ (fuel p : Nat),
      findSvcUuidLoop uuid pData dataLen p fuel = findSvcUuidLoop uuid qData dataLen p fuel := by
  intro fuel
  induction fuel with
  | zero => intro p; rw [findSvcUuidLoop, findSvcUuidLoop]
  | succ fuel ih =>
    intro p
    rw [findSvcUuidLoop_step, findSvcUuidLoop_step]
    by_cases hg : p + 1 < dataLen
    · rw [if_pos hg, if_pos hg, findSvcUuidStep_congr uuid pData qData dataLen p hag hg]
      cases findSvcUuidStep uuid qData dataLen p with
      | none => rfl
      | some p2 => exact ih p2
    · rw [if_neg hg, if_neg hg]

/-- Claim C28. For every buffer, every `dataLen` (zero included) and every
`uuid`, each offset that `multi_role_findSvcUuid` dereferences is strictly below
`dataLen`, whatever the buffer holds (hence inside the buffer when `dataLen` is
at most its length), and the result is the same for two buffers that agree
below `dataLen`. -/
theorem findSvcUuid_reads_below_dataLen (uuid : Nat) (pData : List Nat) (dataLen : Nat) :
    (∀ fuel i, i ∈ findSvcUuidReads uuid pData dataLen 0 fuel → i < dataLen)
      ∧ (dataLen ≤ pData.length →
          ∀ i, i ∈ findSvcUuidReads uuid pData dataLen 0 dataLen → i < pData.length)
      ∧ (∀ qData, (∀ i, i < dataLen → pData.getD i 0 = qData.getD i 0) →
          multi_role_findSvcUuid uuid qData dataLen
            = multi_role_findSvcUuid uuid pData dataLen) := by
  refine ⟨fun fuel i h => findSvcUuidReads_lt uuid pData dataLen fuel 0 i h,
    fun hlen i h => Nat.lt_of_lt_of_le (findSvcUuidReads_lt uuid pData dataLen dataLen 0 i h)
      hlen,
    fun qData hag => (findSvcUuidLoop_congr uuid pData qData dataLen hag dataLen 0).symm⟩

/-- The inner loop over `adLen` bytes that lie inside the payload: it returns
`TRUE` exactly when the pair of `uuid` stands at an even offset, and is left
otherwise after the last complete pair. -/
theorem findUuidInList_scan (uuid : Nat) (pData : List Nat) (dataLen : Nat) :
    ∀ (fuel q adLen : Nat), adLen ≤ fuel → q + adLen ≤ dataLen →
      ((∃ j, 2 * j + 1 < adLen ∧ pData.getD (q + 2 * j) 0 = LO_UINT16 uuid
            ∧ pData.getD (q + 2 * j + 1) 0 = HI_UINT16 uuid) →
          (findUuidInList uuid pData dataLen q adLen fuel).1 = true)
      ∧ ((¬ ∃ j, 2 * j + 1 < adLen ∧ pData.getD (q + 2 * j) 0 = LO_UINT16 uuid
            ∧ pData.getD (q + 2 * j + 1) 0 = HI_UINT16 uuid) →
          findUuidInList uuid pData dataLen q adLen fuel
            = (false, q + 2 * (adLen / 2), adLen % 2)) := by
  intro fuel
  induction fuel with
  | zero =>
    intro q adLen ha _
    have : adLen = 0 := by omega
    subst this
    refine ⟨?_, fun _ => rfl⟩
    rintro ⟨j, hj, _⟩
    omega
  | succ fuel ih =>
    intro q adLen ha hq
    rw [findUuidInList]
    by_cases hg : 2 ≤ adLen ∧ q + 1 < dataLen
    · rw [if_pos hg]
      by_cases hm : pData.getD q 0 = LO_UINT16 uuid ∧ pData.getD (q + 1) 0 = HI_UINT16 uuid
      · rw [if_pos hm]
        refine ⟨fun _ => rfl, fun hne => ?_⟩
        exact absurd ⟨0, by omega, hm.1, hm.2⟩ hne
      · rw [if_neg hm]
        obtain ⟨ih1, ih2⟩ := ih (q + 2) (adLen - 2) (by omega) (by omega)
        refine ⟨?_, fun hne => ?_⟩
        · rintro ⟨j, hj, h0, h1⟩
          cases j with
          | zero => exact absurd ⟨h0, h1⟩ hm
          | succ j =>
            refine ih1 ⟨j, by omega, ?_, ?_⟩
            · rw [show q + 2 + 2 * j = q + 2 * (j + 1) by omega]; exact h0
            · rw [show q + 2 + 2 * j + 1 = q + 2 * (j + 1) + 1 by omega]; exact h1
        · rw [ih2 ?_]
          · have h1 : q + 2 + 2 * ((adLen - 2) / 2) = q + 2 * (adLen / 2) := by omega
            have h2 : (adLen - 2) % 2 = adLen % 2 := by omega
            rw [h1, h2]
          · rintro ⟨j, hj, h0, h1⟩
            refine hne ⟨j + 1, by omega, ?_, ?_⟩
            · rw [show q + 2 * (j + 1) = q + 2 + 2 * j by omega]; exact h0
            · rw [show q + 2 * (j + 1) + 1 = q + 2 + 2 * j + 1 by omega]; exact h1
    · rw [if_neg hg]
      have hlt : adLen < 2 := by omega
      refine ⟨?_, fun _ => ?_⟩
      · rintro ⟨j, hj, _⟩
        omega
      · have h1 : adLen / 2 = 0 := by omega
        have h2 : adLen % 2 = adLen := by omega
        rw [h1, h2]
        rfl

theorem advPayload_cons (f : AdField) (fs : List AdField) :
    advPayload (f :: fs) = (f.data.length + 1) :: f.adType :: (f.data ++ advPayload fs) := rfl

theorem getD_prefix_len (pre : List Nat) (f : AdField) (rest : List Nat) :
    (pre ++ ((f.data.length + 1) :: f.adType :: (f.data ++ rest))).getD pre.length 0
      = f.data.length + 1 := by
  rw [List.getD_append_right _ _ _ _ (Nat.le_refl _), Nat.sub_self]
  rfl

theorem getD_prefix_type (pre : List Nat) (f : AdField) (rest : List Nat) :
    (pre ++ ((f.data.length + 1) :: f.adType :: (f.data ++ rest))).getD (pre.length + 1) 0
      = f.adType := by
  rw [List.getD_append_right _ _ _ _ (by omega), Nat.add_sub_cancel_left]
  rfl

theorem getD_prefix_data (pre : List Nat) (f : AdField) (rest : List Nat) (i : Nat)
    (hi : i < f.data.length) :
    (pre ++ ((f.data.length + 1) :: f.adType :: (f.data ++ rest))).getD
        (pre.length + 1 + 1 + i) 0
      = f.data.getD i 0 := by
  rw [List.getD_append_right _ _ _ _ (by omega),
    show pre.length + 1 + 1 + i - pre.length = i + 1 + 1 by omega]
  show (f.data ++ rest).getD i 0 = _
  exact List.getD_append _ _ _ _ hi

/-- The iteration of the outer loop entered at the first byte of a field:
it returns `TRUE` when the field holds `uuid`, and continues right after the
field otherwise. -/
theorem findSvcUuidStep_field (uuid : Nat) (pre : List Nat) (f : AdField) (rest : List Nat)
    (dataLen : Nat) (hlen : pre.length + f.data.length + 2 ≤ dataLen) :
    (f.holdsUuid uuid →
        findSvcUuidStep uuid (pre ++ ((f.data.length + 1) :: f.adType :: (f.data ++ rest)))
          dataLen pre.length = none)
      ∧ (¬ f.holdsUuid uuid →
        findSvcUuidStep uuid (pre ++ ((f.data.length + 1) :: f.adType :: (f.data ++ rest)))
          dataLen pre.length = some (pre.length + f.data.length + 2)) := by
  have hscan := findUuidInList_scan uuid
    (pre ++ ((f.data.length + 1) :: f.adType :: (f.data ++ rest))) dataLen
    f.data.length (pre.length + 1 + 1) f.data.length (Nat.le_refl _) (by omega)
  have hpair : (∃ j, 2 * j + 1 < f.data.length
        ∧ (pre ++ ((f.data.length + 1) :: f.adType :: (f.data ++ rest))).getD
            (pre.length + 1 + 1 + 2 * j) 0 = LO_UINT16 uuid
        ∧ (pre ++ ((f.data.length + 1) :: f.adType :: (f.data ++ rest))).getD
            (pre.length + 1 + 1 + 2 * j + 1) 0 = HI_UINT16 uuid)
      ↔ holdsPair uuid f.data := by
    constructor
    · rintro ⟨j, hj, h0, h1⟩
      rw [getD_prefix_data pre f rest (2 * j) (by omega)] at h0
      rw [Nat.add_assoc (pre.length + 1 + 1) (2 * j) 1,
        getD_prefix_data pre f rest (2 * j + 1) hj] at h1
      exact ⟨j, hj, h0, h1⟩
    · rintro ⟨j, hj, h0, h1⟩
      refine ⟨j, hj, ?_, ?_⟩
      · rw [getD_prefix_data pre f rest (2 * j) (by omega)]; exact h0
      · rw [Nat.add_assoc (pre.length + 1 + 1) (2 * j) 1,
          getD_prefix_data pre f rest (2 * j + 1) hj]
        exact h1
  have hstep : findSvcUuidStep uuid
      (pre ++ ((f.data.length + 1) :: f.adType :: (f.data ++ rest))) dataLen pre.length
      = if f.adType = GAP_ADTYPE_16BIT_MORE ∨ f.adType = GAP_ADTYPE_16BIT_COMPLETE then
          match findUuidInList uuid
            (pre ++ ((f.data.length + 1) :: f.adType :: (f.data ++ rest))) dataLen
            (pre.length + 1 + 1) f.data.length f.data.length with
          | (true, _, _) => none
          | (false, p2, adLen2) => some (if adLen2 = 1 then p2 + 1 else p2)
        else some (pre.length + 1 + (f.data.length + 1)) := by
    unfold findSvcUuidStep
    simp only []
    rw [getD_prefix_len, getD_prefix_type, if_pos (Nat.succ_pos _), Nat.add_sub_cancel]
  rw [hstep]
  by_cases ht : f.adType = GAP_ADTYPE_16BIT_MORE ∨ f.adType = GAP_ADTYPE_16BIT_COMPLETE
  · rw [if_pos ht]
    by_cases hp : holdsPair uuid f.data
    · have h1 := hscan.1 (hpair.mpr hp)
      refine ⟨fun _ => ?_, fun hn => absurd ⟨ht, hp⟩ hn⟩
      rcases hr : findUuidInList uuid
        (pre ++ ((f.data.length + 1) :: f.adType :: (f.data ++ rest))) dataLen
        (pre.length + 1 + 1) f.data.length f.data.length with ⟨b, p2, a2⟩
      rw [hr] at h1
      simp only at h1
      subst h1
      rfl
    · have h2 := hscan.2 (fun h => hp (hpair.mp h))
      refine ⟨fun hh => absurd hh.2 hp, fun _ => ?_⟩
      rw [h2]
      simp only []
      by_cases hodd : f.data.length % 2 = 1
      · rw [if_pos hodd]
        congr 1
        omega
      · rw [if_neg hodd]
        congr 1
        omega
  · rw [if_neg ht]
    refine ⟨fun hh => absurd hh.1 ht, fun _ => ?_⟩
    congr 1
    omega

/-- The outer loop entered at the first byte of a sequence of fields that ends
the payload. -/
theorem findSvcUuidLoop_fields (uuid : Nat) :
    ∀ (fs : List AdField) (pre : List Nat) (fuel : Nat), fs.length ≤ fuel →
      ∃ b, findSvcUuidLoop uuid (pre ++ advPayload fs) (pre ++ advPayload fs).length
          pre.length fuel = some b
        ∧ (b = true ↔ ∃ f, f ∈ fs ∧ f.holdsUuid uuid) := by
  intro fs
  induction fs with
  | nil =>
    intro pre fuel _
    refine ⟨false, ?_, ?_⟩
    · have hl : (pre ++ advPayload []).length = pre.length := by
        simp [advPayload]
      rw [hl]
      cases fuel with
      | zero => rw [findSvcUuidLoop, if_neg (by omega)]
      | succ n => rw [findSvcUuidLoop_step, if_neg (by omega)]
    · constructor
      · intro h; exact absurd h (by decide)
      · rintro ⟨f, hf, _⟩; exact absurd hf (List.not_mem_nil f)
  | cons f fs ih =>
    intro pre fuel hfuel
    cases fuel with
    | zero => exact absurd hfuel (by simp)
    | succ fuel =>
      have hlen : (pre ++ advPayload (f :: fs)).length
          = pre.length + f.data.length + 2 + (advPayload fs).length := by
        rw [advPayload_cons]
        simp only [List.length_append, List.length_cons]
        omega
      have hstep := findSvcUuidStep_field uuid pre f (advPayload fs)
        (pre ++ advPayload (f :: fs)).length (by omega)
      rw [← advPayload_cons] at hstep
      rw [findSvcUuidLoop_step, if_pos (by omega)]
      by_cases hh : f.holdsUuid uuid
      · rw [hstep.1 hh]
        exact ⟨true, rfl, fun _ => ⟨f, List.mem_cons_self f fs, hh⟩, fun _ => rfl⟩
      · rw [hstep.2 hh]
        have hassoc : pre ++ advPayload (f :: fs) = (pre ++ f.encode) ++ advPayload fs := by
          show pre ++ (f.encode ++ advPayload fs) = _
          rw [List.append_assoc]
        have hpl : (pre ++ f.encode).length = pre.length + f.data.length + 2 := by
          simp only [AdField.encode, List.length_append, List.length_cons]
          omega
        obtain ⟨b, hb, hiff⟩ := ih (pre ++ f.encode) fuel (by simpa using hfuel)
        rw [hpl, ← hassoc] at hb
        refine ⟨b, hb, ?_⟩
        rw [hiff]
        constructor
        · rintro ⟨g, hg, hgu⟩
          exact ⟨g, List.mem_cons_of_mem f hg, hgu⟩
        · rintro ⟨g, hg, hgu⟩
          rcases List.mem_cons.mp hg with rfl | hg
          · exact absurd hgu hh
          · exact ⟨g, hg, hgu⟩

theorem advPayload_length_ge (fs : List AdField) : fs.length ≤ (advPayload fs).length := by
  induction fs with
  | nil => exact Nat.le_refl 0
  | cons f fs ih =>
    rw [advPayload_cons]
    simp only [List.length_cons, List.length_append]
    omega

/-- Claim C24. For every payload made of fields `[len, type, data]` with
`len = 1 + ` the number of data bytes, passed with its total size as `dataLen`,
and every `uuid`, `multi_role_findSvcUuid` returns, and it returns `TRUE` exactly
when some field of type 0x02 or 0x03 holds the bytes `(LO_UINT16(uuid),
HI_UINT16(uuid))` at an even offset of its data; a field of another type never
matches. -/
theorem findSvcUuid_wellformed (uuid : Nat) (fs : List AdField) :
    ∃ b, multi_role_findSvcUuid uuid (advPayload fs) (advPayload fs).length = some b
      ∧ (b = true ↔ ∃ f, f ∈ fs ∧ f.holdsUuid uuid) :=
  findSvcUuidLoop_fields uuid fs [] (advPayload fs).length (advPayload_length_ge fs)

theorem findSvcUuid_wellformed_witness :
    advPayload [⟨0x01, [0x06]⟩, ⟨0x02, [0x80, 0xAA]⟩] = [0x02, 0x01, 0x06, 0x03, 0x02, 0x80, 0xAA]
      ∧ multi_role_findSvcUuid 0xAA80 [0x02, 0x01, 0x06, 0x03, 0x02, 0x80, 0xAA] 7
          = some true := by
  refine ⟨rfl, ?_⟩
  obtain ⟨b, hb, hiff⟩ := findSvcUuid_wellformed 0xAA80 [⟨0x01, [0x06]⟩, ⟨0x02, [0x80, 0xAA]⟩]
  have hbt : b = true :=
    hiff.mpr ⟨⟨0x02, [0x80, 0xAA]⟩, by decide, Or.inl rfl, 0, by decide, by decide, by decide⟩
  rw [hbt] at hb
  exact hb

end MultiRole
